import Mathlib

/-!
Shallow embedding of the StarDraft real-time-strategy simulation engine
(src/services/gameLogic.ts and src/services/network.ts) over exact rationals.

JavaScript `number` is modelled by `ℚ`; the floating-point transcendental
functions (`Math.sqrt`, `Math.atan2`, `Math.cos`, `Math.sin`) and JS number
formatting are abstracted into a `JsMath` parameter record, so every theorem
quantifies over (or fixes a concrete instance of) those functions.
The ambient `Math.random()` stream and the mutable global id counter of
gameLogic.ts are made explicit in an `Ext` record threaded through the tick.
The repository's constants module (STATS table, GATHER_TIME,
RESOURCE_GATHER_AMOUNT, GAME_WIDTH, GAME_HEIGHT) is not present under src/,
so it is kept abstract as a `Consts` parameter record.
-/

namespace StarDraft

/-- Entity categories, from types.ts `EntityType`. -/
inductive EntityType
  | WORKER | MARINE | MEDIC | BASE | BARRACKS | BUNKER
  | SUPPLY_DEPOT | MINERAL | MOUNTAIN | WATER
deriving DecidableEq, Repr

/-- Faction tags, from types.ts `Owner` (single-player engine variant). -/
inductive Owner
  | PLAYER | AI | NEUTRAL
deriving DecidableEq, Repr

/-- AI difficulty, from types.ts `Difficulty`. -/
inductive Difficulty
  | EASY | MEDIUM | HARD
deriving DecidableEq, Repr

/-- Entity state tags, from types.ts `Entity.state`. -/
inductive EState
  | IDLE | MOVING | ATTACKING | GATHERING | RETURNING
  | BUILDING | ENTERING | GARRISONED | HEALING
deriving DecidableEq, Repr

/-- 2-d vector, from types.ts `Vector2`. -/
structure Vec2 where
  x : ℚ
  y : ℚ
deriving DecidableEq, Repr

/-- Per-type stats row, from types.ts `UnitStats`. -/
structure UnitStats where
  cost : ℚ
  hp : ℚ
  damage : ℚ
  range : ℚ
  vision : ℚ
  speed : ℚ
  attackSpeed : ℚ
  buildTime : ℚ
  width : ℚ
  height : ℚ
  supplyCost : ℚ
  supplyProvided : ℚ
  healRate : Option ℚ
deriving DecidableEq, Repr

/-- Game entity record, from types.ts `Entity`. Optional numeric fields that
gameLogic.ts always initialises (`resourceAmount`, `constructionProgress`,
`trainProgress`) are carried as plain rationals. -/
structure Entity where
  id : String
  type : EntityType
  owner : Owner
  position : Vec2
  radius : ℚ
  hp : ℚ
  maxHp : ℚ
  targetId : Option String
  targetPosition : Option Vec2
  state : EState
  cooldown : ℚ
  resourceAmount : ℚ
  constructionProgress : ℚ
  trainQueue : List EntityType
  trainProgress : ℚ
  rallyPoint : Option Vec2
  rallyTargetId : Option String
  lastAttackerId : Option String
  garrison : List String
  containerId : Option String
deriving DecidableEq, Repr

/-- Visual effect categories, from types.ts `Effect.type`. -/
inductive EffectType
  | EXPLOSION | BLOOD | BUILDING_EXPLOSION | HEAL
deriving DecidableEq, Repr

/-- Ephemeral visual effect, from types.ts `Effect`. -/
structure Effect where
  id : String
  type : EffectType
  position : Vec2
  life : Int
  maxLife : Int
  scale : ℚ
deriving DecidableEq, Repr

/-- Command marker overlay, from types.ts `Marker` (only the decayed fields
matter to updateGame). -/
structure Marker where
  id : String
  position : Vec2
  life : Int
  maxLife : Int
deriving DecidableEq, Repr

/-- UI message, from types.ts `Notification`. -/
structure Notif where
  id : String
  text : String
  life : Int
deriving DecidableEq, Repr

/-- Per-owner mineral stockpiles, from GameState.resources. -/
structure Res where
  player : ℚ
  ai : ℚ
deriving DecidableEq, Repr

/-- Per-owner supply record, from GameState.supply entries. -/
structure Supply where
  used : ℚ
  max : ℚ
deriving DecidableEq, Repr

/-- Both owners' supply, from GameState.supply. -/
structure SupplyPair where
  player : Supply
  ai : Supply
deriving DecidableEq, Repr

/-- World state snapshot, from types.ts `GameState`. The entity arena is an
insertion-ordered association list mirroring a JS `Map<string, Entity>`. -/
structure GameState where
  entities : List Entity
  effects : List Effect
  markers : List Marker
  notifications : List Notif
  soundEvents : List String
  resources : Res
  supply : SupplyPair
  selection : List String
  camera : Vec2
  victory : Option Owner
  gameTime : ℕ
  difficulty : Difficulty
  paused : Bool
deriving DecidableEq, Repr

/-- Modelled from the spec: the constants module imported by gameLogic.ts
(`../constants`: STATS, GAME_WIDTH, GAME_HEIGHT, GATHER_TIME,
RESOURCE_GATHER_AMOUNT) is not under src/, so its values are abstracted
into a parameter record; the spec describes the stats table as an external,
read-only, type-keyed configuration. -/
structure Consts where
  stats : EntityType → UnitStats
  gameWidth : ℚ
  gameHeight : ℚ
  gatherTime : ℚ
  resourceGatherAmount : ℚ

/-- Abstraction of the JS float math used by gameLogic.ts: `Math.sqrt`,
`Math.atan2`, `Math.cos`, `Math.sin`, and number-to-string conversion used for
randomly generated element ids. -/
structure JsMath where
  sqrt : ℚ → ℚ
  atan2 : ℚ → ℚ → ℚ
  cos : ℚ → ℚ
  sin : ℚ → ℚ
  numToString : ℚ → String

/-- The ambient effects of gameLogic.ts made explicit: the `Math.random()`
stream (values produced in call order) and the module-global `idCounter`
behind `generateId`. -/
structure Ext where
  rnd : ℕ → ℚ
  cur : ℕ
  idc : ℕ

/-- One `Math.random()` call: next stream value, cursor advanced. -/
def Ext.draw (x : Ext) : ℚ × Ext :=
  (x.rnd x.cur, { x with cur := x.cur + 1 })

/-- `generateId`: the id string minted for counter value `n` ("ent_" ++ n). -/
def entId (n : ℕ) : String := "ent_" ++ toString n

/-- `generateId` from gameLogic.ts: pre-increment then mint. -/
def Ext.generateId (x : Ext) : String × Ext :=
  (entId (x.idc + 1), { x with idc := x.idc + 1 })

instance : Inhabited Entity :=
  ⟨{ id := "", type := EntityType.WORKER, owner := Owner.NEUTRAL
     position := ⟨0, 0⟩, radius := 0, hp := 0, maxHp := 0
     targetId := none, targetPosition := none, state := EState.IDLE
     cooldown := 0, resourceAmount := 0, constructionProgress := 100
     trainQueue := [], trainProgress := 0, rallyPoint := none
     rallyTargetId := none, lastAttackerId := none, garrison := []
     containerId := none }⟩

/-- `createEntity` from gameLogic.ts (id supplied by the caller via
`Ext.generateId`); mineral nodes start with 1250 stock. -/
def createEntity (c : Consts) (ty : EntityType) (ow : Owner) (pos : Vec2)
    (id : String) : Entity :=
  let stats := c.stats ty
  let startRes : ℚ := if ty = EntityType.MINERAL then 1250 else 0
  { id := id, type := ty, owner := ow, position := pos
    radius := (max stats.width stats.height) / 2
    hp := stats.hp, maxHp := stats.hp
    targetId := none, targetPosition := none, state := EState.IDLE
    cooldown := 0, resourceAmount := startRes, trainQueue := []
    trainProgress := 0, constructionProgress := 100
    rallyPoint := none, rallyTargetId := none, lastAttackerId := none
    garrison := [], containerId := none }

/-- `getDistance` from gameLogic.ts: Euclidean distance through the abstract
float square root. -/
def getDistance (jm : JsMath) (p1 p2 : Vec2) : ℚ :=
  jm.sqrt ((p1.x - p2.x) ^ 2 + (p1.y - p2.y) ^ 2)

/-- `isBio` from gameLogic.ts. -/
def isBio (ty : EntityType) : Bool :=
  ty = EntityType.WORKER || ty = EntityType.MARINE || ty = EntityType.MEDIC

/-- `isBuilding` from gameLogic.ts. -/
def isBuilding (ty : EntityType) : Bool :=
  ty = EntityType.BASE || ty = EntityType.BARRACKS ||
  ty = EntityType.SUPPLY_DEPOT || ty = EntityType.BUNKER

/-- `findNearest` from gameLogic.ts: nearest non-garrisoned entity matching
the optional type/owner filters; `minDist` starts at JS `Infinity`, modelled
by an `Option` accumulator. -/
def findNearest (jm : JsMath) (pos : Vec2) (es : List Entity)
    (ty : Option EntityType) (ow : Option Owner) : Option Entity :=
  (es.foldl (fun (best : Option (Entity × ℚ)) e =>
    if e.state = EState.GARRISONED then best
    else if (match ty with | some t => decide (e.type ≠ t) | none => false) then best
    else if (match ow with | some o => decide (e.owner ≠ o) | none => false) then best
    else
      let dist := getDistance jm pos e.position
      match best with
      | none => some (e, dist)
      | some (_, bd) => if dist < bd then some (e, dist) else best)
    none).map Prod.fst

/-- `getWorkerCountForMineral` from gameLogic.ts. -/
def getWorkerCountForMineral (mineralId : String) (es : List Entity) : ℕ :=
  es.countP (fun e =>
    e.type = EntityType.WORKER &&
    (e.state = EState.GATHERING || e.state = EState.RETURNING) &&
    e.targetId = some mineralId)

/-- `acquireTarget` from gameLogic.ts: best-scoring hostile candidate within
`range + 250`; the JS `-Infinity` starting score is modelled by an `Option`
accumulator (any first eligible candidate beats it). -/
def acquireTarget (jm : JsMath) (c : Consts) (entity : Entity)
    (es : List Entity) : Option Entity :=
  let stats := c.stats entity.type
  let searchRange := stats.range + 250
  (es.foldl (fun (best : Option (Entity × ℚ)) e =>
    if e.state = EState.GARRISONED then best
    else if e.owner ≠ entity.owner ∧ e.owner ≠ Owner.NEUTRAL ∧ 0 < e.hp ∧
        e.type ≠ EntityType.MOUNTAIN ∧ e.type ≠ EntityType.WATER then
      let d := getDistance jm entity.position e.position
      if d < searchRange then
        let score : ℚ :=
          (if e.targetId = some entity.id then 5000 else 0) +
          (if ¬ isBuilding e.type then 1000 else 100) - d
        match best with
        | none => some (e, score)
        | some (_, bs) => if score > bs then some (e, score) else best
      else best
    else best)
    none).map Prod.fst

/-- `addNotification` from gameLogic.ts: dedup against same-text messages
still young (life > 60), otherwise push a 120-tick message with a random id. -/
def addNotification (jm : JsMath) (notifs : List Notif) (ext : Ext)
    (text : String) : List Notif × Ext :=
  if notifs.any (fun n => n.text = text && n.life > 60) then (notifs, ext)
  else
    let (r, ext) := ext.draw
    (notifs ++ [{ id := "not_" ++ jm.numToString r, text := text, life := 120 }], ext)

/-! ### Arena: the JS `Map` pair of updateGame

`updateGame` iterates the input map `entities` while structural changes
(spawns, deletions) go to `newEntities = new Map(entities)`; both maps share
the same entity objects, so field mutations are visible through either map.
This is modelled by an object store `objs` (index-addressed, creation order)
plus two binding lists key → object index. -/

/-- Shared-object model of the `entities` / `newEntities` map pair. -/
structure Arena where
  objs : List Entity
  ents : List (String × ℕ)
  news : List (String × ℕ)
deriving Repr

/-- Key → store-index bindings for an entity list, indices from `n`. -/
def bindingsFrom : ℕ → List Entity → List (String × ℕ)
  | _, [] => []
  | n, e :: es => (e.id, n) :: bindingsFrom (n + 1) es

/-- Build the arena at tick start: both maps bind the input entities. -/
def Arena.init (es : List Entity) : Arena :=
  let bs := bindingsFrom 0 es
  { objs := es, ents := bs, news := bs }

/-- Current value of the object at store index `i`. -/
def Arena.obj (ar : Arena) (i : ℕ) : Entity := ar.objs.getD i default

/-- Overwrite the object at store index `i` (a JS field mutation). -/
def Arena.objSet (ar : Arena) (i : ℕ) (e : Entity) : Arena :=
  { ar with objs := ar.objs.set i e }

/-- `entities.values()` in iteration order, with current field values. -/
def Arena.entsList (ar : Arena) : List Entity :=
  ar.ents.map (fun b => ar.obj b.2)

/-- `newEntities.values()` in iteration order, with current field values. -/
def Arena.newsList (ar : Arena) : List Entity :=
  ar.news.map (fun b => ar.obj b.2)

/-- `entities.get(k)`. -/
def Arena.entsGet (ar : Arena) (k : String) : Option Entity :=
  (ar.ents.find? (fun b => b.1 = k)).map (fun b => ar.obj b.2)

/-- `newEntities.get(k)`. -/
def Arena.newsGet (ar : Arena) (k : String) : Option Entity :=
  (ar.news.find? (fun b => b.1 = k)).map (fun b => ar.obj b.2)

/-- Mutate the object bound to `k` in the `entities` map (no-op when the key
is unbound). -/
def Arena.modifyEnt (ar : Arena) (k : String) (f : Entity → Entity) : Arena :=
  match ar.ents.find? (fun b => b.1 = k) with
  | some b => ar.objSet b.2 (f (ar.obj b.2))
  | none => ar

/-- Mutate the object bound to `k` in the `newEntities` map. -/
def Arena.modifyNews (ar : Arena) (k : String) (f : Entity → Entity) : Arena :=
  match ar.news.find? (fun b => b.1 = k) with
  | some b => ar.objSet b.2 (f (ar.obj b.2))
  | none => ar

/-- `newEntities.set(k, e)` with a freshly created object. -/
def Arena.newsSet (ar : Arena) (k : String) (e : Entity) : Arena :=
  let oi := ar.objs.length
  let objs2 := ar.objs ++ [e]
  if ar.news.any (fun b => b.1 = k) then
    { ar with
      objs := objs2,
      news := ar.news.map (fun b => if b.1 = k then (k, oi) else b) }
  else
    { ar with objs := objs2, news := ar.news ++ [(k, oi)] }

/-- `newEntities.delete(k)`. -/
def Arena.newsDelete (ar : Arena) (k : String) : Arena :=
  { ar with news := ar.news.filter (fun b => b.1 ≠ k) }

/-- Lookup by id in a value list (a JS `Map.get` seen through `values()`). -/
def listGet (es : List Entity) (k : String) : Option Entity :=
  es.find? (fun e => e.id = k)

/-- `resources[owner]` read; the JS record has no NEUTRAL key and neutral
entities never touch stockpiles. -/
def Res.get (r : Res) : Owner → ℚ
  | Owner.PLAYER => r.player
  | Owner.AI => r.ai
  | Owner.NEUTRAL => 0

/-- `resources[owner] += q`. -/
def Res.add (r : Res) (o : Owner) (q : ℚ) : Res :=
  match o with
  | Owner.PLAYER => { r with player := r.player + q }
  | Owner.AI => { r with ai := r.ai + q }
  | Owner.NEUTRAL => r

/-- `supply[owner]` read. -/
def SupplyPair.get (sp : SupplyPair) : Owner → Supply
  | Owner.PLAYER => sp.player
  | Owner.AI => sp.ai
  | Owner.NEUTRAL => ⟨0, 0⟩

/-- One entity's contribution in the supply recomputation loop
(lines 290-297). -/
def supStep (c : Consts) (sp : SupplyPair) (ent : Entity) : SupplyPair :=
  if ent.owner = Owner.NEUTRAL then sp
  else
    let upd := fun (s : Supply) =>
      { used := s.used + (c.stats ent.type).supplyCost
        max := if 100 ≤ ent.constructionProgress then
                 s.max + (c.stats ent.type).supplyProvided
               else s.max }
    match ent.owner with
    | Owner.PLAYER => { sp with player := upd sp.player }
    | Owner.AI => { sp with ai := upd sp.ai }
    | Owner.NEUTRAL => sp

/-- The supply recomputation at the top of `updateGame` (lines 286-300):
zero both owners, sum `supplyCost` over every non-neutral entity, sum
`supplyProvided` over fully-constructed ones, then clamp `max` at 200. -/
def computeSupply (c : Consts) (es : List Entity) : SupplyPair :=
  let sp := es.foldl (supStep c) ⟨⟨0, 0⟩, ⟨0, 0⟩⟩
  ⟨⟨sp.player.used, min sp.player.max 200⟩, ⟨sp.ai.used, min sp.ai.max 200⟩⟩

/-- Mutable state threaded through the entity update loop: the arena, the
`newEffects` list, the per-tick `soundEvents`, the (input-aliased)
`state.notifications` written by `addNotification`, the stockpiles, and the
ambient RNG/id-counter context. -/
structure LoopSt where
  ar : Arena
  effects : List Effect
  sounds : List String
  inNotifs : List Notif
  res : Res
  ext : Ext

/-- Read the acting entity (JS callback variable `entity`, always current). -/
def selfGet (st : LoopSt) (i : ℕ) : Entity := st.ar.obj i

/-- Write the acting entity back into the shared store. -/
def selfSet (st : LoopSt) (i : ℕ) (e : Entity) : LoopSt :=
  { st with ar := st.ar.objSet i e }

/-- Apply a field update to the acting entity's current value. -/
def selfUpd (st : LoopSt) (i : ℕ) (f : Entity → Entity) : LoopSt :=
  selfSet st i (f (selfGet st i))

/-! ### The per-entity update blocks of `updateGame` (lines 302-708),
in source order. Each block takes the store index `i` of the acting entity
and returns the threaded loop state. -/

/-- Building construction (lines 307-312): add `100/buildTime`, clamp at
100; the enclosing step then skips all further processing this tick. -/
def constructionBlock (c : Consts) (st : LoopSt) (i : ℕ) : LoopSt :=
  let e := selfGet st i
  let p := e.constructionProgress + 100 / (c.stats e.type).buildTime
  let p := if 100 ≤ p then 100 else p
  selfSet st i { e with constructionProgress := p }

/-- Rally routing for a freshly trained unit (lines 329-359). -/
def rallyRoute (c : Consts) (es : List Entity) (producer : Entity)
    (unitType : EntityType) (nu : Entity) : Entity :=
  match producer.rallyPoint with
  | some rp =>
    if nu.type = EntityType.WORKER ∧ producer.rallyTargetId ≠ none then
      match producer.rallyTargetId.bind (listGet es) with
      | some target =>
        if target.type = EntityType.MINERAL then
          { nu with state := EState.GATHERING, targetId := some target.id,
                    targetPosition := none }
        else { nu with state := EState.MOVING, targetPosition := some rp }
      | none => { nu with state := EState.MOVING, targetPosition := some rp }
    else
      let nu := { nu with state := EState.MOVING, targetPosition := some rp }
      match producer.rallyTargetId with
      | some rid =>
        match listGet es rid with
        | some target =>
          if target.owner ≠ producer.owner then
            { nu with state := EState.ATTACKING, targetId := some target.id }
          else nu
        | none => nu
      | none =>
        if unitType = EntityType.MARINE ∨ unitType = EntityType.MEDIC then
          { nu with state := if unitType = EntityType.MEDIC then EState.MOVING
                             else EState.ATTACKING }
        else nu
  | none =>
    if producer.owner = Owner.AI ∧
        (unitType = EntityType.MARINE ∨ unitType = EntityType.MEDIC) then
      { nu with targetPosition := some ⟨c.gameWidth / 2, c.gameHeight / 2⟩,
                state := EState.ATTACKING }
    else nu

/-- Unit production (lines 314-371): advance `trainProgress`; on reaching
`buildTime` either spawn (headroom permitting) at a producer-relative random
offset, pop the queue and reset progress, or freeze progress at
`buildTime - 1` and (for the player, every 60 ticks) try to push a
"Supply Capped!" notification onto the input state's list. -/
def productionBlock (jm : JsMath) (c : Consts) (sup : SupplyPair) (t : ℕ)
    (st : LoopSt) (i : ℕ) : LoopSt :=
  let e := selfGet st i
  match e.trainQueue with
  | [] => st
  | unitType :: restQueue =>
    let e := { e with trainProgress := e.trainProgress + 1 }
    let st := selfSet st i e
    let ustats := c.stats unitType
    if ustats.buildTime ≤ e.trainProgress then
      if (sup.get e.owner).used + ustats.supplyCost ≤ (sup.get e.owner).max then
        let spawnDir : ℚ := if e.owner = Owner.PLAYER then -1 else 1
        let offset : ℚ := 80
        let (r1, ext) := st.ext.draw
        let (r2, ext) := ext.draw
        let (nid, ext) := ext.generateId
        let newUnit := createEntity c unitType e.owner
          ⟨e.position.x + (r1 * 40 - 20),
           e.position.y + offset * spawnDir + r2 * 10⟩ nid
        let st := { st with ext := ext }
        let newUnit := rallyRoute c st.ar.entsList e unitType newUnit
        let st := { st with ar := st.ar.newsSet newUnit.id newUnit }
        selfUpd st i (fun x =>
          { x with trainQueue := restQueue, trainProgress := 0 })
      else
        let e := { e with trainProgress := ustats.buildTime - 1 }
        let st := selfSet st i e
        if e.owner = Owner.PLAYER ∧ t % 60 = 0 then
          let (ns, ext) := addNotification jm st.inNotifs st.ext "Supply Capped!"
          { st with inNotifs := ns, ext := ext }
        else st
    else st

/-- Manned-bunker turret fire (lines 375-406): validate or re-acquire a
target, and when in range with cooldown expired deal one marine's damage,
with fire cadence `max 5 (30 / garrison size)`. -/
def bunkerBlock (jm : JsMath) (c : Consts) (st : LoopSt) (i : ℕ) : LoopSt :=
  let e := selfGet st i
  if e.type = EntityType.BUNKER ∧ e.garrison ≠ [] then
    let stats := c.stats e.type
    let es := st.ar.entsList
    let t0 := e.targetId.bind (listGet es)
    let invalid := match t0 with
      | none => true
      | some tg => tg.hp ≤ 0 ∨ stats.range < getDistance jm e.position tg.position
    let (target, st) :=
      if invalid then
        let na := acquireTarget jm c e es
        (na, selfSet st i { e with targetId := na.map (fun x => x.id) })
      else (t0, st)
    match target with
    | none => st
    | some tg =>
      let e := selfGet st i
      let dist := getDistance jm e.position tg.position
      if dist ≤ stats.range then
        if e.cooldown ≤ 0 then
          let marineDamage := (c.stats EntityType.MARINE).damage
          let st := { st with
            ar := st.ar.modifyEnt tg.id (fun x => { x with hp := x.hp - marineDamage }) }
          let st := selfUpd st i (fun x =>
            { x with cooldown := max 5 (30 / (e.garrison.length : ℚ)) })
          if tg.hp - marineDamage ≤ 0 then
            selfUpd st i (fun x => { x with targetId := none })
          else st
        else st
      else st
  else st

/-- Medic behaviour (lines 408-461): seek the nearest wounded allied
biological unit within vision, enter HEALING in range (or walk toward it),
then apply periodic heal ticks while the target stays valid. -/
def medicBlock (jm : JsMath) (c : Consts) (st : LoopSt) (i : ℕ) : LoopSt :=
  let e := selfGet st i
  if e.type = EntityType.MEDIC then
    let stats := c.stats e.type
    let st :=
      if e.state = EState.IDLE ∨ e.state = EState.MOVING ∨
          e.state = EState.ATTACKING then
        let es := st.ar.entsList
        let healTarget := (es.foldl (fun (acc : Option Entity × ℚ) e2 =>
          if e2.owner = e.owner ∧ isBio e2.type ∧ e2.hp < e2.maxHp ∧
              e2.state ≠ EState.GARRISONED then
            let d := getDistance jm e.position e2.position
            if d < acc.2 then (some e2, d) else acc
          else acc) (none, stats.vision)).1
        match healTarget with
        | some h =>
          let d := getDistance jm e.position h.position
          if d ≤ stats.range then
            selfSet st i { e with state := EState.HEALING,
                                  targetId := some h.id, targetPosition := none }
          else
            let angle := jm.atan2 (h.position.y - e.position.y)
                                  (h.position.x - e.position.x)
            selfSet st i { e with position :=
              ⟨e.position.x + jm.cos angle * stats.speed,
               e.position.y + jm.sin angle * stats.speed⟩ }
        | none => st
      else st
    let e := selfGet st i
    if e.state = EState.HEALING then
      let es := st.ar.entsList
      match e.targetId.bind (listGet es) with
      | none => selfSet st i { e with state := EState.IDLE, targetId := none }
      | some tg =>
        if tg.maxHp ≤ tg.hp ∨
            stats.range + 20 < getDistance jm e.position tg.position then
          selfSet st i { e with state := EState.IDLE, targetId := none }
        else if e.cooldown ≤ 0 then
          let healRate := match stats.healRate with
            | some r => if r = 0 then 5 else r
            | none => 5
          let st := { st with
            ar := st.ar.modifyEnt tg.id (fun x =>
              { x with hp := min x.maxHp (x.hp + healRate) }) }
          let st := selfUpd st i (fun x => { x with cooldown := stats.attackSpeed })
          let (r, ext) := st.ext.draw
          let fx : Effect :=
            { id := "fx_" ++ jm.numToString r, type := EffectType.HEAL,
              position := tg.position, life := 20, maxLife := 20, scale := 1 }
          { st with ext := ext, effects := st.effects ++ [fx] }
        else st
    else st
  else st

/-- Bunker boarding (lines 463-489): walk to the target bunker; on contact
either garrison (capacity 4) or fall back to IDLE; invalid targets degrade
to IDLE. -/
def enteringBlock (jm : JsMath) (c : Consts) (st : LoopSt) (i : ℕ) : LoopSt :=
  let e := selfGet st i
  if e.state = EState.ENTERING ∧ e.targetId ≠ none then
    let es := st.ar.entsList
    match e.targetId.bind (listGet es) with
    | some bunker =>
      if bunker.type = EntityType.BUNKER ∧ 0 < bunker.hp ∧
          bunker.owner = e.owner then
        let dist := getDistance jm e.position bunker.position
        if dist < bunker.radius + e.radius + 10 then
          if bunker.garrison.length < 4 then
            let st := { st with
              ar := st.ar.modifyEnt bunker.id (fun b =>
                { b with garrison := b.garrison ++ [e.id] }) }
            let st := selfUpd st i (fun x =>
              { x with state := EState.GARRISONED, containerId := some bunker.id,
                       targetId := none, targetPosition := none })
            { st with sounds := st.sounds ++ ["click"] }
          else selfSet st i { e with state := EState.IDLE }
        else
          let stats := c.stats e.type
          let angle := jm.atan2 (bunker.position.y - e.position.y)
                                (bunker.position.x - e.position.x)
          selfSet st i { e with position :=
            ⟨e.position.x + jm.cos angle * stats.speed,
             e.position.y + jm.sin angle * stats.speed⟩ }
      else selfSet st i { e with state := EState.IDLE }
    | none => selfSet st i { e with state := EState.IDLE }
  else st

/-- Idle auto-acquisition (lines 494-501): idle combat-capable non-worker,
non-medic entities pick a target and turn ATTACKING. -/
def autoAcquireBlock (jm : JsMath) (c : Consts) (st : LoopSt) (i : ℕ) : LoopSt :=
  let e := selfGet st i
  if e.state = EState.IDLE ∧ e.type ≠ EntityType.MEDIC ∧
      e.type ≠ EntityType.WORKER ∧ 0 < (c.stats e.type).damage then
    match acquireTarget jm c e st.ar.entsList with
    | some tg => selfSet st i { e with targetId := some tg.id,
                                       state := EState.ATTACKING }
    | none => st
  else st

/-- Straight-line movement (lines 503-513): arrive within 10 units and go
IDLE, else step at `stats.speed` along the float heading. -/
def movingBlock (jm : JsMath) (c : Consts) (st : LoopSt) (i : ℕ) : LoopSt :=
  let e := selfGet st i
  if e.state = EState.MOVING then
    match e.targetPosition with
    | some tp =>
      let dist := getDistance jm e.position tp
      if dist < 10 then
        selfSet st i { e with state := EState.IDLE, targetPosition := none }
      else
        let stats := c.stats e.type
        let angle := jm.atan2 (tp.y - e.position.y) (tp.x - e.position.x)
        selfSet st i { e with position :=
          ⟨e.position.x + jm.cos angle * stats.speed,
           e.position.y + jm.sin angle * stats.speed⟩ }
    | none => st
  else st

/-- Combat (lines 515-579): retaliation override with a 20-tick memory
window, target validation and re-acquisition, closing distance, and the
cooldown-gated hit that applies `stats.damage` once and flips an idle
armed victim into retaliation. -/
def attackingBlock (jm : JsMath) (c : Consts) (t : ℕ) (st : LoopSt) (i : ℕ) :
    LoopSt :=
  let e := selfGet st i
  if e.state = EState.ATTACKING then
    let stats := c.stats e.type
    let es := st.ar.entsList
    let target0 := e.targetId.bind (listGet es)
    let (e, target0) :=
      match e.lastAttackerId with
      | some laid =>
        let (e, target0) :=
          match listGet es laid with
          | some atk =>
            if 0 < atk.hp ∧ atk.owner ≠ e.owner ∧
                atk.state ≠ EState.GARRISONED then
              if (match target0 with
                  | none => true
                  | some tg => isBuilding tg.type ∨ tg.owner = Owner.NEUTRAL) then
                ({ e with targetId := some laid, targetPosition := none },
                 some atk)
              else (e, target0)
            else (e, target0)
          | none => (e, target0)
        if t % 20 = 0 then ({ e with lastAttackerId := none }, target0)
        else (e, target0)
      | none => (e, target0)
    let st := selfSet st i e
    let invalid := match target0 with
      | none => true
      | some tg => tg.hp ≤ 0 ∨ tg.state = EState.GARRISONED
    if invalid then
      let e := { e with targetId := none }
      let st := selfSet st i e
      match e.targetPosition with
      | some tp =>
        if 0 < stats.damage then
          match acquireTarget jm c e st.ar.entsList with
          | some nt => selfSet st i { e with targetId := some nt.id }
          | none =>
            let dist := getDistance jm e.position tp
            if dist < 10 then
              selfSet st i { e with state := EState.IDLE, targetPosition := none }
            else
              let angle := jm.atan2 (tp.y - e.position.y) (tp.x - e.position.x)
              selfSet st i { e with position :=
                ⟨e.position.x + jm.cos angle * stats.speed,
                 e.position.y + jm.sin angle * stats.speed⟩ }
        else selfSet st i { e with state := EState.MOVING }
      | none => selfSet st i { e with state := EState.IDLE }
    else
      match target0 with
      | none => st
      | some tg =>
        let dist := getDistance jm e.position tg.position
        let rangeBuffer := tg.radius
        if dist ≤ stats.range + rangeBuffer then
          if e.cooldown ≤ 0 then
            let st := { st with
              ar := st.ar.modifyEnt tg.id (fun x =>
                { x with hp := x.hp - stats.damage,
                         lastAttackerId := some e.id }) }
            let st := selfUpd st i (fun x =>
              { x with cooldown := stats.attackSpeed })
            let tgNow := ((listGet st.ar.entsList tg.id).getD default)
            if tgNow.state = EState.IDLE ∧ 0 < (c.stats tgNow.type).damage ∧
                tgNow.owner ≠ Owner.NEUTRAL then
              { st with
                ar := st.ar.modifyEnt tg.id (fun x =>
                  { x with targetId := some e.id, state := EState.ATTACKING }) }
            else st
          else st
        else
          let angle := jm.atan2 (tg.position.y - e.position.y)
                                (tg.position.x - e.position.x)
          selfSet st i { e with position :=
            ⟨e.position.x + jm.cos angle * stats.speed,
             e.position.y + jm.sin angle * stats.speed⟩ }
  else st

/-- The dwell-and-extract core of gathering (lines 617-636). -/
def gatherCore (jm : JsMath) (c : Consts) (st : LoopSt) (i : ℕ) (tg : Entity) :
    LoopSt :=
  let e := selfGet st i
  let dist := getDistance jm e.position tg.position
  let reach := e.radius + tg.radius + 15
  if dist ≤ reach then
    let e := { e with cooldown := e.cooldown + 1 }
    let st := selfSet st i e
    if c.gatherTime ≤ e.cooldown then
      let q := c.resourceGatherAmount
      let st := selfUpd st i (fun x =>
        { x with resourceAmount := x.resourceAmount + q })
      let st := { st with
        ar := st.ar.modifyEnt tg.id (fun x =>
          { x with resourceAmount := x.resourceAmount - q }) }
      let stockNow := ((listGet st.ar.entsList tg.id).getD default).resourceAmount
      let st := if stockNow ≤ 0 then { st with ar := st.ar.newsDelete tg.id }
                else st
      let st := selfUpd st i (fun x =>
        { x with state := EState.RETURNING, cooldown := 0 })
      match findNearest jm (selfGet st i).position st.ar.entsList
          (some EntityType.BASE) (some e.owner) with
      | some base => selfUpd st i (fun x => { x with targetId := some base.id })
      | none => st
    else st
  else
    let stats := c.stats e.type
    let angle := jm.atan2 (tg.position.y - e.position.y)
                          (tg.position.x - e.position.x)
    selfSet st i { e with position :=
      ⟨e.position.x + jm.cos angle * stats.speed,
       e.position.y + jm.sin angle * stats.speed⟩ }

/-- Gathering (lines 581-638). The boolean result models the early
`return` at line 613 (worker rerouted off an oversaturated patch), which
skips the cooldown/death/collision tail of the entity step. -/
def gatheringBlock (jm : JsMath) (c : Consts) (t : ℕ) (st : LoopSt) (i : ℕ) :
    LoopSt × Bool :=
  let e := selfGet st i
  if e.state = EState.GATHERING then
    let es := st.ar.entsList
    let target := e.targetId.bind (listGet es)
    let invalid := match target with
      | none => true
      | some tg => tg.resourceAmount ≤ 0
    if invalid then
      let newRes := (es.foldl (fun (acc : Option (Entity × ℚ)) e2 =>
        if e2.type = EntityType.MINERAL ∧ 0 < e2.resourceAmount then
          let dist := getDistance jm e.position e2.position
          let closer := match acc with
            | none => true
            | some (_, md) => dist < md
          if closer && decide (getWorkerCountForMineral e2.id es < 3) then
            some (e2, dist)
          else acc
        else acc) none).map Prod.fst
      match newRes with
      | some nr => (selfSet st i { e with targetId := some nr.id }, false)
      | none => (selfSet st i { e with state := EState.IDLE }, false)
    else
      match target with
      | none => (st, false)
      | some tg =>
        if t % 60 = 0 ∧ 3 < getWorkerCountForMineral tg.id es then
          match findNearest jm e.position es (some EntityType.MINERAL)
              (some Owner.NEUTRAL) with
          | some better =>
            if better.id ≠ tg.id ∧ getWorkerCountForMineral better.id es < 3 then
              (selfSet st i { e with targetId := some better.id }, true)
            else (gatherCore jm c st i tg, false)
          | none => (gatherCore jm c st i tg, false)
        else (gatherCore jm c st i tg, false)
  else (st, false)

/-- Returning (lines 640-662): retarget a live base (or go IDLE), and on
contact deposit the whole carry, zero it, and resume GATHERING at the
nearest neutral mineral (target cleared when none is left). -/
def returningBlock (jm : JsMath) (c : Consts) (st : LoopSt) (i : ℕ) : LoopSt :=
  let e := selfGet st i
  if e.state = EState.RETURNING then
    let es := st.ar.entsList
    let base0 := e.targetId.bind (listGet es)
    let invalid := match base0 with
      | none => true
      | some b => b.hp ≤ 0
    if invalid then
      match findNearest jm e.position es (some EntityType.BASE) (some e.owner) with
      | some nb => selfSet st i { e with targetId := some nb.id }
      | none => selfSet st i { e with state := EState.IDLE }
    else
      match base0 with
      | none => st
      | some base =>
        let dist := getDistance jm e.position base.position
        let reach := base.radius + e.radius + 15
        if dist ≤ reach then
          let st := { st with res := st.res.add e.owner e.resourceAmount }
          let e := { e with resourceAmount := 0, state := EState.GATHERING }
          let st := selfSet st i e
          let mineral := findNearest jm e.position st.ar.entsList
            (some EntityType.MINERAL) (some Owner.NEUTRAL)
          selfUpd st i (fun x =>
            { x with targetId := mineral.map (fun m => m.id) })
        else
          let stats := c.stats e.type
          let angle := jm.atan2 (base.position.y - e.position.y)
                                (base.position.x - e.position.x)
          selfSet st i { e with position :=
            ⟨e.position.x + jm.cos angle * stats.speed,
             e.position.y + jm.sin angle * stats.speed⟩ }
  else st

/-- End-of-step cooldown decrement (line 664), suppressed while GATHERING
(there the counter counts up as a dwell timer). -/
def cooldownBlock (st : LoopSt) (i : ℕ) : LoopSt :=
  let e := selfGet st i
  if 0 < e.cooldown ∧ e.state ≠ EState.GATHERING then
    selfSet st i { e with cooldown := e.cooldown - 1 }
  else st

/-- Death processing (lines 666-705): on hp ≤ 0 push a category-classed
effect and an explosion sound, eject any garrisoned passengers to IDLE at
scattered positions, and delete the entity from `newEntities`. -/
def deathBlock (jm : JsMath) (st : LoopSt) (i : ℕ) : LoopSt :=
  let e := selfGet st i
  if e.hp ≤ 0 then
    let effectType :=
      if isBio e.type then EffectType.BLOOD
      else if isBuilding e.type then EffectType.BUILDING_EXPLOSION
      else EffectType.EXPLOSION
    let effectScale :=
      if isBio e.type then e.radius / 10
      else if isBuilding e.type then (2 : ℚ)
      else e.radius / 10
    let life : Int := if effectType = EffectType.BUILDING_EXPLOSION then 60 else 30
    let (r, ext) := st.ext.draw
    let fx : Effect :=
      { id := "fx_" ++ jm.numToString r, type := effectType,
        position := e.position, life := life, maxLife := life,
        scale := effectScale }
    let st := { st with
      effects := st.effects ++ [fx],
      sounds := st.sounds ++ ["explosion"], ext := ext }
    let st := e.garrison.foldl (fun st gid =>
      match st.ar.newsGet gid with
      | some _ =>
        let (r1, ext) := st.ext.draw
        let (r2, ext) := ext.draw
        { st with
          ext := ext,
          ar := st.ar.modifyNews gid (fun u =>
            { u with
              state := EState.IDLE, containerId := none,
              position := ⟨e.position.x + (r1 * 40 - 20),
                           e.position.y + (r2 * 40 - 20)⟩ }) }
      | none => st) st
    { st with ar := st.ar.newsDelete e.id }
  else st

/-- `resolveCollisions` (lines 208-233): soft separation pushes applied to
the acting mobile entity against every other active entity. -/
def collisionBlock (jm : JsMath) (c : Consts) (st : LoopSt) (i : ℕ) : LoopSt :=
  let e := selfGet st i
  if e.state = EState.BUILDING ∨ e.state = EState.GARRISONED then st
  else if (c.stats e.type).speed = 0 then st
  else
    let pushed := st.ar.entsList.foldl (fun (acc : Entity) other =>
      if acc.id = other.id then acc
      else if other.state = EState.GARRISONED then acc
      else
        let isStatic := (c.stats other.type).speed = 0
        let dist := getDistance jm acc.position other.position
        let combinedRadius := acc.radius + other.radius
        let separationRadius := combinedRadius + 5
        if dist < separationRadius ∧ 0 < dist then
          let pushStrength := (separationRadius - dist) / separationRadius
          let angle := jm.atan2 (acc.position.y - other.position.y)
                                (acc.position.x - other.position.x)
          let force : ℚ := if dist < combinedRadius then 2 else 1 / 2
          let staticMult : ℚ := if isStatic then 2 else 1
          { acc with position :=
            ⟨acc.position.x + jm.cos angle * pushStrength * force * staticMult,
             acc.position.y + jm.sin angle * pushStrength * force * staticMult⟩ }
        else acc) e
    selfSet st i pushed

/-- The block pipeline of the entity loop body in source order, for a
fully-constructed, non-terrain, non-garrisoned entity; the oversaturation
early return of gathering skips the cooldown/death/collision tail. -/
def mainPath (jm : JsMath) (c : Consts) (sup : SupplyPair) (t : ℕ)
    (st : LoopSt) (i : ℕ) : LoopSt :=
  let st1 := productionBlock jm c sup t st i
  let st2 := bunkerBlock jm c st1 i
  let st3 := medicBlock jm c st2 i
  let st4 := enteringBlock jm c st3 i
  let st5 := autoAcquireBlock jm c st4 i
  let st6 := movingBlock jm c st5 i
  let st7 := attackingBlock jm c t st6 i
  let g := gatheringBlock jm c t st7 i
  if g.2 then g.1
  else
    let st8 := returningBlock jm c g.1 i
    let st9 := cooldownBlock st8 i
    let st10 := deathBlock jm st9 i
    collisionBlock jm c st10 i

/-- One iteration of the entity update loop (lines 303-708) for the map
binding `b`: terrain and garrisoned entities are skipped, entities under
construction only advance construction, and everything else runs the block
pipeline in source order. -/
def entityStep (jm : JsMath) (c : Consts) (sup : SupplyPair) (t : ℕ)
    (st : LoopSt) (b : String × ℕ) : LoopSt :=
  let i := b.2
  let e := selfGet st i
  if e.type = EntityType.MOUNTAIN ∨ e.type = EntityType.WATER then st
  else if e.state = EState.GARRISONED then st
  else if e.constructionProgress < 100 then constructionBlock c st i
  else mainPath jm c sup t st i

/-- Current value behind a `newEntities` key (JS object read). -/
def curNews (st : LoopSt) (k : String) : Entity :=
  (st.ar.newsGet k).getD default

/-- `runAI` step 1 (lines 786-794): queue a worker at the first base with an
empty queue. -/
def aiTrainWorker (workerIds baseIds : List String) (maxWorkers : ℕ)
    (myMinerals : ℚ) (mySupply : Supply) (st : LoopSt) : LoopSt :=
  if workerIds.length < maxWorkers ∧ baseIds ≠ [] ∧ 50 ≤ myMinerals ∧
      mySupply.used < mySupply.max then
    match baseIds.find? (fun bid =>
        decide ((curNews st bid).trainQueue.length < 1)) with
    | some bid =>
      let st := { st with ar := st.ar.modifyNews bid (fun b =>
        { b with trainQueue := b.trainQueue ++ [EntityType.WORKER] }) }
      { st with res := { st.res with ai := st.res.ai - 50 } }
    | none => st
  else st

/-- `runAI` step 2 (lines 796-805): send idle workers to the nearest
mineral. -/
def aiManageWorkers (jm : JsMath) (workerIds : List String) (st : LoopSt) :
    LoopSt :=
  workerIds.foldl (fun st wid =>
    let w := curNews st wid
    if w.state = EState.IDLE then
      match findNearest jm w.position st.ar.newsList (some EntityType.MINERAL)
          (some Owner.NEUTRAL) with
      | some m =>
        { st with ar := st.ar.modifyNews wid (fun x =>
          { x with targetId := some m.id, state := EState.GATHERING }) }
      | none => st
    else st) st

/-- `runAI` steps 3-4 (lines 807-833): place an under-construction building
of the given type near the first base, paying `cost`, when a gathering or
idle worker exists. -/
def aiBuildStructure (c : Consts) (workerIds baseIds : List String)
    (ty : EntityType) (cost spread : ℚ) (st : LoopSt) : LoopSt :=
  match workerIds.find? (fun wid =>
      let w := curNews st wid
      decide (w.state = EState.GATHERING ∨ w.state = EState.IDLE)) with
  | some wid =>
    let st := { st with res := { st.res with ai := st.res.ai - cost } }
    let basePos := match baseIds.head? with
      | some bid => (curNews st bid).position
      | none => (curNews st wid).position
    let (r1, ext) := st.ext.draw
    let (r2, ext) := ext.draw
    let (nid, ext) := ext.generateId
    let b := { createEntity c ty Owner.AI
      ⟨basePos.x + (r1 - 1/2) * spread, basePos.y + (r2 - 1/2) * spread⟩ nid with
      constructionProgress := 0 }
    { st with ext := ext, ar := st.ar.newsSet b.id b }
  | none => st

/-- `runAI` step 5 (lines 835-849): fill each finished barracks' queue (cap
5), drawing a 25% medic chance per slot, paying the unit cost from the live
stockpile. -/
def aiTrainArmy (c : Consts) (barracksIds : List String) (st : LoopSt) :
    LoopSt :=
  barracksIds.foldl (fun st bid =>
    let b := curNews st bid
    if b.trainQueue.length < 5 ∧ 50 ≤ st.res.ai ∧
        100 ≤ b.constructionProgress then
      let (r, ext) := st.ext.draw
      let st := { st with ext := ext }
      let ty := if r < 1/4 ∧ 75 ≤ st.res.ai then EntityType.MEDIC
                else EntityType.MARINE
      let cost := (c.stats ty).cost
      if cost ≤ st.res.ai then
        let st := { st with ar := st.ar.modifyNews bid (fun x =>
          { x with trainQueue := x.trainQueue ++ [ty] }) }
        { st with res := { st.res with ai := st.res.ai - cost } }
      else st
    else st) st

/-- `runAI` step 6 (lines 851-875): above the army threshold, send every
non-fighting army unit toward the player's base (medics follow the first
marine instead). The JS aliasing `unit.targetPosition = marine.position` is
modelled as a value copy. -/
def aiAttack (armyIds : List String) (st : LoopSt) : LoopSt :=
  let vals := st.ar.newsList
  let enemyBase := vals.find? (fun e =>
    e.owner = Owner.PLAYER && e.type = EntityType.BASE)
  let anyEnemy := vals.find? (fun e => e.owner = Owner.PLAYER)
  let targetPos := match enemyBase with
    | some b => b.position
    | none => match anyEnemy with
      | some a => a.position
      | none => (⟨200, 1800⟩ : Vec2)
  armyIds.foldl (fun st uid =>
    let u := curNews st uid
    if u.state ≠ EState.ATTACKING ∧ u.state ≠ EState.HEALING then
      if u.type = EntityType.MEDIC then
        if u.state = EState.IDLE then
          match armyIds.find? (fun aid =>
              decide ((curNews st aid).type = EntityType.MARINE)) with
          | some mid =>
            let mpos := (curNews st mid).position
            { st with ar := st.ar.modifyNews uid (fun x =>
              { x with state := EState.MOVING, targetPosition := some mpos }) }
          | none => st
        else st
      else
        { st with ar := st.ar.modifyNews uid (fun x =>
          { x with state := EState.ATTACKING,
                   targetPosition := some targetPos }) }
    else st) st

/-- `runAI` (lines 765-876), operating on `newEntities`: difficulty-scaled
worker cap and attack threshold; opportunistically queue a worker, manage
idle workers, build a supply depot or barracks, queue army units, and above
the army threshold launch an attack. `myMinerals` is bound once at entry
(as in the source), while the inner training loop re-reads the live
stockpile. -/
def runAI (jm : JsMath) (c : Consts) (sup : SupplyPair) (diff : Difficulty)
    (st : LoopSt) : LoopSt :=
  let myUnits := st.ar.newsList.filter (fun e => e.owner = Owner.AI)
  let workerIds := (myUnits.filter (fun e => e.type = EntityType.WORKER)).map
    (fun e => e.id)
  let baseIds := (myUnits.filter (fun e => e.type = EntityType.BASE)).map
    (fun e => e.id)
  let barracksIds := (myUnits.filter (fun e => e.type = EntityType.BARRACKS)).map
    (fun e => e.id)
  let armyIds := (myUnits.filter (fun e =>
    e.type = EntityType.MARINE ∨ e.type = EntityType.MEDIC)).map (fun e => e.id)
  let myMinerals := st.res.ai
  let mySupply := sup.ai
  let maxWorkers : ℕ := match diff with
    | Difficulty.EASY => 8
    | Difficulty.HARD => 16
    | Difficulty.MEDIUM => 12
  let attackThreshold : ℕ := match diff with
    | Difficulty.EASY => 15
    | Difficulty.HARD => 8
    | Difficulty.MEDIUM => 10
  let st := aiTrainWorker workerIds baseIds maxWorkers myMinerals mySupply st
  let st := aiManageWorkers jm workerIds st
  let st :=
    if mySupply.max - mySupply.used ≤ 2 ∧ 100 ≤ myMinerals then
      aiBuildStructure c workerIds baseIds EntityType.SUPPLY_DEPOT 100 200 st
    else st
  let st :=
    if barracksIds.length < (if diff = Difficulty.HARD then 5 else 3) ∧
        150 ≤ myMinerals then
      aiBuildStructure c workerIds baseIds EntityType.BARRACKS 150 300 st
    else st
  let st :=
    if barracksIds ≠ [] ∧ 50 ≤ myMinerals ∧ mySupply.used < mySupply.max then
      aiTrainArmy c barracksIds st
    else st
  if attackThreshold < armyIds.length then aiAttack armyIds st else st

/-- The per-owner building count of the victory check (lines 740-745). -/
def countOwnedBuildings (o : Owner) (es : List Entity) : ℕ :=
  es.countP (fun e => decide (e.owner = o) && isBuilding e.type)

/-- The victory computation (lines 739-749): recomputed from the current
`newEntities` every tick; when the player has no buildings set AI, then
(overriding) when the AI has no buildings set PLAYER; `undefined` when the
arena is empty or both factions still hold buildings. -/
def victoryOf (es : List Entity) : Option Owner :=
  let playerBuildings := countOwnedBuildings Owner.PLAYER es
  let aiBuildings := countOwnedBuildings Owner.AI es
  if aiBuildings = 0 ∧ 0 < es.length then some Owner.PLAYER
  else if playerBuildings = 0 ∧ 0 < es.length then some Owner.AI
  else none

/-- `updateGame` (lines 278-763) with the ambient RNG stream and id counter
made explicit: recompute supply from the input arena, run the entity loop
over the input map's bindings, decay overlays, give the AI its every-30-tick
slice, recompute building counts and the victory field from `newEntities`,
and advance the tick counter. Camera, selection, difficulty and paused flag
pass through unchanged. -/
def updateGameE (jm : JsMath) (c : Consts) (p : GameState × Ext) :
    GameState × Ext :=
  let s := p.1
  let sup := computeSupply c s.entities
  let ar0 := Arena.init s.entities
  let st0 : LoopSt :=
    { ar := ar0, effects := s.effects, sounds := [],
      inNotifs := s.notifications, res := s.resources, ext := p.2 }
  let st := ar0.ents.foldl (entityStep jm c sup s.gameTime) st0
  let st := if s.gameTime % 30 = 0 then runAI jm c sup s.difficulty st else st
  let finalEnts := st.ar.newsList
  let victory := victoryOf finalEnts
  let newEffects := (st.effects.map (fun f => { f with life := f.life - 1 })).filter
    (fun f => 0 < f.life)
  let newMarkers := (s.markers.map (fun m => { m with life := m.life - 1 })).filter
    (fun m => 0 < m.life)
  let newNotifications :=
    (s.notifications.map (fun n => { n with life := n.life - 1 })).filter
    (fun n => 0 < n.life)
  ({ entities := finalEnts, effects := newEffects, markers := newMarkers,
     notifications := newNotifications, soundEvents := st.sounds,
     resources := st.res, supply := sup, selection := s.selection,
     camera := s.camera, victory := victory, gameTime := s.gameTime + 1,
     difficulty := s.difficulty, paused := s.paused }, st.ext)

/-! ### Network layer (src/services/network.ts): room-code generation -/

/-- The room-code alphabet of `generateShortId` (network.ts line 24):
confusable characters I, O, 0, 1, Q are excluded. -/
def netChars : List Char :=
  ['A','B','C','D','E','F','G','H','J','K','L','M','N','P','R','S','T',
   'U','V','W','X','Y','Z','2','3','4','5','6','7','8','9']

/-- `generateShortId` (network.ts lines 21-30): four characters drawn by
`chars.charAt(Math.floor(Math.random() * chars.length))`. -/
def generateShortId (x : Ext) : String × Ext :=
  let step := fun (acc : List Char × Ext) (_ : ℕ) =>
    let (r, e) := acc.2.draw
    let idx := (⌊r * (netChars.length : ℚ)⌋).toNat
    (acc.1 ++ [netChars.getD idx ' '], e)
  let (cs, e) := (List.range 4).foldl step ([], x)
  (String.mk cs, e)

/-- `hostGame`'s `attemptHost` retry loop (network.ts lines 32-101), without
a custom id: each attempt mints a fresh random code; a code already taken by
another peer (`unavailable-id`) triggers a retry, and after the attempt
counter passes 10 the promise rejects. The decreasing fuel is the number of
attempts still allowed (11 at the first call). -/
def attemptHost (taken : String → Bool) : ℕ → Ext → Except String (String × Ext)
  | 0, _ => Except.error "Could not find a free game code. Please try again."
  | fuel + 1, x =>
    let (peerId, x) := generateShortId x
    if taken peerId then attemptHost taken fuel x
    else Except.ok (peerId, x)

/-- `hostGame` (no custom id): run the retry loop with its 11-attempt
budget. -/
def hostGame (taken : String → Bool) (x : Ext) : Except String (String × Ext) :=
  attemptHost taken 11 x

/-! ### Concrete reference instances for witnesses and counterexamples -/

/-- Executable square root on ℚ: exact on perfect-square integers
(in particular `qsqrt 0 = 0`), floor-approximate elsewhere; used as the
concrete `JsMath.sqrt` when evaluating scenarios. -/
def qsqrt (q : ℚ) : ℚ := ((Nat.sqrt q.num.toNat : ℕ) : ℚ)

/-- Concrete math instance for evaluated scenarios: exact square roots on
perfect squares; headings are irrelevant to the properties checked and are
fixed at 0. -/
def refJm : JsMath :=
  { sqrt := qsqrt, atan2 := fun _ _ => 0, cos := fun _ => 0,
    sin := fun _ => 0, numToString := fun _ => "r" }

/-- Ambient context whose `Math.random()` stream is constantly `r`. -/
def constExt (r : ℚ) : Ext := { rnd := fun _ => r, cur := 0, idc := 0 }

/-- Modelled from the spec: a plausible concrete stats table (the real
`STATS` constants module is absent from src/); the spec fixes only the field
names, so the numeric values here are sample data for concrete runs. -/
def refStats : EntityType → UnitStats
  | EntityType.WORKER =>
    { cost := 50, hp := 40, damage := 5, range := 15, vision := 300,
      speed := 2, attackSpeed := 15, buildTime := 4, width := 20, height := 20,
      supplyCost := 1, supplyProvided := 0, healRate := none }
  | EntityType.MARINE =>
    { cost := 50, hp := 50, damage := 6, range := 100, vision := 350,
      speed := 2, attackSpeed := 15, buildTime := 2, width := 20, height := 20,
      supplyCost := 1, supplyProvided := 0, healRate := none }
  | EntityType.MEDIC =>
    { cost := 75, hp := 60, damage := 0, range := 60, vision := 300,
      speed := 2, attackSpeed := 20, buildTime := 3, width := 20, height := 20,
      supplyCost := 1, supplyProvided := 0, healRate := some 5 }
  | EntityType.BASE =>
    { cost := 400, hp := 1500, damage := 0, range := 0, vision := 400,
      speed := 0, attackSpeed := 0, buildTime := 6, width := 100, height := 100,
      supplyCost := 0, supplyProvided := 10, healRate := none }
  | EntityType.BARRACKS =>
    { cost := 150, hp := 1000, damage := 0, range := 0, vision := 300,
      speed := 0, attackSpeed := 0, buildTime := 5, width := 80, height := 80,
      supplyCost := 0, supplyProvided := 8, healRate := none }
  | EntityType.BUNKER =>
    { cost := 100, hp := 400, damage := 0, range := 250, vision := 300,
      speed := 0, attackSpeed := 0, buildTime := 3, width := 60, height := 60,
      supplyCost := 0, supplyProvided := 0, healRate := none }
  | EntityType.SUPPLY_DEPOT =>
    { cost := 100, hp := 500, damage := 0, range := 0, vision := 200,
      speed := 0, attackSpeed := 0, buildTime := 3, width := 60, height := 60,
      supplyCost := 0, supplyProvided := 8, healRate := none }
  | EntityType.MINERAL =>
    { cost := 0, hp := 1000, damage := 0, range := 0, vision := 0,
      speed := 0, attackSpeed := 0, buildTime := 1, width := 40, height := 40,
      supplyCost := 0, supplyProvided := 0, healRate := none }
  | EntityType.MOUNTAIN =>
    { cost := 0, hp := 10000, damage := 0, range := 0, vision := 0,
      speed := 0, attackSpeed := 0, buildTime := 1, width := 60, height := 60,
      supplyCost := 0, supplyProvided := 0, healRate := none }
  | EntityType.WATER =>
    { cost := 0, hp := 10000, damage := 0, range := 0, vision := 0,
      speed := 0, attackSpeed := 0, buildTime := 1, width := 60, height := 60,
      supplyCost := 0, supplyProvided := 0, healRate := none }

/-- Concrete constants record built on `refStats`, with a short gather dwell
so that concrete runs stay small. -/
def refConsts : Consts :=
  { stats := refStats, gameWidth := 3000, gameHeight := 2000,
    gatherTime := 2, resourceGatherAmount := 5 }

/-- An entity template with every optional field cleared; concrete scenario
states override the relevant fields. -/
def baseEnt (id : String) (ty : EntityType) (ow : Owner) (pos : Vec2)
    (hp : ℚ) : Entity :=
  { id := id, type := ty, owner := ow, position := pos, radius := 10,
    hp := hp, maxHp := hp, targetId := none, targetPosition := none,
    state := EState.IDLE, cooldown := 0, resourceAmount := 0,
    constructionProgress := 100, trainQueue := [], trainProgress := 0,
    rallyPoint := none, rallyTargetId := none, lastAttackerId := none,
    garrison := [], containerId := none }

/-- An otherwise-empty world-state shell around an entity list. -/
def baseState (es : List Entity) (t : ℕ) : GameState :=
  { entities := es, effects := [], markers := [], notifications := [],
    soundEvents := [], resources := { player := 0, ai := 0 },
    supply := ⟨⟨0, 0⟩, ⟨0, 0⟩⟩, selection := [], camera := ⟨0, 0⟩,
    victory := none, gameTime := t, difficulty := Difficulty.MEDIUM,
    paused := false }

end StarDraft
namespace StarDraft

theorem bunkerBlock_skip (jm : JsMath) (c : Consts) (st : LoopSt) (i : ℕ)
    (h : (selfGet st i).type ≠ EntityType.BUNKER) :
    bunkerBlock jm c st i = st := by
  simp only [bunkerBlock, h, false_and, if_false, ne_eq, not_false_iff, if_neg]

theorem bunkerBlock_skip2 (jm : JsMath) (c : Consts) (st : LoopSt) (i : ℕ)
    (h : (selfGet st i).garrison = []) :
    bunkerBlock jm c st i = st := by
  simp only [bunkerBlock, h, and_false, if_false, ne_eq, not_true, if_neg,
    not_not, and_true]

theorem medicBlock_skip (jm : JsMath) (c : Consts) (st : LoopSt) (i : ℕ)
    (h : (selfGet st i).type ≠ EntityType.MEDIC) :
    medicBlock jm c st i = st := by
  simp only [medicBlock, h, if_false, ne_eq, not_false_iff, if_neg]

theorem enteringBlock_skip (jm : JsMath) (c : Consts) (st : LoopSt) (i : ℕ)
    (h : (selfGet st i).state ≠ EState.ENTERING) :
    enteringBlock jm c st i = st := by
  simp only [enteringBlock, h, false_and, if_false, ne_eq, not_false_iff, if_neg]

theorem autoAcquireBlock_skip_state (jm : JsMath) (c : Consts) (st : LoopSt)
    (i : ℕ) (h : (selfGet st i).state ≠ EState.IDLE) :
    autoAcquireBlock jm c st i = st := by
  simp only [autoAcquireBlock, h, false_and, if_false, ne_eq, not_false_iff,
    if_neg]

theorem autoAcquireBlock_skip_damage (jm : JsMath) (c : Consts) (st : LoopSt)
    (i : ℕ) (h : ¬ 0 < (c.stats (selfGet st i).type).damage) :
    autoAcquireBlock jm c st i = st := by
  simp only [autoAcquireBlock, h, and_false, if_false, ne_eq, if_neg]

theorem movingBlock_skip (jm : JsMath) (c : Consts) (st : LoopSt) (i : ℕ)
    (h : (selfGet st i).state ≠ EState.MOVING) :
    movingBlock jm c st i = st := by
  simp only [movingBlock, h, if_false, ne_eq, not_false_iff, if_neg]

theorem attackingBlock_skip (jm : JsMath) (c : Consts) (t : ℕ) (st : LoopSt)
    (i : ℕ) (h : (selfGet st i).state ≠ EState.ATTACKING) :
    attackingBlock jm c t st i = st := by
  simp only [attackingBlock, h, if_false, ne_eq, not_false_iff, if_neg]

theorem gatheringBlock_skip (jm : JsMath) (c : Consts) (t : ℕ) (st : LoopSt)
    (i : ℕ) (h : (selfGet st i).state ≠ EState.GATHERING) :
    gatheringBlock jm c t st i = (st, false) := by
  simp only [gatheringBlock, h, if_false, ne_eq, not_false_iff, if_neg]

theorem returningBlock_skip (jm : JsMath) (c : Consts) (st : LoopSt) (i : ℕ)
    (h : (selfGet st i).state ≠ EState.RETURNING) :
    returningBlock jm c st i = st := by
  simp only [returningBlock, h, if_false, ne_eq, not_false_iff, if_neg]

theorem cooldownBlock_skip (st : LoopSt) (i : ℕ)
    (h : ¬ 0 < (selfGet st i).cooldown) :
    cooldownBlock st i = st := by
  simp only [cooldownBlock, h, false_and, if_false, if_neg]

theorem deathBlock_skip (jm : JsMath) (st : LoopSt) (i : ℕ)
    (h : ¬ (selfGet st i).hp ≤ 0) :
    deathBlock jm st i = st := by
  simp only [deathBlock, h, if_false, if_neg]

theorem collisionBlock_skip_static (jm : JsMath) (c : Consts) (st : LoopSt)
    (i : ℕ) (h : (c.stats (selfGet st i).type).speed = 0) :
    collisionBlock jm c st i = st := by
  simp only [collisionBlock, h, eq_self_iff_true, if_true, ite_self]

theorem productionBlock_skip (jm : JsMath) (c : Consts) (sup : SupplyPair)
    (t : ℕ) (st : LoopSt) (i : ℕ) (h : (selfGet st i).trainQueue = []) :
    productionBlock jm c sup t st i = st := by
  simp only [productionBlock, h]

end StarDraft

namespace StarDraft
set_option maxHeartbeats 1000000

def c6Consts (bt scM spB : ℚ) : Consts :=
  { stats := fun ty => match ty with
      | EntityType.MARINE =>
        { cost := 50, hp := 50, damage := 6, range := 100, vision := 350,
          speed := 2, attackSpeed := 15, buildTime := bt, width := 20,
          height := 20, supplyCost := scM, supplyProvided := 0, healRate := none }
      | EntityType.BARRACKS =>
        { cost := 150, hp := 1000, damage := 0, range := 0, vision := 300,
          speed := 0, attackSpeed := 0, buildTime := 5, width := 80,
          height := 80, supplyCost := 0, supplyProvided := spB, healRate := none }
      | t => refStats t,
    gameWidth := 3000, gameHeight := 2000, gatherTime := 2,
    resourceGatherAmount := 5 }

def c6Producer (p : ℚ) : Entity :=
  { baseEnt "B1" EntityType.BARRACKS Owner.AI ⟨0,0⟩ 1000 with
    trainQueue := [EntityType.MARINE], trainProgress := p }

def c6St (spB p : ℚ) (t : ℕ) : GameState :=
  { baseState [c6Producer p] t with
    victory := some Owner.AI,
    supply := ⟨⟨0, 0⟩, ⟨0, min spB 200⟩⟩ }

def c6Loop (p : ℚ) (ext : Ext) : LoopSt :=
  { ar := ⟨[c6Producer p], [("B1", 0)], [("B1", 0)]⟩, effects := [],
    sounds := [], inNotifs := [], res := ⟨0, 0⟩, ext := ext }

theorem c6_selfGet (p : ℚ) (ext : Ext) : selfGet (c6Loop p ext) 0 = c6Producer p := by
  simp [selfGet, c6Loop, Arena.obj]

theorem c6_sup (bt scM spB p : ℚ) :
    computeSupply (c6Consts bt scM spB) [c6Producer p] =
      ⟨⟨0, 0⟩, ⟨0, min spB 200⟩⟩ := by
  have h1 : (Owner.AI = Owner.NEUTRAL) = False := by decide
  norm_num [computeSupply, supStep, c6Producer, baseEnt, c6Consts, h1]

theorem c6_ar (p : ℚ) : Arena.init [c6Producer p] =
    ⟨[c6Producer p], [("B1", 0)], [("B1", 0)]⟩ := by
  simp [Arena.init, bindingsFrom, c6Producer, baseEnt]

theorem c6_production_freeze (bt scM spB p : ℚ) (t : ℕ) (ext : Ext)
    (hbt : bt ≤ p + 1) (hcap : ¬ scM ≤ min spB 200) :
    productionBlock refJm (c6Consts bt scM spB) ⟨⟨0, 0⟩, ⟨0, min spB 200⟩⟩ t
      (c6Loop p ext) 0 = c6Loop (bt - 1) ext := by
  have h1 : (Owner.AI = Owner.PLAYER) = False := by decide
  norm_num [productionBlock, c6Loop, selfGet, selfSet, Arena.obj, Arena.objSet,
    c6Producer, baseEnt, c6Consts, SupplyPair.get, hbt, hcap, h1]

end StarDraft

namespace StarDraft

theorem c6_step_freeze (bt scM spB p : ℚ) (t : ℕ) (ext : Ext)
    (hbt : bt ≤ p + 1) (hcap : ¬ scM ≤ min spB 200) :
    entityStep refJm (c6Consts bt scM spB) ⟨⟨0, 0⟩, ⟨0, min spB 200⟩⟩ t
      (c6Loop p ext) ("B1", 0) = c6Loop (bt - 1) ext := by
  have hg := c6_selfGet p ext
  have hg2 := c6_selfGet (bt - 1) ext
  have hprod := c6_production_freeze bt scM spB p t ext hbt hcap
  have hmain : entityStep refJm (c6Consts bt scM spB) ⟨⟨0, 0⟩, ⟨0, min spB 200⟩⟩ t
      (c6Loop p ext) ("B1", 0) =
      mainPath refJm (c6Consts bt scM spB) ⟨⟨0, 0⟩, ⟨0, min spB 200⟩⟩ t
        (c6Loop p ext) 0 := by
    simp only [entityStep]
    rw [if_neg (by simp [hg, c6Producer, baseEnt]),
        if_neg (by simp [hg, c6Producer, baseEnt]),
        if_neg (by norm_num [hg, c6Producer, baseEnt])]
  rw [hmain]
  simp only [mainPath]
  rw [hprod]
  rw [bunkerBlock_skip _ _ _ _ (by simp [hg2, c6Producer, baseEnt])]
  rw [medicBlock_skip _ _ _ _ (by simp [hg2, c6Producer, baseEnt])]
  rw [enteringBlock_skip _ _ _ _ (by simp [hg2, c6Producer, baseEnt])]
  rw [autoAcquireBlock_skip_damage _ _ _ _
    (by norm_num [hg2, c6Producer, baseEnt, c6Consts])]
  rw [movingBlock_skip _ _ _ _ (by simp [hg2, c6Producer, baseEnt])]
  rw [attackingBlock_skip _ _ _ _ _ (by simp [hg2, c6Producer, baseEnt])]
  rw [gatheringBlock_skip _ _ _ _ _ (by simp [hg2, c6Producer, baseEnt])]
  simp only [if_false, Bool.false_eq_true]
  rw [returningBlock_skip _ _ _ _ (by simp [hg2, c6Producer, baseEnt])]
  rw [cooldownBlock_skip _ _ (by norm_num [hg2, c6Producer, baseEnt])]
  rw [deathBlock_skip _ _ _ (by norm_num [hg2, c6Producer, baseEnt])]
  rw [collisionBlock_skip_static _ _ _ _
    (by norm_num [hg2, c6Producer, baseEnt, c6Consts])]

end StarDraft

namespace StarDraft

theorem aiTrainWorker_nobase (w : List String) (mw : ℕ) (m : ℚ) (su : Supply)
    (st : LoopSt) : aiTrainWorker w [] mw m su st = st := by
  simp [aiTrainWorker]

theorem runAI_noop (jm : JsMath) (c : Consts) (sup : SupplyPair)
    (diff : Difficulty) (st : LoopSt)
    (hW : st.ar.newsList.filter (fun a =>
      decide (a.type = EntityType.WORKER) && decide (a.owner = Owner.AI)) = [])
    (hB : st.ar.newsList.filter (fun a =>
      decide (a.type = EntityType.BASE) && decide (a.owner = Owner.AI)) = [])
    (hArmy : (st.ar.newsList.filter (fun a =>
      decide (a.type = EntityType.MARINE ∨ a.type = EntityType.MEDIC)
        && decide (a.owner = Owner.AI))).length ≤ 8)
    (hm : st.res.ai < 50) :
    runAI jm c sup diff st = st := by
  have h50 : ¬ (50:ℚ) ≤ st.res.ai := not_le.mpr hm
  have h100 : ¬ (100:ℚ) ≤ st.res.ai := not_le.mpr (lt_trans hm (by norm_num))
  have h150 : ¬ (150:ℚ) ≤ st.res.ai := not_le.mpr (lt_trans hm (by norm_num))
  simp only [runAI, List.filter_filter, hW, hB, List.map_nil,
    aiTrainWorker_nobase, aiManageWorkers, List.foldl_nil, h50, h100, h150,
    and_false, false_and, if_false, List.length_nil, ite_self]
  have hth : ¬ ((match diff with
      | Difficulty.EASY => (15:ℕ)
      | Difficulty.HARD => 8
      | Difficulty.MEDIUM => 10) <
      (st.ar.newsList.filter (fun a =>
        decide (a.type = EntityType.MARINE ∨ a.type = EntityType.MEDIC)
          && decide (a.owner = Owner.AI))).length) := by
    cases diff <;> simp only [] <;> omega
  simp only [List.length_map]
  split
  · next h => exact absurd h hth
  · rfl

theorem c6_runAI_noop (bt scM spB q : ℚ) (ext : Ext) :
    runAI refJm (c6Consts bt scM spB) ⟨⟨0, 0⟩, ⟨0, min spB 200⟩⟩
      Difficulty.MEDIUM (c6Loop q ext) = c6Loop q ext := by
  refine runAI_noop _ _ _ _ _ ?_ ?_ ?_ (by norm_num [c6Loop]) <;>
    simp [c6Loop, Arena.newsList, Arena.obj, c6Producer, baseEnt]

theorem c6_victory (q : ℚ) :
    victoryOf [c6Producer q] = some Owner.AI := by
  norm_num [victoryOf, countOwnedBuildings, isBuilding, c6Producer, baseEnt,
    show (Owner.AI = Owner.PLAYER) = False by decide,
    show (Owner.AI = Owner.AI) = True by decide]

theorem c6_tick_freeze (bt scM spB p : ℚ) (t : ℕ) (ext : Ext)
    (hbt : bt ≤ p + 1) (hcap : ¬ scM ≤ min spB 200) :
    updateGameE refJm (c6Consts bt scM spB) (c6St spB p t, ext) =
      (c6St spB (bt - 1) (t + 1), ext) := by
  have hstep := c6_step_freeze bt scM spB p t ext hbt hcap
  simp only [updateGameE]
  rw [show (c6St spB p t).entities = [c6Producer p] from rfl,
      show (c6St spB p t).effects = [] from rfl,
      show (c6St spB p t).markers = [] from rfl,
      show (c6St spB p t).notifications = [] from rfl,
      show (c6St spB p t).resources = ⟨0, 0⟩ from rfl,
      show (c6St spB p t).gameTime = t from rfl,
      show (c6St spB p t).difficulty = Difficulty.MEDIUM from rfl,
      show (c6St spB p t).selection = [] from rfl,
      show (c6St spB p t).camera = ⟨0, 0⟩ from rfl,
      show (c6St spB p t).paused = false from rfl]
  rw [c6_sup, c6_ar]
  rw [show (Arena.mk [c6Producer p] [("B1", 0)] [("B1", 0)]).ents =
      [("B1", 0)] from rfl]
  rw [List.foldl_cons, List.foldl_nil]
  rw [show (⟨⟨[c6Producer p], [("B1", 0)], [("B1", 0)]⟩, [], [], [],
      ⟨0, 0⟩, ext⟩ : LoopSt) = c6Loop p ext from rfl]
  rw [hstep]
  have hfin : (c6Loop (bt - 1) ext).ar.newsList = [c6Producer (bt - 1)] := rfl
  by_cases h30 : t % 30 = 0
  · rw [if_pos h30, c6_runAI_noop, hfin, c6_victory]
    simp [c6Loop, c6St, baseState]
  · rw [if_neg h30, hfin, c6_victory]
    simp [c6Loop, c6St, baseState]

end StarDraft

namespace StarDraft

theorem c6_production_advance (bt scM spB p : ℚ) (t : ℕ) (ext : Ext)
    (hbt : ¬ bt ≤ p + 1) :
    productionBlock refJm (c6Consts bt scM spB) ⟨⟨0, 0⟩, ⟨0, min spB 200⟩⟩ t
      (c6Loop p ext) 0 = c6Loop (p + 1) ext := by
  norm_num [productionBlock, c6Loop, selfGet, selfSet, Arena.obj, Arena.objSet,
    c6Producer, baseEnt, c6Consts, SupplyPair.get, hbt]

theorem c6_step_advance (bt scM spB p : ℚ) (t : ℕ) (ext : Ext)
    (hbt : ¬ bt ≤ p + 1) :
    entityStep refJm (c6Consts bt scM spB) ⟨⟨0, 0⟩, ⟨0, min spB 200⟩⟩ t
      (c6Loop p ext) ("B1", 0) = c6Loop (p + 1) ext := by
  have hg := c6_selfGet p ext
  have hg2 := c6_selfGet (p + 1) ext
  have hprod := c6_production_advance bt scM spB p t ext hbt
  have hmain : entityStep refJm (c6Consts bt scM spB) ⟨⟨0, 0⟩, ⟨0, min spB 200⟩⟩ t
      (c6Loop p ext) ("B1", 0) =
      mainPath refJm (c6Consts bt scM spB) ⟨⟨0, 0⟩, ⟨0, min spB 200⟩⟩ t
        (c6Loop p ext) 0 := by
    simp only [entityStep]
    rw [if_neg (by simp [hg, c6Producer, baseEnt]),
        if_neg (by simp [hg, c6Producer, baseEnt]),
        if_neg (by norm_num [hg, c6Producer, baseEnt])]
  rw [hmain]
  simp only [mainPath]
  rw [hprod]
  rw [bunkerBlock_skip _ _ _ _ (by simp [hg2, c6Producer, baseEnt])]
  rw [medicBlock_skip _ _ _ _ (by simp [hg2, c6Producer, baseEnt])]
  rw [enteringBlock_skip _ _ _ _ (by simp [hg2, c6Producer, baseEnt])]
  rw [autoAcquireBlock_skip_damage _ _ _ _
    (by norm_num [hg2, c6Producer, baseEnt, c6Consts])]
  rw [movingBlock_skip _ _ _ _ (by simp [hg2, c6Producer, baseEnt])]
  rw [attackingBlock_skip _ _ _ _ _ (by simp [hg2, c6Producer, baseEnt])]
  rw [gatheringBlock_skip _ _ _ _ _ (by simp [hg2, c6Producer, baseEnt])]
  simp only [if_false, Bool.false_eq_true]
  rw [returningBlock_skip _ _ _ _ (by simp [hg2, c6Producer, baseEnt])]
  rw [cooldownBlock_skip _ _ (by norm_num [hg2, c6Producer, baseEnt])]
  rw [deathBlock_skip _ _ _ (by norm_num [hg2, c6Producer, baseEnt])]
  rw [collisionBlock_skip_static _ _ _ _
    (by norm_num [hg2, c6Producer, baseEnt, c6Consts])]

theorem c6_tick_advance (bt scM spB p : ℚ) (t : ℕ) (ext : Ext)
    (hbt : ¬ bt ≤ p + 1) :
    updateGameE refJm (c6Consts bt scM spB) (c6St spB p t, ext) =
      (c6St spB (p + 1) (t + 1), ext) := by
  have hstep := c6_step_advance bt scM spB p t ext hbt
  simp only [updateGameE]
  rw [show (c6St spB p t).entities = [c6Producer p] from rfl,
      show (c6St spB p t).effects = [] from rfl,
      show (c6St spB p t).markers = [] from rfl,
      show (c6St spB p t).notifications = [] from rfl,
      show (c6St spB p t).resources = ⟨0, 0⟩ from rfl,
      show (c6St spB p t).gameTime = t from rfl,
      show (c6St spB p t).difficulty = Difficulty.MEDIUM from rfl,
      show (c6St spB p t).selection = [] from rfl,
      show (c6St spB p t).camera = ⟨0, 0⟩ from rfl,
      show (c6St spB p t).paused = false from rfl]
  rw [c6_sup, c6_ar]
  rw [show (Arena.mk [c6Producer p] [("B1", 0)] [("B1", 0)]).ents =
      [("B1", 0)] from rfl]
  rw [List.foldl_cons, List.foldl_nil]
  rw [show (⟨⟨[c6Producer p], [("B1", 0)], [("B1", 0)]⟩, [], [], [],
      ⟨0, 0⟩, ext⟩ : LoopSt) = c6Loop p ext from rfl]
  rw [hstep]
  have hfin : (c6Loop (p + 1) ext).ar.newsList = [c6Producer (p + 1)] := rfl
  by_cases h30 : t % 30 = 0
  · rw [if_pos h30, c6_runAI_noop, hfin, c6_victory]
    simp [c6Loop, c6St, baseState]
  · rw [if_neg h30, hfin, c6_victory]
    simp [c6Loop, c6St, baseState]

end StarDraft

namespace StarDraft

def c6Done : Entity := { c6Producer 0 with trainQueue := [] }

def c6Marine (rf : ℕ → ℚ) (cu : ℕ) : Entity :=
  { baseEnt "ent_1" EntityType.MARINE Owner.AI
      ⟨rf cu * 40 - 20, 80 + rf (cu + 1) * 10⟩ 50 with
    state := EState.ATTACKING, targetPosition := some ⟨1500, 1000⟩ }

def c6SpawnLoop (rf : ℕ → ℚ) (cu : ℕ) : LoopSt :=
  ⟨⟨[c6Done, c6Marine rf cu], [("B1", 0)], [("B1", 0), ("ent_1", 1)]⟩,
   [], [], [], ⟨0, 0⟩, ⟨rf, cu + 2, 1⟩⟩

theorem c6_production_spawn (bt scM spB p : ℚ) (t : ℕ) (rf : ℕ → ℚ) (cu : ℕ)
    (hbt : bt ≤ p + 1) (hcap : scM ≤ min spB 200) :
    productionBlock refJm (c6Consts bt scM spB) ⟨⟨0, 0⟩, ⟨0, min spB 200⟩⟩ t
      (c6Loop p ⟨rf, cu, 0⟩) 0 = c6SpawnLoop rf cu := by
  norm_num [productionBlock, c6Loop, c6SpawnLoop, selfGet, selfSet, selfUpd,
    Arena.obj, Arena.objSet, Arena.newsSet, c6Producer, c6Done, c6Marine,
    baseEnt, c6Consts, SupplyPair.get, hbt, hcap, rallyRoute, createEntity,
    Ext.draw, Ext.generateId, entId,
    show (Owner.AI = Owner.PLAYER) = False by decide,
    show ("ent_" ++ toString 1 = "ent_1") = True by decide,
    show ("B1" = "ent_" ++ toString 1) = False by decide,
    show (EntityType.MARINE = EntityType.MINERAL) = False by decide]

end StarDraft

namespace StarDraft

theorem c6_spawn_selfGet (rf : ℕ → ℚ) (cu : ℕ) :
    selfGet (c6SpawnLoop rf cu) 0 = c6Done := by
  simp [selfGet, c6SpawnLoop, Arena.obj]

theorem c6_step_spawn (bt scM spB p : ℚ) (t : ℕ) (rf : ℕ → ℚ) (cu : ℕ)
    (hbt : bt ≤ p + 1) (hcap : scM ≤ min spB 200) :
    entityStep refJm (c6Consts bt scM spB) ⟨⟨0, 0⟩, ⟨0, min spB 200⟩⟩ t
      (c6Loop p ⟨rf, cu, 0⟩) ("B1", 0) = c6SpawnLoop rf cu := by
  have hg := c6_selfGet p (⟨rf, cu, 0⟩ : Ext)
  have hg2 := c6_spawn_selfGet rf cu
  have hprod := c6_production_spawn bt scM spB p t rf cu hbt hcap
  have hmain : entityStep refJm (c6Consts bt scM spB) ⟨⟨0, 0⟩, ⟨0, min spB 200⟩⟩ t
      (c6Loop p ⟨rf, cu, 0⟩) ("B1", 0) =
      mainPath refJm (c6Consts bt scM spB) ⟨⟨0, 0⟩, ⟨0, min spB 200⟩⟩ t
        (c6Loop p ⟨rf, cu, 0⟩) 0 := by
    simp only [entityStep]
    rw [if_neg (by simp [hg, c6Producer, baseEnt]),
        if_neg (by simp [hg, c6Producer, baseEnt]),
        if_neg (by norm_num [hg, c6Producer, baseEnt])]
  rw [hmain]
  simp only [mainPath]
  rw [hprod]
  rw [bunkerBlock_skip _ _ _ _ (by simp [hg2, c6Done, c6Producer, baseEnt])]
  rw [medicBlock_skip _ _ _ _ (by simp [hg2, c6Done, c6Producer, baseEnt])]
  rw [enteringBlock_skip _ _ _ _ (by simp [hg2, c6Done, c6Producer, baseEnt])]
  rw [autoAcquireBlock_skip_damage _ _ _ _
    (by norm_num [hg2, c6Done, c6Producer, baseEnt, c6Consts])]
  rw [movingBlock_skip _ _ _ _ (by simp [hg2, c6Done, c6Producer, baseEnt])]
  rw [attackingBlock_skip _ _ _ _ _ (by simp [hg2, c6Done, c6Producer, baseEnt])]
  rw [gatheringBlock_skip _ _ _ _ _ (by simp [hg2, c6Done, c6Producer, baseEnt])]
  simp only [if_false, Bool.false_eq_true]
  rw [returningBlock_skip _ _ _ _ (by simp [hg2, c6Done, c6Producer, baseEnt])]
  rw [cooldownBlock_skip _ _ (by norm_num [hg2, c6Done, c6Producer, baseEnt])]
  rw [deathBlock_skip _ _ _ (by norm_num [hg2, c6Done, c6Producer, baseEnt])]
  rw [collisionBlock_skip_static _ _ _ _
    (by norm_num [hg2, c6Done, c6Producer, baseEnt, c6Consts])]

def c6SpawnSt (spB : ℚ) (rf : ℕ → ℚ) (cu : ℕ) (t : ℕ) : GameState :=
  { baseState [c6Done, c6Marine rf cu] t with
    victory := some Owner.AI,
    supply := ⟨⟨0, 0⟩, ⟨0, min spB 200⟩⟩ }

theorem c6_tick_spawn (bt scM spB p : ℚ) (t : ℕ) (rf : ℕ → ℚ) (cu : ℕ)
    (hbt : bt ≤ p + 1) (hcap : scM ≤ min spB 200) :
    updateGameE refJm (c6Consts bt scM spB) (c6St spB p t, ⟨rf, cu, 0⟩) =
      (c6SpawnSt spB rf cu (t + 1), ⟨rf, cu + 2, 1⟩) := by
  have hstep := c6_step_spawn bt scM spB p t rf cu hbt hcap
  simp only [updateGameE]
  rw [show (c6St spB p t).entities = [c6Producer p] from rfl,
      show (c6St spB p t).effects = [] from rfl,
      show (c6St spB p t).markers = [] from rfl,
      show (c6St spB p t).notifications = [] from rfl,
      show (c6St spB p t).resources = ⟨0, 0⟩ from rfl,
      show (c6St spB p t).gameTime = t from rfl,
      show (c6St spB p t).difficulty = Difficulty.MEDIUM from rfl,
      show (c6St spB p t).selection = [] from rfl,
      show (c6St spB p t).camera = ⟨0, 0⟩ from rfl,
      show (c6St spB p t).paused = false from rfl]
  rw [c6_sup, c6_ar]
  rw [show (Arena.mk [c6Producer p] [("B1", 0)] [("B1", 0)]).ents =
      [("B1", 0)] from rfl]
  rw [List.foldl_cons, List.foldl_nil]
  rw [show (⟨⟨[c6Producer p], [("B1", 0)], [("B1", 0)]⟩, [], [], [],
      ⟨0, 0⟩, ⟨rf, cu, 0⟩⟩ : LoopSt) = c6Loop p ⟨rf, cu, 0⟩ from rfl]
  rw [hstep]
  have hfin : (c6SpawnLoop rf cu).ar.newsList = [c6Done, c6Marine rf cu] := rfl
  have hvic : victoryOf [c6Done, c6Marine rf cu] = some Owner.AI := by
    norm_num [victoryOf, countOwnedBuildings, isBuilding, c6Done, c6Marine,
      c6Producer, baseEnt,
      show (Owner.AI = Owner.PLAYER) = False by decide,
      show (Owner.AI = Owner.AI) = True by decide]
  have hnoop : runAI refJm (c6Consts bt scM spB) ⟨⟨0, 0⟩, ⟨0, min spB 200⟩⟩
      Difficulty.MEDIUM (c6SpawnLoop rf cu) = c6SpawnLoop rf cu := by
    refine runAI_noop _ _ _ _ _ ?_ ?_ ?_ (by norm_num [c6SpawnLoop]) <;>
      simp [c6SpawnLoop, Arena.newsList, Arena.obj, c6Done, c6Marine,
        c6Producer, baseEnt]
  by_cases h30 : t % 30 = 0
  · rw [if_pos h30, hnoop, hfin, hvic]
    simp [c6SpawnLoop, c6SpawnSt, baseState]
  · rw [if_neg h30, hfin, hvic]
    simp [c6SpawnLoop, c6SpawnSt, baseState]

end StarDraft

namespace StarDraft

theorem c6_claim (bt scM spB : ℚ) :
    (∀ p t (ext : Ext), ¬ bt ≤ p + 1 →
      updateGameE refJm (c6Consts bt scM spB) (c6St spB p t, ext) =
        (c6St spB (p + 1) (t + 1), ext)) ∧
    (∀ p t (ext : Ext), bt ≤ p + 1 → ¬ scM ≤ min spB 200 →
      updateGameE refJm (c6Consts bt scM spB) (c6St spB p t, ext) =
        (c6St spB (bt - 1) (t + 1), ext)) ∧
    (∀ p t (ext : Ext) n, bt ≤ p + 1 → ¬ scM ≤ min spB 200 → 1 ≤ n →
      (updateGameE refJm (c6Consts bt scM spB))^[n] (c6St spB p t, ext) =
        (c6St spB (bt - 1) (t + n), ext)) ∧
    (∀ p t (rf : ℕ → ℚ) (cu : ℕ), bt ≤ p + 1 → scM ≤ min spB 200 →
      updateGameE refJm (c6Consts bt scM spB) (c6St spB p t, ⟨rf, cu, 0⟩) =
        (c6SpawnSt spB rf cu (t + 1), ⟨rf, cu + 2, 1⟩)) := by
  refine ⟨fun p t ext h => c6_tick_advance bt scM spB p t ext h,
          fun p t ext h1 h2 => c6_tick_freeze bt scM spB p t ext h1 h2,
          ?_,
          fun p t rf cu h1 h2 => c6_tick_spawn bt scM spB p t rf cu h1 h2⟩
  intro p t ext n h1 h2 hn
  induction n with
  | zero => omega
  | succ n ih =>
    rcases Nat.eq_or_lt_of_le hn with h | h
    · rw [← h]
      simpa using c6_tick_freeze bt scM spB p t ext h1 h2
    · have hn1 : 1 ≤ n := by omega
      rw [Function.iterate_succ_apply', ih hn1]
      have := c6_tick_freeze bt scM spB (bt - 1) (t + n) ext
        (by linarith) h2
      rw [this]
      have : t + (n + 1) = t + n + 1 := by omega
      rw [this]

end StarDraft

namespace StarDraft

def c3Consts (a : ℕ) (D : ℚ) : Consts :=
  { refConsts with stats := fun ty =>
      if ty = EntityType.MARINE then
        { refStats EntityType.MARINE with damage := D, attackSpeed := (a:ℚ) }
      else refStats ty }

def c3Marine (cl : ℚ) : Entity :=
  { baseEnt "M" EntityType.MARINE Owner.PLAYER ⟨0,0⟩ 50 with
    state := EState.ATTACKING, targetId := some "AB", cooldown := cl }

def c3Target (h : ℚ) (l : Option String) : Entity :=
  { baseEnt "AB" EntityType.BARRACKS Owner.AI ⟨0,0⟩ 1000 with
    hp := h, lastAttackerId := l }

def c3Base : Entity := baseEnt "PB" EntityType.BASE Owner.PLAYER ⟨0,0⟩ 1500

def c3Binds : List (String × ℕ) := [("M", 0), ("AB", 1), ("PB", 2)]

def c3Loop (cl h : ℚ) (l : Option String) (ext : Ext) : LoopSt :=
  ⟨⟨[c3Marine cl, c3Target h l, c3Base], c3Binds, c3Binds⟩,
   [], [], [], ⟨0, 0⟩, ext⟩

def c3St (cl h : ℚ) (l : Option String) (t : ℕ) : GameState :=
  { baseState [c3Marine cl, c3Target h l, c3Base] t with
    supply := ⟨⟨1, 10⟩, ⟨0, 8⟩⟩ }

theorem dist_self_zero (p : Vec2) : getDistance refJm p p = 0 := by
  norm_num [getDistance, refJm, qsqrt]

end StarDraft

namespace StarDraft

theorem c3_attack_hit (a : ℕ) (D cl h : ℚ) (l : Option String) (t : ℕ)
    (ext : Ext) (hcl : cl ≤ 0) (hh0 : 0 < h) :
    attackingBlock refJm (c3Consts a D) t (c3Loop cl h l ext) 0 =
      c3Loop (a:ℚ) (h - D) (some "M") ext := by
  have e1 : ("M" = "AB") = False := by decide
  have e2 : ("AB" = "AB") = True := by decide
  have e3 : ("PB" = "AB") = False := by decide
  have hno : ¬ h ≤ 0 := not_le.mpr hh0
  norm_num [attackingBlock, c3Loop, c3Binds, c3Marine, c3Target, c3Base,
    baseEnt, selfGet, selfSet, selfUpd, Arena.obj, Arena.objSet,
    Arena.entsList, Arena.modifyEnt, listGet, c3Consts, refStats, refConsts,
    dist_self_zero, e1, e2, e3, hcl, hno,
    show (EntityType.MARINE = EntityType.MARINE) = True by decide,
    show (EntityType.BARRACKS = EntityType.MARINE) = False by decide,
    show (EState.IDLE = EState.GARRISONED) = False by decide]

end StarDraft

namespace StarDraft

theorem c3_selfGet0 (cl h : ℚ) (l : Option String) (ext : Ext) :
    selfGet (c3Loop cl h l ext) 0 = c3Marine cl := by
  simp [selfGet, c3Loop, Arena.obj]

theorem c3_selfGet1 (cl h : ℚ) (l : Option String) (ext : Ext) :
    selfGet (c3Loop cl h l ext) 1 = c3Target h l := by
  simp [selfGet, c3Loop, Arena.obj]

theorem c3_selfGet2 (cl h : ℚ) (l : Option String) (ext : Ext) :
    selfGet (c3Loop cl h l ext) 2 = c3Base := by
  simp [selfGet, c3Loop, Arena.obj]

theorem c3_attack_wait (a : ℕ) (D cl h : ℚ) (l : Option String) (t : ℕ)
    (ext : Ext) (hcl : ¬ cl ≤ 0) (hh0 : 0 < h) :
    attackingBlock refJm (c3Consts a D) t (c3Loop cl h l ext) 0 =
      c3Loop cl h l ext := by
  have e1 : ("M" = "AB") = False := by decide
  have e2 : ("AB" = "AB") = True := by decide
  have e3 : ("PB" = "AB") = False := by decide
  have hno : ¬ h ≤ 0 := not_le.mpr hh0
  norm_num [attackingBlock, c3Loop, c3Binds, c3Marine, c3Target, c3Base,
    baseEnt, selfGet, selfSet, selfUpd, Arena.obj, Arena.objSet,
    Arena.entsList, Arena.modifyEnt, listGet, c3Consts, refStats, refConsts,
    dist_self_zero, e1, e2, e3, hcl, hno,
    show (EState.IDLE = EState.GARRISONED) = False by decide]

theorem c3_collision (a : ℕ) (D cl h : ℚ) (l : Option String) (ext : Ext) :
    collisionBlock refJm (c3Consts a D) (c3Loop cl h l ext) 0 =
      c3Loop cl h l ext := by
  norm_num [collisionBlock, c3Loop, c3Binds, c3Marine, c3Target, c3Base,
    baseEnt, selfGet, selfSet, Arena.obj, Arena.objSet, Arena.entsList,
    c3Consts, refStats, refConsts, dist_self_zero,
    show (EState.ATTACKING = EState.BUILDING) = False by decide,
    show (EState.ATTACKING = EState.GARRISONED) = False by decide]

theorem c3_cooldown (a : ℕ) (D cl h : ℚ) (l : Option String) (ext : Ext)
    (hcl : 0 < cl) :
    cooldownBlock (c3Loop cl h l ext) 0 = c3Loop (cl - 1) h l ext := by
  norm_num [cooldownBlock, c3Loop, c3Binds, c3Marine, baseEnt, selfGet,
    selfSet, Arena.obj, Arena.objSet, hcl,
    show (EState.ATTACKING = EState.GATHERING) = False by decide]

end StarDraft

namespace StarDraft

theorem c3_step_marine_hit (a : ℕ) (D cl h : ℚ) (l : Option String) (t : ℕ)
    (ext : Ext) (ha : 0 < (a:ℚ)) (hcl : cl ≤ 0) (hh0 : 0 < h) :
    entityStep refJm (c3Consts a D) ⟨⟨1, 10⟩, ⟨0, 8⟩⟩ t
      (c3Loop cl h l ext) ("M", 0) = c3Loop ((a:ℚ) - 1) (h - D) (some "M") ext := by
  have hg := c3_selfGet0 cl h l ext
  have hg2 := c3_selfGet0 ((a:ℚ)) (h - D) (some "M") ext
  simp only [entityStep]
  rw [if_neg (by simp [hg, c3Marine, baseEnt]),
      if_neg (by simp [hg, c3Marine, baseEnt]),
      if_neg (by norm_num [hg, c3Marine, baseEnt])]
  simp only [mainPath]
  rw [productionBlock_skip _ _ _ _ _ _ (by simp [hg, c3Marine, baseEnt])]
  rw [bunkerBlock_skip _ _ _ _ (by simp [hg, c3Marine, baseEnt])]
  rw [medicBlock_skip _ _ _ _ (by simp [hg, c3Marine, baseEnt])]
  rw [enteringBlock_skip _ _ _ _ (by simp [hg, c3Marine, baseEnt])]
  rw [autoAcquireBlock_skip_state _ _ _ _ (by simp [hg, c3Marine, baseEnt])]
  rw [movingBlock_skip _ _ _ _ (by simp [hg, c3Marine, baseEnt])]
  rw [c3_attack_hit a D cl h l t ext hcl hh0]
  rw [gatheringBlock_skip _ _ _ _ _ (by simp [hg2, c3Marine, baseEnt])]
  simp only [if_false, Bool.false_eq_true]
  rw [returningBlock_skip _ _ _ _ (by simp [hg2, c3Marine, baseEnt])]
  rw [c3_cooldown a D ((a:ℚ)) (h - D) (some "M") ext ha]
  rw [deathBlock_skip _ _ _ (by norm_num [c3_selfGet0, c3Marine, baseEnt])]
  rw [c3_collision]

theorem c3_step_marine_wait (a : ℕ) (D cl h : ℚ) (l : Option String) (t : ℕ)
    (ext : Ext) (hcl : ¬ cl ≤ 0) (hh0 : 0 < h) :
    entityStep refJm (c3Consts a D) ⟨⟨1, 10⟩, ⟨0, 8⟩⟩ t
      (c3Loop cl h l ext) ("M", 0) = c3Loop (cl - 1) h l ext := by
  have hg := c3_selfGet0 cl h l ext
  simp only [entityStep]
  rw [if_neg (by simp [hg, c3Marine, baseEnt]),
      if_neg (by simp [hg, c3Marine, baseEnt]),
      if_neg (by norm_num [hg, c3Marine, baseEnt])]
  simp only [mainPath]
  rw [productionBlock_skip _ _ _ _ _ _ (by simp [hg, c3Marine, baseEnt])]
  rw [bunkerBlock_skip _ _ _ _ (by simp [hg, c3Marine, baseEnt])]
  rw [medicBlock_skip _ _ _ _ (by simp [hg, c3Marine, baseEnt])]
  rw [enteringBlock_skip _ _ _ _ (by simp [hg, c3Marine, baseEnt])]
  rw [autoAcquireBlock_skip_state _ _ _ _ (by simp [hg, c3Marine, baseEnt])]
  rw [movingBlock_skip _ _ _ _ (by simp [hg, c3Marine, baseEnt])]
  rw [c3_attack_wait a D cl h l t ext hcl hh0]
  rw [gatheringBlock_skip _ _ _ _ _ (by simp [hg, c3Marine, baseEnt])]
  simp only [if_false, Bool.false_eq_true]
  rw [returningBlock_skip _ _ _ _ (by simp [hg, c3Marine, baseEnt])]
  rw [c3_cooldown a D cl h l ext (not_le.mp hcl)]
  rw [deathBlock_skip _ _ _ (by norm_num [c3_selfGet0, c3Marine, baseEnt])]
  rw [c3_collision]

theorem c3_step_target (a : ℕ) (D cl h : ℚ) (l : Option String) (t : ℕ)
    (ext : Ext) (hh0 : 0 < h) :
    entityStep refJm (c3Consts a D) ⟨⟨1, 10⟩, ⟨0, 8⟩⟩ t
      (c3Loop cl h l ext) ("AB", 1) = c3Loop cl h l ext := by
  have hg := c3_selfGet1 cl h l ext
  simp only [entityStep]
  rw [if_neg (by simp [hg, c3Target, baseEnt]),
      if_neg (by simp [hg, c3Target, baseEnt]),
      if_neg (by norm_num [hg, c3Target, baseEnt])]
  simp only [mainPath]
  rw [productionBlock_skip _ _ _ _ _ _ (by simp [hg, c3Target, baseEnt])]
  rw [bunkerBlock_skip _ _ _ _ (by simp [hg, c3Target, baseEnt])]
  rw [medicBlock_skip _ _ _ _ (by simp [hg, c3Target, baseEnt])]
  rw [enteringBlock_skip _ _ _ _ (by simp [hg, c3Target, baseEnt])]
  rw [autoAcquireBlock_skip_damage _ _ _ _
    (by norm_num [hg, c3Target, baseEnt, c3Consts, refStats,
      show (EntityType.BARRACKS = EntityType.MARINE) = False by decide])]
  rw [movingBlock_skip _ _ _ _ (by simp [hg, c3Target, baseEnt])]
  rw [attackingBlock_skip _ _ _ _ _ (by simp [hg, c3Target, baseEnt])]
  rw [gatheringBlock_skip _ _ _ _ _ (by simp [hg, c3Target, baseEnt])]
  simp only [if_false, Bool.false_eq_true]
  rw [returningBlock_skip _ _ _ _ (by simp [hg, c3Target, baseEnt])]
  rw [cooldownBlock_skip _ _ (by norm_num [hg, c3Target, baseEnt])]
  rw [deathBlock_skip _ _ _ (by norm_num [hg, c3Target, baseEnt, not_le.mpr hh0])]
  rw [collisionBlock_skip_static _ _ _ _
    (by norm_num [hg, c3Target, baseEnt, c3Consts, refStats,
      show (EntityType.BARRACKS = EntityType.MARINE) = False by decide])]

theorem c3_step_base (a : ℕ) (D cl h : ℚ) (l : Option String) (t : ℕ)
    (ext : Ext) :
    entityStep refJm (c3Consts a D) ⟨⟨1, 10⟩, ⟨0, 8⟩⟩ t
      (c3Loop cl h l ext) ("PB", 2) = c3Loop cl h l ext := by
  have hg := c3_selfGet2 cl h l ext
  simp only [entityStep]
  rw [if_neg (by simp [hg, c3Base, baseEnt]),
      if_neg (by simp [hg, c3Base, baseEnt]),
      if_neg (by norm_num [hg, c3Base, baseEnt])]
  simp only [mainPath]
  rw [productionBlock_skip _ _ _ _ _ _ (by simp [hg, c3Base, baseEnt])]
  rw [bunkerBlock_skip _ _ _ _ (by simp [hg, c3Base, baseEnt])]
  rw [medicBlock_skip _ _ _ _ (by simp [hg, c3Base, baseEnt])]
  rw [enteringBlock_skip _ _ _ _ (by simp [hg, c3Base, baseEnt])]
  rw [autoAcquireBlock_skip_damage _ _ _ _
    (by norm_num [hg, c3Base, baseEnt, c3Consts, refStats,
      show (EntityType.BASE = EntityType.MARINE) = False by decide])]
  rw [movingBlock_skip _ _ _ _ (by simp [hg, c3Base, baseEnt])]
  rw [attackingBlock_skip _ _ _ _ _ (by simp [hg, c3Base, baseEnt])]
  rw [gatheringBlock_skip _ _ _ _ _ (by simp [hg, c3Base, baseEnt])]
  simp only [if_false, Bool.false_eq_true]
  rw [returningBlock_skip _ _ _ _ (by simp [hg, c3Base, baseEnt])]
  rw [cooldownBlock_skip _ _ (by norm_num [hg, c3Base, baseEnt])]
  rw [deathBlock_skip _ _ _ (by norm_num [hg, c3Base, baseEnt])]
  rw [collisionBlock_skip_static _ _ _ _
    (by norm_num [hg, c3Base, baseEnt, c3Consts, refStats,
      show (EntityType.BASE = EntityType.MARINE) = False by decide])]

end StarDraft

namespace StarDraft

theorem c3_sup (a : ℕ) (D cl h : ℚ) (l : Option String) :
    computeSupply (c3Consts a D) [c3Marine cl, c3Target h l, c3Base] =
      ⟨⟨1, 10⟩, ⟨0, 8⟩⟩ := by
  norm_num [computeSupply, supStep, c3Marine, c3Target, c3Base, baseEnt,
    c3Consts, refStats,
    show (Owner.PLAYER = Owner.NEUTRAL) = False by decide,
    show (Owner.AI = Owner.NEUTRAL) = False by decide,
    show (EntityType.MARINE = EntityType.MARINE) = True by decide,
    show (EntityType.BARRACKS = EntityType.MARINE) = False by decide,
    show (EntityType.BASE = EntityType.MARINE) = False by decide]

theorem c3_ar (cl h : ℚ) (l : Option String) :
    Arena.init [c3Marine cl, c3Target h l, c3Base] =
      ⟨[c3Marine cl, c3Target h l, c3Base], c3Binds, c3Binds⟩ := by
  simp [Arena.init, bindingsFrom, c3Marine, c3Target, c3Base, baseEnt, c3Binds]

theorem c3_noop (a : ℕ) (D cl h : ℚ) (l : Option String) (ext : Ext) :
    runAI refJm (c3Consts a D) ⟨⟨1, 10⟩, ⟨0, 8⟩⟩ Difficulty.MEDIUM
      (c3Loop cl h l ext) = c3Loop cl h l ext := by
  refine runAI_noop _ _ _ _ _ ?_ ?_ ?_ (by norm_num [c3Loop]) <;>
    simp [c3Loop, c3Binds, Arena.newsList, Arena.obj, c3Marine, c3Target,
      c3Base, baseEnt]

theorem c3_victory (cl h : ℚ) (l : Option String) :
    victoryOf [c3Marine cl, c3Target h l, c3Base] = none := by
  norm_num [victoryOf, countOwnedBuildings, isBuilding, c3Marine, c3Target,
    c3Base, baseEnt,
    show (Owner.PLAYER = Owner.AI) = False by decide,
    show (Owner.AI = Owner.AI) = True by decide,
    show (Owner.PLAYER = Owner.PLAYER) = True by decide,
    show (Owner.AI = Owner.PLAYER) = False by decide]

theorem c3_tick (a : ℕ) (D cl h : ℚ) (l : Option String) (t : ℕ) (ext : Ext)
    (ha : 0 < (a:ℚ)) (hh0 : 0 < h) (hhd : cl ≤ 0 → 0 < h - D) :
    updateGameE refJm (c3Consts a D) (c3St cl h l t, ext) =
      (if cl ≤ 0 then c3St ((a:ℚ) - 1) (h - D) (some "M") (t + 1)
       else c3St (cl - 1) h l (t + 1), ext) := by
  simp only [updateGameE]
  rw [show (c3St cl h l t).entities = [c3Marine cl, c3Target h l, c3Base] from rfl,
      show (c3St cl h l t).effects = [] from rfl,
      show (c3St cl h l t).markers = [] from rfl,
      show (c3St cl h l t).notifications = [] from rfl,
      show (c3St cl h l t).resources = ⟨0, 0⟩ from rfl,
      show (c3St cl h l t).gameTime = t from rfl,
      show (c3St cl h l t).difficulty = Difficulty.MEDIUM from rfl,
      show (c3St cl h l t).selection = [] from rfl,
      show (c3St cl h l t).camera = ⟨0, 0⟩ from rfl,
      show (c3St cl h l t).paused = false from rfl]
  rw [c3_sup, c3_ar]
  rw [show (Arena.mk [c3Marine cl, c3Target h l, c3Base] c3Binds c3Binds).ents
      = [("M", 0), ("AB", 1), ("PB", 2)] from rfl]
  rw [List.foldl_cons, List.foldl_cons, List.foldl_cons, List.foldl_nil]
  rw [show (⟨⟨[c3Marine cl, c3Target h l, c3Base], c3Binds, c3Binds⟩, [], [],
      [], ⟨0, 0⟩, ext⟩ : LoopSt) = c3Loop cl h l ext from rfl]
  by_cases hcl : cl ≤ 0
  · rw [c3_step_marine_hit a D cl h l t ext ha hcl hh0]
    rw [c3_step_target a D _ _ _ t ext (hhd hcl)]
    rw [c3_step_base]
    have hfin : (c3Loop ((a:ℚ) - 1) (h - D) (some "M") ext).ar.newsList =
        [c3Marine ((a:ℚ) - 1), c3Target (h - D) (some "M"), c3Base] := rfl
    by_cases h30 : t % 30 = 0
    · rw [if_pos h30, c3_noop, hfin, c3_victory, if_pos hcl]
      simp [c3Loop, c3St, baseState]
    · rw [if_neg h30, hfin, c3_victory, if_pos hcl]
      simp [c3Loop, c3St, baseState]
  · rw [c3_step_marine_wait a D cl h l t ext hcl hh0]
    rw [c3_step_target a D _ _ _ t ext hh0]
    rw [c3_step_base]
    have hfin : (c3Loop (cl - 1) h l ext).ar.newsList =
        [c3Marine (cl - 1), c3Target h l, c3Base] := rfl
    by_cases h30 : t % 30 = 0
    · rw [if_pos h30, c3_noop, hfin, c3_victory, if_neg hcl]
      simp [c3Loop, c3St, baseState]
    · rw [if_neg h30, hfin, c3_victory, if_neg hcl]
      simp [c3Loop, c3St, baseState]

end StarDraft

namespace StarDraft

def atkCool (a : ℕ) : ℕ → ℕ
  | 0 => 0
  | n + 1 => if atkCool a n = 0 then a - 1 else atkCool a n - 1

def atkHits (a : ℕ) : ℕ → ℕ
  | 0 => 0
  | n + 1 => atkHits a n + (if atkCool a n = 0 then 1 else 0)

theorem atkCool_formula (a : ℕ) (ha : 1 ≤ a) :
    ∀ j, 1 ≤ j → j ≤ a → atkCool a j = a - j := by
  intro j
  induction j with
  | zero => omega
  | succ j ih =>
    intro _ hja
    rcases Nat.eq_zero_or_pos j with hj | hj
    · subst hj; simp [atkCool]
    · have := ih hj (by omega)
      simp only [atkCool, this]
      have : ¬ (a - j = 0) := by omega
      simp [this]
      omega

theorem atkCool_periodic (a : ℕ) (ha : 1 ≤ a) :
    ∀ n, atkCool a (n + a) = atkCool a n := by
  intro n
  induction n with
  | zero =>
    rw [Nat.zero_add]
    have h3 := atkCool_formula a ha a ha (le_refl a)
    simp only [atkCool]
    omega
  | succ n ih =>
    have : n + 1 + a = (n + a) + 1 := by omega
    rw [this]
    simp only [atkCool, ih]

theorem atkHits_first (a : ℕ) (ha : 1 ≤ a) :
    ∀ j, 1 ≤ j → j ≤ a → atkHits a j = 1 := by
  intro j
  induction j with
  | zero => omega
  | succ j ih =>
    intro _ hja
    rcases Nat.eq_zero_or_pos j with hj | hj
    · subst hj; simp [atkHits, atkCool]
    · have h1 := ih hj (by omega)
      have h2 := atkCool_formula a ha j hj (by omega)
      simp only [atkHits, h1, h2]
      have : ¬ (a - j = 0) := by omega
      simp [this]

theorem atkHits_window (a : ℕ) (ha : 1 ≤ a) :
    ∀ n, atkHits a (n + a) = atkHits a n + 1 := by
  intro n
  induction n with
  | zero => simpa using atkHits_first a ha a ha (le_refl a)
  | succ n ih =>
    have he : n + 1 + a = (n + a) + 1 := by omega
    rw [he]
    simp only [atkHits, ih, atkCool_periodic a ha]
    omega

theorem atkHits_le (a : ℕ) : ∀ m n, m ≤ n → atkHits a m ≤ atkHits a n := by
  intro m n h
  induction n with
  | zero => simp_all
  | succ n ih =>
    rcases Nat.eq_or_lt_of_le h with h1 | h1
    · rw [h1]
    · have h2 := ih (by omega)
      have h3 : atkHits a (n + 1) =
          atkHits a n + (if atkCool a n = 0 then 1 else 0) := rfl
      have h4 : atkHits a n ≤ atkHits a (n + 1) := by
        rw [h3]; split <;> omega
      omega

end StarDraft

namespace StarDraft

theorem c3_traj (a : ℕ) (D h0 : ℚ) (t0 N : ℕ) (ext : Ext)
    (ha : 1 ≤ a) (hD : 0 < D) (halive : 0 < h0 - D * (atkHits a N : ℚ)) :
    ∀ n, n ≤ N →
      (updateGameE refJm (c3Consts a D))^[n] (c3St 0 h0 none t0, ext) =
        (c3St (↑(atkCool a n)) (h0 - D * ↑(atkHits a n))
          (if n = 0 then none else some "M") (t0 + n), ext) := by
  have haQ : (0:ℚ) < (a:ℚ) := by exact_mod_cast ha
  have hmono : ∀ n, n ≤ N → 0 < h0 - D * (atkHits a n : ℚ) := by
    intro n hn
    have h1 := atkHits_le a n N hn
    have h2 : (atkHits a n : ℚ) ≤ (atkHits a N : ℚ) := by exact_mod_cast h1
    nlinarith
  intro n
  induction n with
  | zero =>
    intro _
    simp [c3St, atkCool, atkHits]
  | succ n ih =>
    intro hn1
    have hnN : n ≤ N := by omega
    rw [Function.iterate_succ_apply', ih hnN]
    have hcur : 0 < h0 - D * (atkHits a n : ℚ) := hmono n hnN
    by_cases hc : atkCool a n = 0
    · have hcl : ((atkCool a n : ℕ) : ℚ) ≤ 0 := by rw [hc]; norm_num
      have hnext : atkHits a (n + 1) = atkHits a n + 1 := by
        simp [atkHits, hc]
      have hcnext : atkCool a (n + 1) = a - 1 := by simp [atkCool, hc]
      have hhd : ∀ x : Prop, 0 < h0 - D * (atkHits a n : ℚ) - D := by
        intro _
        have hx := hmono (n + 1) hn1
        rw [hnext] at hx
        push_cast at hx ⊢
        linarith
      rw [c3_tick a D _ _ _ _ ext haQ hcur (fun _ => hhd True)]
      rw [if_pos hcl]
      rw [hnext, hcnext]
      have hca : ((a - 1 : ℕ) : ℚ) = (a : ℚ) - 1 := by
        push_cast [Nat.cast_sub ha]
        ring
      rw [hca]
      have hh : h0 - D * ((atkHits a n : ℕ) : ℚ) - D =
          h0 - D * (((atkHits a n + 1 : ℕ)) : ℚ) := by
        push_cast
        ring
      rw [hh]
      have hif : (if n + 1 = 0 then (none : Option String) else some "M") =
          some "M" := by simp
      rw [hif]
      have ht : t0 + n + 1 = t0 + (n + 1) := by omega
      rw [ht]
    · have hcl : ¬ ((atkCool a n : ℕ) : ℚ) ≤ 0 := by
        have h1 : 1 ≤ atkCool a n := by omega
        have h2 : (1:ℚ) ≤ (atkCool a n : ℚ) := by exact_mod_cast h1
        linarith
      have hnext : atkHits a (n + 1) = atkHits a n := by
        simp [atkHits, hc]
      have hcnext : atkCool a (n + 1) = atkCool a n - 1 := by
        simp [atkCool, hc]
      rw [c3_tick a D _ _ _ _ ext haQ hcur (fun hx => absurd hx hcl)]
      rw [if_neg hcl]
      rw [hnext, hcnext]
      have hca : ((atkCool a n - 1 : ℕ) : ℚ) = (atkCool a n : ℚ) - 1 := by
        have h1 : 1 ≤ atkCool a n := by omega
        push_cast [Nat.cast_sub h1]
        ring
      rw [hca]
      have hif : (if n + 1 = 0 then (none : Option String) else some "M") =
          some "M" := by simp
      rw [hif]
      have hif2 : (if n = 0 then (none : Option String) else some "M") =
          some "M" := by
        rcases Nat.eq_zero_or_pos n with h | h
        · subst h; simp [atkCool] at hc
        · simp [Nat.pos_iff_ne_zero.mp h]
      rw [hif2]
      have ht : t0 + n + 1 = t0 + (n + 1) := by omega
      rw [ht]

theorem c3_claim (a : ℕ) (D h0 : ℚ) (t0 N : ℕ) (ext : Ext)
    (ha : 1 ≤ a) (hD : 0 < D) (halive : 0 < h0 - D * (atkHits a N : ℚ)) :
    (∀ n, n ≤ N →
      (updateGameE refJm (c3Consts a D))^[n] (c3St 0 h0 none t0, ext) =
        (c3St (↑(atkCool a n)) (h0 - D * ↑(atkHits a n))
          (if n = 0 then none else some "M") (t0 + n), ext)) ∧
    (∀ n, atkHits a (n + a) = atkHits a n + 1) ∧
    (∀ j, 1 ≤ j → j ≤ a → atkHits a j = 1) :=
  ⟨c3_traj a D h0 t0 N ext ha hD halive, atkHits_window a ha, atkHits_first a ha⟩

theorem c3_claim_witness :
    (∀ n, n ≤ 5 →
      (updateGameE refJm (c3Consts 2 6))^[n] (c3St 0 100 none 0, constExt 0) =
        (c3St (↑(atkCool 2 n)) (100 - 6 * ↑(atkHits 2 n))
          (if n = 0 then none else some "M") (0 + n), constExt 0)) ∧
    (∀ n, atkHits 2 (n + 2) = atkHits 2 n + 1) ∧
    (∀ j, 1 ≤ j → j ≤ 2 → atkHits 2 j = 1) :=
  c3_claim 2 6 100 0 5 (constExt 0) (by norm_num) (by norm_num)
    (by norm_num [atkHits, atkCool])

end StarDraft

namespace StarDraft

set_option maxHeartbeats 1000000

/-- Constants for the harvest scenario: gather dwell `G`, quantum `Q`, and a
pacifist worker so the idle tail acquires no targets. -/
def c4Consts (G Q : ℚ) : Consts :=
  { refConsts with
    gatherTime := G, resourceGatherAmount := Q,
    stats := fun ty =>
      if ty = EntityType.WORKER then
        { refStats EntityType.WORKER with damage := 0 }
      else refStats ty }

def c4WorkerG (cd : ℚ) : Entity :=
  { baseEnt "W" EntityType.WORKER Owner.PLAYER ⟨0,0⟩ 40 with
    state := EState.GATHERING, targetId := some "N", cooldown := cd }

def c4WorkerR (q : ℚ) : Entity :=
  { baseEnt "W" EntityType.WORKER Owner.PLAYER ⟨0,0⟩ 40 with
    state := EState.RETURNING, targetId := some "BA", resourceAmount := q }

def c4WorkerI : Entity := { c4WorkerG 0 with state := EState.IDLE }

def c4Node (s : ℚ) : Entity :=
  { baseEnt "N" EntityType.MINERAL Owner.NEUTRAL ⟨0,0⟩ 1000 with
    resourceAmount := s }

def c4Base : Entity := baseEnt "BA" EntityType.BASE Owner.PLAYER ⟨0,0⟩ 1500

def c4Binds : List (String × ℕ) := [("W", 0), ("N", 1), ("BA", 2)]

def c4BindsD : List (String × ℕ) := [("W", 0), ("BA", 2)]

def c4BindsB : List (String × ℕ) := [("W", 0), ("BA", 1)]

def c4Loop (w : Entity) (s R : ℚ) (nws : List (String × ℕ)) (ext : Ext) :
    LoopSt :=
  ⟨⟨[w, c4Node s, c4Base], c4Binds, nws⟩, [], [], [], ⟨R, 0⟩, ext⟩

def c4LoopB (w : Entity) (R : ℚ) (ext : Ext) : LoopSt :=
  ⟨⟨[w, c4Base], c4BindsB, c4BindsB⟩, [], [], [], ⟨R, 0⟩, ext⟩

def c4StA (cd s R : ℚ) (t : ℕ) : GameState :=
  { baseState [c4WorkerG cd, c4Node s, c4Base] t with
    resources := ⟨R, 0⟩, supply := ⟨⟨1, 10⟩, ⟨0, 0⟩⟩,
    victory := some Owner.PLAYER }

def c4StB (R : ℚ) (t : ℕ) : GameState :=
  { baseState [c4WorkerG 0, c4Base] t with
    resources := ⟨R, 0⟩, supply := ⟨⟨1, 10⟩, ⟨0, 0⟩⟩,
    victory := some Owner.PLAYER }

def c4StC (R : ℚ) (t : ℕ) : GameState :=
  { baseState [c4WorkerI, c4Base] t with
    resources := ⟨R, 0⟩, supply := ⟨⟨1, 10⟩, ⟨0, 0⟩⟩,
    victory := some Owner.PLAYER }

theorem cooldownBlock_skip_gather (st : LoopSt) (i : ℕ)
    (h : (selfGet st i).state = EState.GATHERING) :
    cooldownBlock st i = st := by
  simp only [cooldownBlock, h, ne_eq, not_true, and_false, if_false, if_neg,
    not_false_eq_true, not_not]

theorem c4_gather_adv (G Q cd s R : ℚ) (t : ℕ)
    (nws : List (String × ℕ)) (ext : Ext)
    (hs : 0 < s) (hno : ¬ G ≤ cd + 1) :
    gatheringBlock refJm (c4Consts G Q) t (c4Loop (c4WorkerG cd) s R nws ext) 0
      = (c4Loop (c4WorkerG (cd + 1)) s R nws ext, false) := by
  have hno' : ¬ s ≤ 0 := not_le.mpr hs
  norm_num [gatheringBlock, gatherCore, c4Loop, c4Binds, c4WorkerG, c4Node,
    c4Base, baseEnt, selfGet, selfSet, selfUpd, Arena.obj, Arena.objSet,
    Arena.entsList, listGet, getWorkerCountForMineral, c4Consts, refStats,
    refConsts, dist_self_zero, hno', hno,
    show (EntityType.WORKER = EntityType.WORKER) = True by decide,
    show (EntityType.MINERAL = EntityType.WORKER) = False by decide,
    show (EntityType.BASE = EntityType.WORKER) = False by decide,
    show (EState.GATHERING = EState.GATHERING) = True by decide,
    show ("W" = "N") = False by decide,
    show ("N" = "N") = True by decide,
    show ("BA" = "N") = False by decide]

theorem c4_gather_ext_live (G Q cd s R : ℚ) (t : ℕ) (ext : Ext)
    (hs : 0 < s) (hG : G ≤ cd + 1) (hd : ¬ s - Q ≤ 0) :
    gatheringBlock refJm (c4Consts G Q) t (c4Loop (c4WorkerG cd) s R c4Binds ext) 0
      = (c4Loop (c4WorkerR Q) (s - Q) R c4Binds ext, false) := by
  have hno' : ¬ s ≤ 0 := not_le.mpr hs
  norm_num [gatheringBlock, gatherCore, c4Loop, c4Binds, c4WorkerG, c4WorkerR,
    c4Node, c4Base, baseEnt, selfGet, selfSet, selfUpd, Arena.obj, Arena.objSet,
    Arena.entsList, Arena.modifyEnt, Arena.newsDelete, listGet, findNearest,
    getWorkerCountForMineral, c4Consts, refStats, refConsts, dist_self_zero,
    hno', hG, hd,
    show (EntityType.WORKER = EntityType.WORKER) = True by decide,
    show (EntityType.MINERAL = EntityType.WORKER) = False by decide,
    show (EntityType.BASE = EntityType.WORKER) = False by decide,
    show (EntityType.WORKER = EntityType.BASE) = False by decide,
    show (EntityType.MINERAL = EntityType.BASE) = False by decide,
    show (EntityType.BASE = EntityType.BASE) = True by decide,
    show (Owner.PLAYER = Owner.PLAYER) = True by decide,
    show (EState.GATHERING = EState.GATHERING) = True by decide,
    show (EState.GATHERING = EState.GARRISONED) = False by decide,
    show (EState.IDLE = EState.GARRISONED) = False by decide,
    show (EState.RETURNING = EState.GARRISONED) = False by decide,
    show ("W" = "N") = False by decide,
    show ("N" = "N") = True by decide,
    show ("BA" = "N") = False by decide,
    show ("W" = "BA") = False by decide,
    show ("N" = "BA") = False by decide,
    show ("BA" = "BA") = True by decide]

theorem c4_gather_ext_dead (G Q cd s R : ℚ) (t : ℕ) (ext : Ext)
    (hs : 0 < s) (hG : G ≤ cd + 1) (hd : s - Q ≤ 0) :
    gatheringBlock refJm (c4Consts G Q) t (c4Loop (c4WorkerG cd) s R c4Binds ext) 0
      = (c4Loop (c4WorkerR Q) (s - Q) R c4BindsD ext, false) := by
  have hno' : ¬ s ≤ 0 := not_le.mpr hs
  norm_num [gatheringBlock, gatherCore, c4Loop, c4Binds, c4BindsD, c4WorkerG,
    c4WorkerR, c4Node, c4Base, baseEnt, selfGet, selfSet, selfUpd, Arena.obj,
    Arena.objSet, Arena.entsList, Arena.modifyEnt, Arena.newsDelete, listGet,
    findNearest, getWorkerCountForMineral, c4Consts, refStats, refConsts,
    dist_self_zero, hno', hG, hd,
    show (EntityType.WORKER = EntityType.WORKER) = True by decide,
    show (EntityType.MINERAL = EntityType.WORKER) = False by decide,
    show (EntityType.BASE = EntityType.WORKER) = False by decide,
    show (EntityType.WORKER = EntityType.BASE) = False by decide,
    show (EntityType.MINERAL = EntityType.BASE) = False by decide,
    show (EntityType.BASE = EntityType.BASE) = True by decide,
    show (Owner.PLAYER = Owner.PLAYER) = True by decide,
    show (EState.GATHERING = EState.GATHERING) = True by decide,
    show (EState.GATHERING = EState.GARRISONED) = False by decide,
    show (EState.IDLE = EState.GARRISONED) = False by decide,
    show (EState.RETURNING = EState.GARRISONED) = False by decide,
    show ("W" = "N") = False by decide,
    show ("N" = "N") = True by decide,
    show ("BA" = "N") = False by decide,
    show ("W" = "BA") = False by decide,
    show ("N" = "BA") = False by decide,
    show ("BA" = "BA") = True by decide]

theorem c4_return (G Q q s R : ℚ) (nws : List (String × ℕ)) (ext : Ext) :
    returningBlock refJm (c4Consts G Q) (c4Loop (c4WorkerR q) s R nws ext) 0
      = c4Loop (c4WorkerG 0) s (R + q) nws ext := by
  norm_num [returningBlock, c4Loop, c4Binds, c4WorkerG, c4WorkerR, c4Node,
    c4Base, baseEnt, selfGet, selfSet, selfUpd, Arena.obj, Arena.objSet,
    Arena.entsList, listGet, findNearest, Res.add, c4Consts, refStats,
    refConsts, dist_self_zero,
    show (EntityType.WORKER = EntityType.MINERAL) = False by decide,
    show (EntityType.MINERAL = EntityType.MINERAL) = True by decide,
    show (EntityType.BASE = EntityType.MINERAL) = False by decide,
    show (Owner.NEUTRAL = Owner.NEUTRAL) = True by decide,
    show (EState.RETURNING = EState.RETURNING) = True by decide,
    show (EState.RETURNING = EState.GARRISONED) = False by decide,
    show (EState.IDLE = EState.GARRISONED) = False by decide,
    show ("W" = "BA") = False by decide,
    show ("N" = "BA") = False by decide,
    show ("BA" = "BA") = True by decide]

theorem c4_collision_A (G Q cd s R : ℚ) (nws : List (String × ℕ)) (ext : Ext) :
    collisionBlock refJm (c4Consts G Q) (c4Loop (c4WorkerG cd) s R nws ext) 0
      = c4Loop (c4WorkerG cd) s R nws ext := by
  norm_num [collisionBlock, c4Loop, c4Binds, c4WorkerG, c4Node, c4Base,
    baseEnt, selfGet, selfSet, Arena.obj, Arena.objSet, Arena.entsList,
    c4Consts, refStats, refConsts, dist_self_zero,
    show (EState.GATHERING = EState.BUILDING) = False by decide,
    show (EState.GATHERING = EState.GARRISONED) = False by decide,
    show (EntityType.WORKER = EntityType.WORKER) = True by decide]

theorem c4_step_w_adv (G Q cd s R : ℚ) (t : ℕ) (nws : List (String × ℕ))
    (ext : Ext) (hs : 0 < s) (hno : ¬ G ≤ cd + 1) :
    entityStep refJm (c4Consts G Q) ⟨⟨1, 10⟩, ⟨0, 0⟩⟩ t
      (c4Loop (c4WorkerG cd) s R nws ext) ("W", 0)
      = c4Loop (c4WorkerG (cd + 1)) s R nws ext := by
  simp only [entityStep]
  rw [if_neg (by simp [selfGet, c4Loop, Arena.obj, c4WorkerG, baseEnt]),
      if_neg (by simp [selfGet, c4Loop, Arena.obj, c4WorkerG, baseEnt]),
      if_neg (by norm_num [selfGet, c4Loop, Arena.obj, c4WorkerG, baseEnt])]
  simp only [mainPath]
  rw [productionBlock_skip _ _ _ _ _ _ (by simp [selfGet, c4Loop, Arena.obj, c4WorkerG, baseEnt])]
  rw [bunkerBlock_skip _ _ _ _ (by simp [selfGet, c4Loop, Arena.obj, c4WorkerG, baseEnt])]
  rw [medicBlock_skip _ _ _ _ (by simp [selfGet, c4Loop, Arena.obj, c4WorkerG, baseEnt])]
  rw [enteringBlock_skip _ _ _ _ (by simp [selfGet, c4Loop, Arena.obj, c4WorkerG, baseEnt])]
  rw [autoAcquireBlock_skip_state _ _ _ _ (by simp [selfGet, c4Loop, Arena.obj, c4WorkerG, baseEnt])]
  rw [movingBlock_skip _ _ _ _ (by simp [selfGet, c4Loop, Arena.obj, c4WorkerG, baseEnt])]
  rw [attackingBlock_skip _ _ _ _ _ (by simp [selfGet, c4Loop, Arena.obj, c4WorkerG, baseEnt])]
  rw [c4_gather_adv G Q cd s R t nws ext hs hno]
  simp only [if_false, Bool.false_eq_true]
  rw [returningBlock_skip _ _ _ _
    (by simp [selfGet, c4Loop, Arena.obj, c4WorkerG, baseEnt])]
  rw [cooldownBlock_skip_gather _ _
    (by simp [selfGet, c4Loop, Arena.obj, c4WorkerG, baseEnt])]
  rw [deathBlock_skip _ _ _
    (by norm_num [selfGet, c4Loop, Arena.obj, c4WorkerG, baseEnt])]
  rw [c4_collision_A]

theorem c4_step_w_ext_live (G Q cd s R : ℚ) (t : ℕ) (ext : Ext)
    (hs : 0 < s) (hG : G ≤ cd + 1) (hd : ¬ s - Q ≤ 0) :
    entityStep refJm (c4Consts G Q) ⟨⟨1, 10⟩, ⟨0, 0⟩⟩ t
      (c4Loop (c4WorkerG cd) s R c4Binds ext) ("W", 0)
      = c4Loop (c4WorkerG 0) (s - Q) (R + Q) c4Binds ext := by
  simp only [entityStep]
  rw [if_neg (by simp [selfGet, c4Loop, Arena.obj, c4WorkerG, baseEnt]),
      if_neg (by simp [selfGet, c4Loop, Arena.obj, c4WorkerG, baseEnt]),
      if_neg (by norm_num [selfGet, c4Loop, Arena.obj, c4WorkerG, baseEnt])]
  simp only [mainPath]
  rw [productionBlock_skip _ _ _ _ _ _ (by simp [selfGet, c4Loop, Arena.obj, c4WorkerG, baseEnt])]
  rw [bunkerBlock_skip _ _ _ _ (by simp [selfGet, c4Loop, Arena.obj, c4WorkerG, baseEnt])]
  rw [medicBlock_skip _ _ _ _ (by simp [selfGet, c4Loop, Arena.obj, c4WorkerG, baseEnt])]
  rw [enteringBlock_skip _ _ _ _ (by simp [selfGet, c4Loop, Arena.obj, c4WorkerG, baseEnt])]
  rw [autoAcquireBlock_skip_state _ _ _ _ (by simp [selfGet, c4Loop, Arena.obj, c4WorkerG, baseEnt])]
  rw [movingBlock_skip _ _ _ _ (by simp [selfGet, c4Loop, Arena.obj, c4WorkerG, baseEnt])]
  rw [attackingBlock_skip _ _ _ _ _ (by simp [selfGet, c4Loop, Arena.obj, c4WorkerG, baseEnt])]
  rw [c4_gather_ext_live G Q cd s R t ext hs hG hd]
  simp only [if_false, Bool.false_eq_true]
  rw [c4_return]
  rw [cooldownBlock_skip _ _
    (by norm_num [selfGet, c4Loop, Arena.obj, c4WorkerG, baseEnt])]
  rw [deathBlock_skip _ _ _
    (by norm_num [selfGet, c4Loop, Arena.obj, c4WorkerG, baseEnt])]
  rw [c4_collision_A]

theorem c4_step_w_ext_dead (G Q cd s R : ℚ) (t : ℕ) (ext : Ext)
    (hs : 0 < s) (hG : G ≤ cd + 1) (hd : s - Q ≤ 0) :
    entityStep refJm (c4Consts G Q) ⟨⟨1, 10⟩, ⟨0, 0⟩⟩ t
      (c4Loop (c4WorkerG cd) s R c4Binds ext) ("W", 0)
      = c4Loop (c4WorkerG 0) (s - Q) (R + Q) c4BindsD ext := by
  simp only [entityStep]
  rw [if_neg (by simp [selfGet, c4Loop, Arena.obj, c4WorkerG, baseEnt]),
      if_neg (by simp [selfGet, c4Loop, Arena.obj, c4WorkerG, baseEnt]),
      if_neg (by norm_num [selfGet, c4Loop, Arena.obj, c4WorkerG, baseEnt])]
  simp only [mainPath]
  rw [productionBlock_skip _ _ _ _ _ _ (by simp [selfGet, c4Loop, Arena.obj, c4WorkerG, baseEnt])]
  rw [bunkerBlock_skip _ _ _ _ (by simp [selfGet, c4Loop, Arena.obj, c4WorkerG, baseEnt])]
  rw [medicBlock_skip _ _ _ _ (by simp [selfGet, c4Loop, Arena.obj, c4WorkerG, baseEnt])]
  rw [enteringBlock_skip _ _ _ _ (by simp [selfGet, c4Loop, Arena.obj, c4WorkerG, baseEnt])]
  rw [autoAcquireBlock_skip_state _ _ _ _ (by simp [selfGet, c4Loop, Arena.obj, c4WorkerG, baseEnt])]
  rw [movingBlock_skip _ _ _ _ (by simp [selfGet, c4Loop, Arena.obj, c4WorkerG, baseEnt])]
  rw [attackingBlock_skip _ _ _ _ _ (by simp [selfGet, c4Loop, Arena.obj, c4WorkerG, baseEnt])]
  rw [c4_gather_ext_dead G Q cd s R t ext hs hG hd]
  simp only [if_false, Bool.false_eq_true]
  rw [c4_return]
  rw [cooldownBlock_skip _ _
    (by norm_num [selfGet, c4Loop, Arena.obj, c4WorkerG, baseEnt])]
  rw [deathBlock_skip _ _ _
    (by norm_num [selfGet, c4Loop, Arena.obj, c4WorkerG, baseEnt])]
  rw [c4_collision_A]

theorem c4_step_node (G Q s R : ℚ) (t : ℕ) (w : Entity)
    (nws : List (String × ℕ)) (ext : Ext) :
    entityStep refJm (c4Consts G Q) ⟨⟨1, 10⟩, ⟨0, 0⟩⟩ t
      (c4Loop w s R nws ext) ("N", 1) = c4Loop w s R nws ext := by
  have hg : selfGet (c4Loop w s R nws ext) 1 = c4Node s := rfl
  simp only [entityStep]
  rw [if_neg (by simp [hg, c4Node, baseEnt]),
      if_neg (by simp [hg, c4Node, baseEnt]),
      if_neg (by norm_num [hg, c4Node, baseEnt])]
  simp only [mainPath]
  rw [productionBlock_skip _ _ _ _ _ _ (by simp [hg, c4Node, baseEnt])]
  rw [bunkerBlock_skip _ _ _ _ (by simp [hg, c4Node, baseEnt])]
  rw [medicBlock_skip _ _ _ _ (by simp [hg, c4Node, baseEnt])]
  rw [enteringBlock_skip _ _ _ _ (by simp [hg, c4Node, baseEnt])]
  rw [autoAcquireBlock_skip_damage _ _ _ _
    (by norm_num [hg, c4Node, baseEnt, c4Consts, refStats,
      show (EntityType.MINERAL = EntityType.WORKER) = False by decide])]
  rw [movingBlock_skip _ _ _ _ (by simp [hg, c4Node, baseEnt])]
  rw [attackingBlock_skip _ _ _ _ _ (by simp [hg, c4Node, baseEnt])]
  rw [gatheringBlock_skip _ _ _ _ _ (by simp [hg, c4Node, baseEnt])]
  simp only [if_false, Bool.false_eq_true]
  rw [returningBlock_skip _ _ _ _ (by simp [hg, c4Node, baseEnt])]
  rw [cooldownBlock_skip _ _ (by norm_num [hg, c4Node, baseEnt])]
  rw [deathBlock_skip _ _ _ (by norm_num [hg, c4Node, baseEnt])]
  rw [collisionBlock_skip_static _ _ _ _
    (by norm_num [hg, c4Node, baseEnt, c4Consts, refStats,
      show (EntityType.MINERAL = EntityType.WORKER) = False by decide])]

theorem c4_step_base (G Q s R : ℚ) (t : ℕ) (w : Entity)
    (nws : List (String × ℕ)) (ext : Ext) :
    entityStep refJm (c4Consts G Q) ⟨⟨1, 10⟩, ⟨0, 0⟩⟩ t
      (c4Loop w s R nws ext) ("BA", 2) = c4Loop w s R nws ext := by
  have hg : selfGet (c4Loop w s R nws ext) 2 = c4Base := rfl
  simp only [entityStep]
  rw [if_neg (by simp [hg, c4Base, baseEnt]),
      if_neg (by simp [hg, c4Base, baseEnt]),
      if_neg (by norm_num [hg, c4Base, baseEnt])]
  simp only [mainPath]
  rw [productionBlock_skip _ _ _ _ _ _ (by simp [hg, c4Base, baseEnt])]
  rw [bunkerBlock_skip _ _ _ _ (by simp [hg, c4Base, baseEnt])]
  rw [medicBlock_skip _ _ _ _ (by simp [hg, c4Base, baseEnt])]
  rw [enteringBlock_skip _ _ _ _ (by simp [hg, c4Base, baseEnt])]
  rw [autoAcquireBlock_skip_damage _ _ _ _
    (by norm_num [hg, c4Base, baseEnt, c4Consts, refStats,
      show (EntityType.BASE = EntityType.WORKER) = False by decide])]
  rw [movingBlock_skip _ _ _ _ (by simp [hg, c4Base, baseEnt])]
  rw [attackingBlock_skip _ _ _ _ _ (by simp [hg, c4Base, baseEnt])]
  rw [gatheringBlock_skip _ _ _ _ _ (by simp [hg, c4Base, baseEnt])]
  simp only [if_false, Bool.false_eq_true]
  rw [returningBlock_skip _ _ _ _ (by simp [hg, c4Base, baseEnt])]
  rw [cooldownBlock_skip _ _ (by norm_num [hg, c4Base, baseEnt])]
  rw [deathBlock_skip _ _ _ (by norm_num [hg, c4Base, baseEnt])]
  rw [collisionBlock_skip_static _ _ _ _
    (by norm_num [hg, c4Base, baseEnt, c4Consts, refStats,
      show (EntityType.BASE = EntityType.WORKER) = False by decide])]

theorem c4_gather_stale (G Q R : ℚ) (t : ℕ) (ext : Ext) :
    gatheringBlock refJm (c4Consts G Q) t (c4LoopB (c4WorkerG 0) R ext) 0
      = (c4LoopB c4WorkerI R ext, false) := by
  norm_num [gatheringBlock, c4LoopB, c4BindsB, c4WorkerG, c4WorkerI, c4Base,
    baseEnt, selfGet, selfSet, Arena.obj, Arena.objSet, Arena.entsList,
    listGet, c4Consts, refStats, refConsts,
    show (EState.GATHERING = EState.GATHERING) = True by decide,
    show (EntityType.WORKER = EntityType.MINERAL) = False by decide,
    show (EntityType.BASE = EntityType.MINERAL) = False by decide,
    show ("W" = "N") = False by decide,
    show ("BA" = "N") = False by decide]

theorem c4_collision_B (G Q R : ℚ) (ext : Ext) :
    collisionBlock refJm (c4Consts G Q) (c4LoopB c4WorkerI R ext) 0
      = c4LoopB c4WorkerI R ext := by
  norm_num [collisionBlock, c4LoopB, c4BindsB, c4WorkerI, c4WorkerG, c4Base,
    baseEnt, selfGet, selfSet, Arena.obj, Arena.objSet, Arena.entsList,
    c4Consts, refStats, refConsts, dist_self_zero,
    show (EState.IDLE = EState.BUILDING) = False by decide,
    show (EState.IDLE = EState.GARRISONED) = False by decide,
    show (EntityType.WORKER = EntityType.WORKER) = True by decide]

theorem c4_step_w_stale (G Q R : ℚ) (t : ℕ) (ext : Ext) :
    entityStep refJm (c4Consts G Q) ⟨⟨1, 10⟩, ⟨0, 0⟩⟩ t
      (c4LoopB (c4WorkerG 0) R ext) ("W", 0) = c4LoopB c4WorkerI R ext := by
  simp only [entityStep]
  rw [if_neg (by simp [selfGet, c4LoopB, Arena.obj, c4WorkerG, baseEnt]),
      if_neg (by simp [selfGet, c4LoopB, Arena.obj, c4WorkerG, baseEnt]),
      if_neg (by norm_num [selfGet, c4LoopB, Arena.obj, c4WorkerG, baseEnt])]
  simp only [mainPath]
  rw [productionBlock_skip _ _ _ _ _ _
    (by simp [selfGet, c4LoopB, Arena.obj, c4WorkerG, baseEnt])]
  rw [bunkerBlock_skip _ _ _ _
    (by simp [selfGet, c4LoopB, Arena.obj, c4WorkerG, baseEnt])]
  rw [medicBlock_skip _ _ _ _
    (by simp [selfGet, c4LoopB, Arena.obj, c4WorkerG, baseEnt])]
  rw [enteringBlock_skip _ _ _ _
    (by simp [selfGet, c4LoopB, Arena.obj, c4WorkerG, baseEnt])]
  rw [autoAcquireBlock_skip_state _ _ _ _
    (by simp [selfGet, c4LoopB, Arena.obj, c4WorkerG, baseEnt])]
  rw [movingBlock_skip _ _ _ _
    (by simp [selfGet, c4LoopB, Arena.obj, c4WorkerG, baseEnt])]
  rw [attackingBlock_skip _ _ _ _ _
    (by simp [selfGet, c4LoopB, Arena.obj, c4WorkerG, baseEnt])]
  rw [c4_gather_stale G Q R t ext]
  simp only [if_false, Bool.false_eq_true]
  rw [returningBlock_skip _ _ _ _
    (by simp [selfGet, c4LoopB, Arena.obj, c4WorkerI, c4WorkerG, baseEnt])]
  rw [cooldownBlock_skip _ _
    (by norm_num [selfGet, c4LoopB, Arena.obj, c4WorkerI, c4WorkerG, baseEnt])]
  rw [deathBlock_skip _ _ _
    (by norm_num [selfGet, c4LoopB, Arena.obj, c4WorkerI, c4WorkerG, baseEnt])]
  rw [c4_collision_B]

theorem c4_step_w_idle (G Q R : ℚ) (t : ℕ) (ext : Ext) :
    entityStep refJm (c4Consts G Q) ⟨⟨1, 10⟩, ⟨0, 0⟩⟩ t
      (c4LoopB c4WorkerI R ext) ("W", 0) = c4LoopB c4WorkerI R ext := by
  simp only [entityStep]
  rw [if_neg (by simp [selfGet, c4LoopB, Arena.obj, c4WorkerI, c4WorkerG, baseEnt]),
      if_neg (by simp [selfGet, c4LoopB, Arena.obj, c4WorkerI, c4WorkerG, baseEnt]),
      if_neg (by norm_num [selfGet, c4LoopB, Arena.obj, c4WorkerI, c4WorkerG, baseEnt])]
  simp only [mainPath]
  rw [productionBlock_skip _ _ _ _ _ _
    (by simp [selfGet, c4LoopB, Arena.obj, c4WorkerI, c4WorkerG, baseEnt])]
  rw [bunkerBlock_skip _ _ _ _
    (by simp [selfGet, c4LoopB, Arena.obj, c4WorkerI, c4WorkerG, baseEnt])]
  rw [medicBlock_skip _ _ _ _
    (by simp [selfGet, c4LoopB, Arena.obj, c4WorkerI, c4WorkerG, baseEnt])]
  rw [enteringBlock_skip _ _ _ _
    (by simp [selfGet, c4LoopB, Arena.obj, c4WorkerI, c4WorkerG, baseEnt])]
  rw [autoAcquireBlock_skip_damage _ _ _ _
    (by norm_num [selfGet, c4LoopB, Arena.obj, c4WorkerI, c4WorkerG, baseEnt,
      c4Consts, refStats,
      show (EntityType.WORKER = EntityType.WORKER) = True by decide])]
  rw [movingBlock_skip _ _ _ _
    (by simp [selfGet, c4LoopB, Arena.obj, c4WorkerI, c4WorkerG, baseEnt])]
  rw [attackingBlock_skip _ _ _ _ _
    (by simp [selfGet, c4LoopB, Arena.obj, c4WorkerI, c4WorkerG, baseEnt])]
  rw [gatheringBlock_skip _ _ _ _ _
    (by simp [selfGet, c4LoopB, Arena.obj, c4WorkerI, c4WorkerG, baseEnt])]
  simp only [if_false, Bool.false_eq_true]
  rw [returningBlock_skip _ _ _ _
    (by simp [selfGet, c4LoopB, Arena.obj, c4WorkerI, c4WorkerG, baseEnt])]
  rw [cooldownBlock_skip _ _
    (by norm_num [selfGet, c4LoopB, Arena.obj, c4WorkerI, c4WorkerG, baseEnt])]
  rw [deathBlock_skip _ _ _
    (by norm_num [selfGet, c4LoopB, Arena.obj, c4WorkerI, c4WorkerG, baseEnt])]
  rw [c4_collision_B]

theorem c4_step_base_B (G Q R : ℚ) (t : ℕ) (w : Entity) (ext : Ext) :
    entityStep refJm (c4Consts G Q) ⟨⟨1, 10⟩, ⟨0, 0⟩⟩ t
      (c4LoopB w R ext) ("BA", 1) = c4LoopB w R ext := by
  have hg : selfGet (c4LoopB w R ext) 1 = c4Base := rfl
  simp only [entityStep]
  rw [if_neg (by simp [hg, c4Base, baseEnt]),
      if_neg (by simp [hg, c4Base, baseEnt]),
      if_neg (by norm_num [hg, c4Base, baseEnt])]
  simp only [mainPath]
  rw [productionBlock_skip _ _ _ _ _ _ (by simp [hg, c4Base, baseEnt])]
  rw [bunkerBlock_skip _ _ _ _ (by simp [hg, c4Base, baseEnt])]
  rw [medicBlock_skip _ _ _ _ (by simp [hg, c4Base, baseEnt])]
  rw [enteringBlock_skip _ _ _ _ (by simp [hg, c4Base, baseEnt])]
  rw [autoAcquireBlock_skip_damage _ _ _ _
    (by norm_num [hg, c4Base, baseEnt, c4Consts, refStats,
      show (EntityType.BASE = EntityType.WORKER) = False by decide])]
  rw [movingBlock_skip _ _ _ _ (by simp [hg, c4Base, baseEnt])]
  rw [attackingBlock_skip _ _ _ _ _ (by simp [hg, c4Base, baseEnt])]
  rw [gatheringBlock_skip _ _ _ _ _ (by simp [hg, c4Base, baseEnt])]
  simp only [if_false, Bool.false_eq_true]
  rw [returningBlock_skip _ _ _ _ (by simp [hg, c4Base, baseEnt])]
  rw [cooldownBlock_skip _ _ (by norm_num [hg, c4Base, baseEnt])]
  rw [deathBlock_skip _ _ _ (by norm_num [hg, c4Base, baseEnt])]
  rw [collisionBlock_skip_static _ _ _ _
    (by norm_num [hg, c4Base, baseEnt, c4Consts, refStats,
      show (EntityType.BASE = EntityType.WORKER) = False by decide])]

theorem c4_supA (G Q cd s : ℚ) :
    computeSupply (c4Consts G Q) [c4WorkerG cd, c4Node s, c4Base] =
      ⟨⟨1, 10⟩, ⟨0, 0⟩⟩ := by
  norm_num [computeSupply, supStep, c4WorkerG, c4Node, c4Base, baseEnt,
    c4Consts, refStats,
    show (Owner.PLAYER = Owner.NEUTRAL) = False by decide,
    show (Owner.NEUTRAL = Owner.NEUTRAL) = True by decide,
    show (EntityType.WORKER = EntityType.WORKER) = True by decide,
    show (EntityType.BASE = EntityType.WORKER) = False by decide]

theorem c4_supB (G Q cd : ℚ) :
    computeSupply (c4Consts G Q) [c4WorkerG cd, c4Base] =
      ⟨⟨1, 10⟩, ⟨0, 0⟩⟩ := by
  norm_num [computeSupply, supStep, c4WorkerG, c4Base, baseEnt,
    c4Consts, refStats,
    show (Owner.PLAYER = Owner.NEUTRAL) = False by decide,
    show (EntityType.WORKER = EntityType.WORKER) = True by decide,
    show (EntityType.BASE = EntityType.WORKER) = False by decide]

theorem c4_supC (G Q : ℚ) :
    computeSupply (c4Consts G Q) [c4WorkerI, c4Base] =
      ⟨⟨1, 10⟩, ⟨0, 0⟩⟩ := by
  norm_num [computeSupply, supStep, c4WorkerI, c4WorkerG, c4Base, baseEnt,
    c4Consts, refStats,
    show (Owner.PLAYER = Owner.NEUTRAL) = False by decide,
    show (EntityType.WORKER = EntityType.WORKER) = True by decide,
    show (EntityType.BASE = EntityType.WORKER) = False by decide]

theorem c4_arA (cd s : ℚ) :
    Arena.init [c4WorkerG cd, c4Node s, c4Base] =
      ⟨[c4WorkerG cd, c4Node s, c4Base], c4Binds, c4Binds⟩ := by
  simp [Arena.init, bindingsFrom, c4WorkerG, c4Node, c4Base, baseEnt, c4Binds]

theorem c4_arB (cd : ℚ) :
    Arena.init [c4WorkerG cd, c4Base] =
      ⟨[c4WorkerG cd, c4Base], c4BindsB, c4BindsB⟩ := by
  simp [Arena.init, bindingsFrom, c4WorkerG, c4Base, baseEnt, c4BindsB]

theorem c4_arC :
    Arena.init [c4WorkerI, c4Base] =
      ⟨[c4WorkerI, c4Base], c4BindsB, c4BindsB⟩ := by
  simp [Arena.init, bindingsFrom, c4WorkerI, c4WorkerG, c4Base, baseEnt,
    c4BindsB]

theorem c4_noopA (G Q cd s R : ℚ) (ext : Ext) :
    runAI refJm (c4Consts G Q) ⟨⟨1, 10⟩, ⟨0, 0⟩⟩ Difficulty.MEDIUM
      (c4Loop (c4WorkerG cd) s R c4Binds ext) =
      c4Loop (c4WorkerG cd) s R c4Binds ext := by
  refine runAI_noop _ _ _ _ _ ?_ ?_ ?_ (by norm_num [c4Loop]) <;>
    simp [c4Loop, c4Binds, Arena.newsList, Arena.obj, c4WorkerG, c4Node,
      c4Base, baseEnt]

theorem c4_noopD (G Q cd s R : ℚ) (ext : Ext) :
    runAI refJm (c4Consts G Q) ⟨⟨1, 10⟩, ⟨0, 0⟩⟩ Difficulty.MEDIUM
      (c4Loop (c4WorkerG cd) s R c4BindsD ext) =
      c4Loop (c4WorkerG cd) s R c4BindsD ext := by
  refine runAI_noop _ _ _ _ _ ?_ ?_ ?_ (by norm_num [c4Loop]) <;>
    simp [c4Loop, c4BindsD, Arena.newsList, Arena.obj, c4WorkerG, c4Node,
      c4Base, baseEnt]

theorem c4_noopB (G Q R : ℚ) (w : Entity) (ext : Ext)
    (hw1 : w.owner = Owner.PLAYER) :
    runAI refJm (c4Consts G Q) ⟨⟨1, 10⟩, ⟨0, 0⟩⟩ Difficulty.MEDIUM
      (c4LoopB w R ext) = c4LoopB w R ext := by
  refine runAI_noop _ _ _ _ _ ?_ ?_ ?_ (by norm_num [c4LoopB]) <;>
    simp [c4LoopB, c4BindsB, Arena.newsList, Arena.obj, c4Base, baseEnt, hw1]

theorem c4_victoryA (cd s : ℚ) :
    victoryOf [c4WorkerG cd, c4Node s, c4Base] = some Owner.PLAYER := by
  norm_num [victoryOf, countOwnedBuildings, isBuilding, c4WorkerG, c4Node,
    c4Base, baseEnt,
    show (Owner.PLAYER = Owner.AI) = False by decide,
    show (Owner.NEUTRAL = Owner.AI) = False by decide]

theorem c4_victoryB (w : Entity) (hw : w.owner = Owner.PLAYER) :
    victoryOf [w, c4Base] = some Owner.PLAYER := by
  norm_num [victoryOf, countOwnedBuildings, isBuilding, c4Base, baseEnt, hw,
    show (Owner.PLAYER = Owner.AI) = False by decide]

theorem c4_tick_adv (G Q cd s R : ℚ) (t : ℕ) (ext : Ext)
    (hs : 0 < s) (hno : ¬ G ≤ cd + 1) :
    updateGameE refJm (c4Consts G Q) (c4StA cd s R t, ext) =
      (c4StA (cd + 1) s R (t + 1), ext) := by
  simp only [updateGameE]
  rw [show (c4StA cd s R t).entities = [c4WorkerG cd, c4Node s, c4Base] from rfl,
      show (c4StA cd s R t).effects = [] from rfl,
      show (c4StA cd s R t).markers = [] from rfl,
      show (c4StA cd s R t).notifications = [] from rfl,
      show (c4StA cd s R t).resources = ⟨R, 0⟩ from rfl,
      show (c4StA cd s R t).gameTime = t from rfl,
      show (c4StA cd s R t).difficulty = Difficulty.MEDIUM from rfl,
      show (c4StA cd s R t).selection = [] from rfl,
      show (c4StA cd s R t).camera = ⟨0, 0⟩ from rfl,
      show (c4StA cd s R t).paused = false from rfl]
  rw [c4_supA, c4_arA]
  rw [show (Arena.mk [c4WorkerG cd, c4Node s, c4Base] c4Binds c4Binds).ents
      = [("W", 0), ("N", 1), ("BA", 2)] from rfl]
  rw [List.foldl_cons, List.foldl_cons, List.foldl_cons, List.foldl_nil]
  rw [show (⟨⟨[c4WorkerG cd, c4Node s, c4Base], c4Binds, c4Binds⟩, [], [],
      [], ⟨R, 0⟩, ext⟩ : LoopSt) = c4Loop (c4WorkerG cd) s R c4Binds ext from rfl]
  rw [c4_step_w_adv G Q cd s R t c4Binds ext hs hno]
  rw [c4_step_node, c4_step_base]
  have hfin : (c4Loop (c4WorkerG (cd + 1)) s R c4Binds ext).ar.newsList =
      [c4WorkerG (cd + 1), c4Node s, c4Base] := rfl
  by_cases h30 : t % 30 = 0
  · rw [if_pos h30, c4_noopA, hfin, c4_victoryA]
    simp [c4Loop, c4StA, baseState]
  · rw [if_neg h30, hfin, c4_victoryA]
    simp [c4Loop, c4StA, baseState]

theorem c4_tick_ext_live (G Q cd s R : ℚ) (t : ℕ) (ext : Ext)
    (hs : 0 < s) (hG : G ≤ cd + 1) (hd : ¬ s - Q ≤ 0) :
    updateGameE refJm (c4Consts G Q) (c4StA cd s R t, ext) =
      (c4StA 0 (s - Q) (R + Q) (t + 1), ext) := by
  simp only [updateGameE]
  rw [show (c4StA cd s R t).entities = [c4WorkerG cd, c4Node s, c4Base] from rfl,
      show (c4StA cd s R t).effects = [] from rfl,
      show (c4StA cd s R t).markers = [] from rfl,
      show (c4StA cd s R t).notifications = [] from rfl,
      show (c4StA cd s R t).resources = ⟨R, 0⟩ from rfl,
      show (c4StA cd s R t).gameTime = t from rfl,
      show (c4StA cd s R t).difficulty = Difficulty.MEDIUM from rfl,
      show (c4StA cd s R t).selection = [] from rfl,
      show (c4StA cd s R t).camera = ⟨0, 0⟩ from rfl,
      show (c4StA cd s R t).paused = false from rfl]
  rw [c4_supA, c4_arA]
  rw [show (Arena.mk [c4WorkerG cd, c4Node s, c4Base] c4Binds c4Binds).ents
      = [("W", 0), ("N", 1), ("BA", 2)] from rfl]
  rw [List.foldl_cons, List.foldl_cons, List.foldl_cons, List.foldl_nil]
  rw [show (⟨⟨[c4WorkerG cd, c4Node s, c4Base], c4Binds, c4Binds⟩, [], [],
      [], ⟨R, 0⟩, ext⟩ : LoopSt) = c4Loop (c4WorkerG cd) s R c4Binds ext from rfl]
  rw [c4_step_w_ext_live G Q cd s R t ext hs hG hd]
  rw [c4_step_node, c4_step_base]
  have hfin : (c4Loop (c4WorkerG 0) (s - Q) (R + Q) c4Binds ext).ar.newsList =
      [c4WorkerG 0, c4Node (s - Q), c4Base] := rfl
  by_cases h30 : t % 30 = 0
  · rw [if_pos h30, c4_noopA, hfin, c4_victoryA]
    simp [c4Loop, c4StA, baseState]
  · rw [if_neg h30, hfin, c4_victoryA]
    simp [c4Loop, c4StA, baseState]

theorem c4_tick_ext_dead (G Q cd s R : ℚ) (t : ℕ) (ext : Ext)
    (hs : 0 < s) (hG : G ≤ cd + 1) (hd : s - Q ≤ 0) :
    updateGameE refJm (c4Consts G Q) (c4StA cd s R t, ext) =
      (c4StB (R + Q) (t + 1), ext) := by
  simp only [updateGameE]
  rw [show (c4StA cd s R t).entities = [c4WorkerG cd, c4Node s, c4Base] from rfl,
      show (c4StA cd s R t).effects = [] from rfl,
      show (c4StA cd s R t).markers = [] from rfl,
      show (c4StA cd s R t).notifications = [] from rfl,
      show (c4StA cd s R t).resources = ⟨R, 0⟩ from rfl,
      show (c4StA cd s R t).gameTime = t from rfl,
      show (c4StA cd s R t).difficulty = Difficulty.MEDIUM from rfl,
      show (c4StA cd s R t).selection = [] from rfl,
      show (c4StA cd s R t).camera = ⟨0, 0⟩ from rfl,
      show (c4StA cd s R t).paused = false from rfl]
  rw [c4_supA, c4_arA]
  rw [show (Arena.mk [c4WorkerG cd, c4Node s, c4Base] c4Binds c4Binds).ents
      = [("W", 0), ("N", 1), ("BA", 2)] from rfl]
  rw [List.foldl_cons, List.foldl_cons, List.foldl_cons, List.foldl_nil]
  rw [show (⟨⟨[c4WorkerG cd, c4Node s, c4Base], c4Binds, c4Binds⟩, [], [],
      [], ⟨R, 0⟩, ext⟩ : LoopSt) = c4Loop (c4WorkerG cd) s R c4Binds ext from rfl]
  rw [c4_step_w_ext_dead G Q cd s R t ext hs hG hd]
  rw [c4_step_node, c4_step_base]
  have hfin : (c4Loop (c4WorkerG 0) (s - Q) (R + Q) c4BindsD ext).ar.newsList =
      [c4WorkerG 0, c4Base] := rfl
  by_cases h30 : t % 30 = 0
  · rw [if_pos h30, c4_noopD, hfin,
      c4_victoryB (c4WorkerG 0) (by simp [c4WorkerG, baseEnt])]
    simp [c4Loop, c4StB, baseState]
  · rw [if_neg h30, hfin,
      c4_victoryB (c4WorkerG 0) (by simp [c4WorkerG, baseEnt])]
    simp [c4Loop, c4StB, baseState]

theorem c4_tick_stale (G Q R : ℚ) (t : ℕ) (ext : Ext) :
    updateGameE refJm (c4Consts G Q) (c4StB R t, ext) =
      (c4StC R (t + 1), ext) := by
  simp only [updateGameE]
  rw [show (c4StB R t).entities = [c4WorkerG 0, c4Base] from rfl,
      show (c4StB R t).effects = [] from rfl,
      show (c4StB R t).markers = [] from rfl,
      show (c4StB R t).notifications = [] from rfl,
      show (c4StB R t).resources = ⟨R, 0⟩ from rfl,
      show (c4StB R t).gameTime = t from rfl,
      show (c4StB R t).difficulty = Difficulty.MEDIUM from rfl,
      show (c4StB R t).selection = [] from rfl,
      show (c4StB R t).camera = ⟨0, 0⟩ from rfl,
      show (c4StB R t).paused = false from rfl]
  rw [c4_supB, c4_arB]
  rw [show (Arena.mk [c4WorkerG 0, c4Base] c4BindsB c4BindsB).ents
      = [("W", 0), ("BA", 1)] from rfl]
  rw [List.foldl_cons, List.foldl_cons, List.foldl_nil]
  rw [show (⟨⟨[c4WorkerG 0, c4Base], c4BindsB, c4BindsB⟩, [], [],
      [], ⟨R, 0⟩, ext⟩ : LoopSt) = c4LoopB (c4WorkerG 0) R ext from rfl]
  rw [c4_step_w_stale G Q R t ext]
  rw [c4_step_base_B]
  have hfin : (c4LoopB c4WorkerI R ext).ar.newsList =
      [c4WorkerI, c4Base] := rfl
  by_cases h30 : t % 30 = 0
  · rw [if_pos h30, c4_noopB G Q R c4WorkerI ext (by simp [c4WorkerI, c4WorkerG, baseEnt]),
      hfin, c4_victoryB c4WorkerI (by simp [c4WorkerI, c4WorkerG, baseEnt])]
    simp [c4LoopB, c4StC, baseState]
  · rw [if_neg h30, hfin,
      c4_victoryB c4WorkerI (by simp [c4WorkerI, c4WorkerG, baseEnt])]
    simp [c4LoopB, c4StC, baseState]

theorem c4_tick_idle (G Q R : ℚ) (t : ℕ) (ext : Ext) :
    updateGameE refJm (c4Consts G Q) (c4StC R t, ext) =
      (c4StC R (t + 1), ext) := by
  simp only [updateGameE]
  rw [show (c4StC R t).entities = [c4WorkerI, c4Base] from rfl,
      show (c4StC R t).effects = [] from rfl,
      show (c4StC R t).markers = [] from rfl,
      show (c4StC R t).notifications = [] from rfl,
      show (c4StC R t).resources = ⟨R, 0⟩ from rfl,
      show (c4StC R t).gameTime = t from rfl,
      show (c4StC R t).difficulty = Difficulty.MEDIUM from rfl,
      show (c4StC R t).selection = [] from rfl,
      show (c4StC R t).camera = ⟨0, 0⟩ from rfl,
      show (c4StC R t).paused = false from rfl]
  rw [c4_supC, c4_arC]
  rw [show (Arena.mk [c4WorkerI, c4Base] c4BindsB c4BindsB).ents
      = [("W", 0), ("BA", 1)] from rfl]
  rw [List.foldl_cons, List.foldl_cons, List.foldl_nil]
  rw [show (⟨⟨[c4WorkerI, c4Base], c4BindsB, c4BindsB⟩, [], [],
      [], ⟨R, 0⟩, ext⟩ : LoopSt) = c4LoopB c4WorkerI R ext from rfl]
  rw [c4_step_w_idle G Q R t ext]
  rw [c4_step_base_B]
  have hfin : (c4LoopB c4WorkerI R ext).ar.newsList =
      [c4WorkerI, c4Base] := rfl
  by_cases h30 : t % 30 = 0
  · rw [if_pos h30, c4_noopB G Q R c4WorkerI ext (by simp [c4WorkerI, c4WorkerG, baseEnt]),
      hfin, c4_victoryB c4WorkerI (by simp [c4WorkerI, c4WorkerG, baseEnt])]
    simp [c4LoopB, c4StC, baseState]
  · rw [if_neg h30, hfin,
      c4_victoryB c4WorkerI (by simp [c4WorkerI, c4WorkerG, baseEnt])]
    simp [c4LoopB, c4StC, baseState]

theorem c4_phase (G Q : ℕ) (s R : ℚ) (t : ℕ) (ext : Ext) (hs : 0 < s) :
    ∀ j, j < G → (updateGameE refJm (c4Consts G Q))^[j] (c4StA 0 s R t, ext) =
      (c4StA (j : ℚ) s R (t + j), ext) := by
  intro j
  induction j with
  | zero => intro _; simp
  | succ j ih =>
    intro hj
    have hjG : j < G := by omega
    rw [Function.iterate_succ_apply', ih hjG]
    rw [c4_tick_adv G Q (j : ℚ) s R (t + j) ext hs
      (by
        have : ((j : ℚ) + 1) < (G : ℚ) := by exact_mod_cast hj
        linarith)]
    have e1 : ((j : ℚ)) + 1 = ((j + 1 : ℕ) : ℚ) := by push_cast; ring
    have e2 : t + j + 1 = t + (j + 1) := by omega
    rw [e1, e2]

theorem c4_cycle_live (G Q : ℕ) (s R : ℚ) (t : ℕ) (ext : Ext)
    (hG : 1 ≤ G) (hs : 0 < s) (hd : ¬ s - Q ≤ 0) :
    (updateGameE refJm (c4Consts G Q))^[G] (c4StA 0 s R t, ext) =
      (c4StA 0 (s - Q) (R + Q) (t + G), ext) := by
  have key : (updateGameE refJm (c4Consts G Q))^[(G - 1) + 1]
      (c4StA 0 s R t, ext) = (c4StA 0 (s - Q) (R + Q) (t + G), ext) := by
    rw [Function.iterate_succ_apply',
        c4_phase G Q s R t ext hs (G - 1) (by omega)]
    rw [c4_tick_ext_live G Q ((G - 1 : ℕ) : ℚ) s R (t + (G - 1)) ext hs
      (by
        have h1 : ((G - 1 : ℕ) : ℚ) + 1 = (G : ℚ) := by
          push_cast [Nat.cast_sub hG]; ring
        rw [h1])
      hd]
    have e2 : t + (G - 1) + 1 = t + G := by omega
    rw [e2]
  have hGe : (G - 1) + 1 = G := by omega
  rw [hGe] at key
  exact key

theorem c4_cycle_dead (G Q : ℕ) (s R : ℚ) (t : ℕ) (ext : Ext)
    (hG : 1 ≤ G) (hs : 0 < s) (hd : s - Q ≤ 0) :
    (updateGameE refJm (c4Consts G Q))^[G] (c4StA 0 s R t, ext) =
      (c4StB (R + Q) (t + G), ext) := by
  have key : (updateGameE refJm (c4Consts G Q))^[(G - 1) + 1]
      (c4StA 0 s R t, ext) = (c4StB (R + Q) (t + G), ext) := by
    rw [Function.iterate_succ_apply',
        c4_phase G Q s R t ext hs (G - 1) (by omega)]
    rw [c4_tick_ext_dead G Q ((G - 1 : ℕ) : ℚ) s R (t + (G - 1)) ext hs
      (by
        have h1 : ((G - 1 : ℕ) : ℚ) + 1 = (G : ℚ) := by
          push_cast [Nat.cast_sub hG]; ring
        rw [h1])
      hd]
    have e2 : t + (G - 1) + 1 = t + G := by omega
    rw [e2]
  have hGe : (G - 1) + 1 = G := by omega
  rw [hGe] at key
  exact key

theorem c4_cycles (G Q S : ℕ) (t0 : ℕ) (ext : Ext) (hG : 1 ≤ G) :
    ∀ k, k * Q < S →
      (updateGameE refJm (c4Consts G Q))^[G * k] (c4StA 0 (S : ℚ) 0 t0, ext) =
        (c4StA 0 ((S : ℚ) - (k : ℚ) * Q) ((k : ℚ) * Q) (t0 + G * k), ext) := by
  intro k
  induction k with
  | zero =>
    intro _
    norm_num
  | succ k ih =>
    intro hk
    have hk' : k * Q < S := by
      have : k * Q ≤ (k + 1) * Q := Nat.mul_le_mul_right _ (by omega)
      omega
    have hsplit : G * (k + 1) = G + G * k := by ring
    rw [hsplit, Function.iterate_add_apply, ih hk']
    have hs : 0 < (S : ℚ) - (k : ℚ) * Q := by
      have : ((k * Q : ℕ) : ℚ) < (S : ℚ) := by exact_mod_cast hk'
      push_cast at this
      linarith
    have hd : ¬ (S : ℚ) - (k : ℚ) * Q - Q ≤ 0 := by
      have : (((k + 1) * Q : ℕ) : ℚ) < (S : ℚ) := by exact_mod_cast hk
      push_cast at this
      intro hcon
      linarith
    rw [c4_cycle_live G Q _ _ _ ext hG hs hd]
    have e1 : (S : ℚ) - (k : ℚ) * Q - Q = (S : ℚ) - ((k + 1 : ℕ) : ℚ) * Q := by
      push_cast; ring
    have e2 : ((k : ℚ)) * Q + Q = ((k + 1 : ℕ) : ℚ) * Q := by
      push_cast; ring
    have e3 : t0 + G * k + G = t0 + (G + G * k) := by omega
    rw [e1, e2, e3]

theorem c4_deplete (G Q S K : ℕ) (t0 : ℕ) (ext : Ext) (hG : 1 ≤ G)
    (hK0 : 1 ≤ K) (hK1 : (K - 1) * Q < S) (hK2 : S ≤ K * Q) :
    (updateGameE refJm (c4Consts G Q))^[G * K] (c4StA 0 (S : ℚ) 0 t0, ext) =
      (c4StB ((K : ℚ) * Q) (t0 + G * K), ext) := by
  obtain ⟨L, rfl⟩ : ∃ L, K = L + 1 := ⟨K - 1, by omega⟩
  simp only [Nat.add_sub_cancel] at hK1
  have hsplit : G * (L + 1) = G + G * L := by ring
  rw [hsplit, Function.iterate_add_apply,
      c4_cycles G Q S t0 ext hG L hK1]
  have hs : 0 < (S : ℚ) - (L : ℚ) * Q := by
    have : ((L * Q : ℕ) : ℚ) < (S : ℚ) := by exact_mod_cast hK1
    push_cast at this
    linarith
  have hd : (S : ℚ) - (L : ℚ) * Q - Q ≤ 0 := by
    have h2 : (S : ℚ) ≤ (((L + 1) * Q : ℕ) : ℚ) := by exact_mod_cast hK2
    push_cast at h2
    linarith
  rw [c4_cycle_dead G Q _ _ _ ext hG hs hd]
  have e1 : ((L : ℚ)) * Q + Q = ((L + 1 : ℕ) : ℚ) * Q := by
    push_cast; ring
  have e2 : t0 + G * L + G = t0 + (G + G * L) := by omega
  rw [e1, e2]

theorem c4_tail (G Q : ℕ) (R : ℚ) (t : ℕ) (ext : Ext) :
    ∀ m, (updateGameE refJm (c4Consts G Q))^[1 + m] (c4StB R t, ext) =
      (c4StC R (t + 1 + m), ext) := by
  intro m
  induction m with
  | zero =>
    simpa using c4_tick_stale (G : ℚ) (Q : ℚ) R t ext
  | succ m ih =>
    have : 1 + (m + 1) = 1 + m + 1 := by omega
    rw [this, Function.iterate_succ_apply', ih, c4_tick_idle]
    have : t + 1 + m + 1 = t + 1 + (m + 1) := by omega
    rw [this]

theorem c4_claim (G Q S K t0 : ℕ) (ext : Ext)
    (hG : 1 ≤ G) (hQ : 1 ≤ Q) (hK0 : 1 ≤ K)
    (hK1 : (K - 1) * Q < S) (hK2 : S ≤ K * Q) :
    (∀ k, k * Q < S →
      (updateGameE refJm (c4Consts G Q))^[G * k] (c4StA 0 (S : ℚ) 0 t0, ext) =
        (c4StA 0 ((S : ℚ) - (k : ℚ) * Q) ((k : ℚ) * Q) (t0 + G * k), ext)) ∧
    ((updateGameE refJm (c4Consts G Q))^[G * K] (c4StA 0 (S : ℚ) 0 t0, ext) =
        (c4StB ((K : ℚ) * Q) (t0 + G * K), ext)) ∧
    (∀ m, (updateGameE refJm (c4Consts G Q))^[G * K + 1 + m]
        (c4StA 0 (S : ℚ) 0 t0, ext) =
        (c4StC ((K : ℚ) * Q) (t0 + G * K + 1 + m), ext)) ∧
    (K * Q = S ↔ Q ∣ S) := by
  refine ⟨c4_cycles G Q S t0 ext hG,
          c4_deplete G Q S K t0 ext hG hK0 hK1 hK2, ?_, ?_⟩
  · intro m
    have e : G * K + 1 + m = (1 + m) + G * K := by omega
    rw [e, Function.iterate_add_apply,
        c4_deplete G Q S K t0 ext hG hK0 hK1 hK2,
        c4_tail G Q ((K : ℚ) * Q) (t0 + G * K) ext m]
  · constructor
    · intro h
      exact ⟨K, by rw [← h, Nat.mul_comm]⟩
    · rintro ⟨c, rfl⟩
      have hQ0 : 0 < Q := hQ
      have h1 : K - 1 < c := by
        by_contra hcon
        push_neg at hcon
        have : c * Q ≤ (K - 1) * Q := Nat.mul_le_mul_right _ hcon
        have : Q * c ≤ (K - 1) * Q := by
          rw [Nat.mul_comm] at this ⊢
          omega
        omega
      have h2 : c ≤ K := by
        by_contra hcon
        push_neg at hcon
        have : K * Q < c * Q := (Nat.mul_lt_mul_right hQ0).mpr hcon
        rw [Nat.mul_comm c Q] at this
        omega
      have : c = K := by omega
      rw [this, Nat.mul_comm]

theorem c4_claim_witness :
    (∀ k, k * 3 < 4 →
      (updateGameE refJm (c4Consts ((1:ℕ) : ℚ) ((3:ℕ) : ℚ)))^[1 * k]
          (c4StA 0 ((4:ℕ) : ℚ) 0 0, constExt 0) =
        (c4StA 0 (((4:ℕ) : ℚ) - (k : ℚ) * ((3:ℕ) : ℚ)) ((k : ℚ) * ((3:ℕ) : ℚ))
          (0 + 1 * k), constExt 0)) ∧
    ((updateGameE refJm (c4Consts ((1:ℕ) : ℚ) ((3:ℕ) : ℚ)))^[1 * 2]
          (c4StA 0 ((4:ℕ) : ℚ) 0 0, constExt 0) =
        (c4StB (((2:ℕ) : ℚ) * ((3:ℕ) : ℚ)) (0 + 1 * 2), constExt 0)) ∧
    (∀ m, (updateGameE refJm (c4Consts ((1:ℕ) : ℚ) ((3:ℕ) : ℚ)))^[1 * 2 + 1 + m]
          (c4StA 0 ((4:ℕ) : ℚ) 0 0, constExt 0) =
        (c4StC (((2:ℕ) : ℚ) * ((3:ℕ) : ℚ)) (0 + 1 * 2 + 1 + m), constExt 0)) ∧
    (2 * 3 = 4 ↔ 3 ∣ 4) :=
  c4_claim 1 3 4 2 0 (constExt 0) (by decide) (by decide) (by decide)
    (by decide) (by decide)

theorem c4_counter :
    ((updateGameE refJm (c4Consts ((1:ℕ) : ℚ) ((3:ℕ) : ℚ)))^[3]
        (c4StA 0 ((4:ℕ) : ℚ) 0 0, constExt 0)).1.resources.player = 6 ∧
      ((6 : ℚ) ≠ ((4:ℕ) : ℚ)) := by
  have h1 := c4_deplete 1 3 4 2 0 (constExt 0) (by decide) (by decide)
    (by decide) (by decide)
  have h3 := c4_tail 1 3 (((2:ℕ) : ℚ) * ((3:ℕ) : ℚ)) (0 + 1 * 2) (constExt 0) 0
  have hall : (updateGameE refJm (c4Consts ((1:ℕ) : ℚ) ((3:ℕ) : ℚ)))^[(1 + 0) + 1 * 2]
      (c4StA 0 ((4:ℕ) : ℚ) 0 0, constExt 0) =
      (c4StC (((2:ℕ) : ℚ) * ((3:ℕ) : ℚ)) (0 + 1 * 2 + 1 + 0), constExt 0) := by
    rw [Function.iterate_add_apply, h1, h3]
  have hall' : (updateGameE refJm (c4Consts ((1:ℕ) : ℚ) ((3:ℕ) : ℚ)))^[3]
      (c4StA 0 ((4:ℕ) : ℚ) 0 0, constExt 0) =
      (c4StC (((2:ℕ) : ℚ) * ((3:ℕ) : ℚ)) (0 + 1 * 2 + 1 + 0), constExt 0) := hall
  rw [hall']
  constructor
  · norm_num [c4StC, baseState]
  · norm_num

end StarDraft
namespace StarDraft

set_option maxRecDepth 10000

/-- Per-owner `supplyCost` sum over an entity list (the used-supply total the
recomputation loop accumulates). -/
def supplyUsedSum (c : Consts) (o : Owner) (es : List Entity) : ℚ :=
  ((es.filter (fun e => decide (e.owner = o))).map
    (fun e => (c.stats e.type).supplyCost)).sum

/-- Per-owner `supplyProvided` sum over the fully-constructed entities of a
list (the max-supply total before clamping). -/
def supplyMaxSum (c : Consts) (o : Owner) (es : List Entity) : ℚ :=
  ((es.filter (fun e =>
    decide (e.owner = o) && decide ((100:ℚ) ≤ e.constructionProgress))).map
    (fun e => (c.stats e.type).supplyProvided)).sum

theorem supFold (c : Consts) (es : List Entity) : ∀ sp : SupplyPair,
    es.foldl (supStep c) sp =
      ⟨⟨sp.player.used + supplyUsedSum c Owner.PLAYER es,
        sp.player.max + supplyMaxSum c Owner.PLAYER es⟩,
       ⟨sp.ai.used + supplyUsedSum c Owner.AI es,
        sp.ai.max + supplyMaxSum c Owner.AI es⟩⟩ := by
  induction es with
  | nil => intro sp; simp [supplyUsedSum, supplyMaxSum]
  | cons e es ih =>
    intro sp
    simp only [List.foldl_cons, ih]
    rcases ho : e.owner with _ | _ | _ <;>
      by_cases hc : (100:ℚ) ≤ e.constructionProgress <;>
        simp [supStep, ho, hc, supplyUsedSum, supplyMaxSum, List.filter_cons,
              SupplyPair.mk.injEq, Supply.mk.injEq] <;> (try constructor) <;> ring

theorem computeSupply_eq (c : Consts) (es : List Entity) :
    computeSupply c es =
      ⟨⟨supplyUsedSum c Owner.PLAYER es, min (supplyMaxSum c Owner.PLAYER es) 200⟩,
       ⟨supplyUsedSum c Owner.AI es, min (supplyMaxSum c Owner.AI es) 200⟩⟩ := by
  simp [computeSupply, supFold]

/-- C10: every update advances `gameTime` by exactly one and passes
`difficulty`, `paused`, `camera` and `selection` through unchanged. -/
theorem c10_claim (jm : JsMath) (c : Consts) (p : GameState × Ext) :
    (updateGameE jm c p).1.gameTime = p.1.gameTime + 1 ∧
    (updateGameE jm c p).1.difficulty = p.1.difficulty ∧
    (updateGameE jm c p).1.paused = p.1.paused ∧
    (updateGameE jm c p).1.camera = p.1.camera ∧
    (updateGameE jm c p).1.selection = p.1.selection :=
  ⟨rfl, rfl, rfl, rfl, rfl⟩

/-- C2 (amended): the supply pair stored by `updateGame` is recomputed from
the INPUT entity list (pre-tick): per owner, `used` sums `supplyCost` over
that owner's entities of the input map and `max` clamps the `supplyProvided`
sum of its fully-constructed entities at 200; units spawned or killed during
the very tick are reflected only in the next tick's recomputation. -/
theorem c2_claim (jm : JsMath) (c : Consts) (p : GameState × Ext) :
    (updateGameE jm c p).1.supply =
      ⟨⟨supplyUsedSum c Owner.PLAYER p.1.entities,
        min (supplyMaxSum c Owner.PLAYER p.1.entities) 200⟩,
       ⟨supplyUsedSum c Owner.AI p.1.entities,
        min (supplyMaxSum c Owner.AI p.1.entities) 200⟩⟩ :=
  computeSupply_eq c p.1.entities

/-- A production state about to spawn: one player barracks one tick from
completing a queued marine. -/
def spawnSt : GameState := baseState
  [{ baseEnt "B1" EntityType.BARRACKS Owner.PLAYER ⟨0,0⟩ 1000 with
     trainQueue := [EntityType.MARINE], trainProgress := 1 }] 1

/-- C2 (counterexample): after the marine spawns, the stored `used` (computed
pre-tick, 0) differs from the supply-cost sum over the returned entity list
(which now holds the marine, cost 1). -/
theorem c2_counter :
    ¬ ((updateGameE refJm refConsts (spawnSt, constExt 0)).1.supply.player.used =
       supplyUsedSum refConsts Owner.PLAYER
         (updateGameE refJm refConsts (spawnSt, constExt 0)).1.entities) := by
  with_unfolding_all decide

/-- C1 (code bug): `updateGame` is not a function of the game state and a
seed alone — the spawn-offset draws come from the ambient `Math.random()`
stream (the `SeededRandom` class in random.ts is never used by the engine),
so two runs from the SAME state under different ambient streams return
different entity lists. -/
theorem c1_claim :
    (updateGameE refJm refConsts (spawnSt, constExt 0)).1.entities ≠
    (updateGameE refJm refConsts (spawnSt, constExt (1/2))).1.entities := by
  with_unfolding_all decide

/-- C5 (amended): the victory field is recomputed from the posterior entity
list on every tick — PLAYER whenever the AI holds no buildings (this branch
wins when both sides hold none), else AI whenever the player holds no
buildings, else `none`; it is not latched, so it can change after being set. -/
theorem c5_claim (jm : JsMath) (c : Consts) (p : GameState × Ext) :
    (updateGameE jm c p).1.victory =
      victoryOf (updateGameE jm c p).1.entities ∧
    (∀ es : List Entity, victoryOf es = some Owner.PLAYER ↔
      (countOwnedBuildings Owner.AI es = 0 ∧ 0 < es.length)) ∧
    (∀ es : List Entity, victoryOf es = some Owner.AI ↔
      (countOwnedBuildings Owner.AI es ≠ 0 ∧
       countOwnedBuildings Owner.PLAYER es = 0 ∧ 0 < es.length)) ∧
    (∀ es : List Entity, victoryOf es = none ↔
      (es.length = 0 ∨
       (countOwnedBuildings Owner.AI es ≠ 0 ∧
        countOwnedBuildings Owner.PLAYER es ≠ 0))) := by
  refine ⟨rfl, ?_, ?_, ?_⟩
  · intro es
    simp only [victoryOf]
    split_ifs with h1 h2
    · exact ⟨fun _ => h1, fun _ => rfl⟩
    · exact ⟨fun h => absurd (Option.some.inj h) (by decide),
             fun h => absurd h h1⟩
    · exact ⟨fun h => h.elim, fun h => absurd h h1⟩
  · intro es
    simp only [victoryOf]
    split_ifs with h1 h2
    · exact ⟨fun h => absurd (Option.some.inj h) (by decide),
             fun h => absurd h1.1 h.1⟩
    · exact ⟨fun _ => ⟨fun hc => h1 ⟨hc, h2.2⟩, h2.1, h2.2⟩, fun _ => rfl⟩
    · exact ⟨fun h => h.elim,
             fun h => absurd ⟨h.2.1, h.2.2⟩ h2⟩
  · intro es
    simp only [victoryOf]
    split_ifs with h1 h2
    · constructor
      · intro h; exact h.elim
      · intro h
        rcases h with h | h
        · exact absurd h1.2 (by omega)
        · exact absurd h1.1 h.1
    · constructor
      · intro h; exact h.elim
      · intro h
        rcases h with h | h
        · exact absurd h2.2 (by omega)
        · exact absurd h2.1 h.2
    · constructor
      · intro _
        by_cases hl : es.length = 0
        · exact Or.inl hl
        · refine Or.inr ⟨fun hc => h1 ⟨hc, by omega⟩, fun hc => h2 ⟨hc, by omega⟩⟩
      · intro _; rfl

/-- An attack one tick from deciding the match the other way: a player marine
(cooldown 1) against the AI's last building at 6 hp. -/
def c5St : GameState :=
  baseState
    [{ baseEnt "M" EntityType.MARINE Owner.PLAYER ⟨0,0⟩ 50 with
       state := EState.ATTACKING, targetId := some "B", cooldown := 1 },
     baseEnt "B" EntityType.BARRACKS Owner.AI ⟨0,0⟩ 6] 1

/-- C5 (counterexample): the victory field is NOT terminal — one tick in it
reads AI (player holds no buildings), the next tick the marine destroys the
AI's last building and it flips to PLAYER. -/
theorem c5_counter :
    (updateGameE refJm refConsts (c5St, constExt 0)).1.victory
        = some Owner.AI ∧
    (updateGameE refJm refConsts
        (updateGameE refJm refConsts (c5St, constExt 0))).1.victory
        = some Owner.PLAYER := by
  with_unfolding_all decide

/-- C8 (amended): when an entity's own death processing runs with hp ≤ 0, the
entity's key is deleted from `newEntities`: no binding of its id survives
into the returned map. (Damage applied by entities that act LATER in the same
tick is only seen by the victim's next-tick processing; see the
counterexample.) -/
theorem c8_claim (jm : JsMath) (st : LoopSt) (i : ℕ)
    (h : (selfGet st i).hp ≤ 0) :
    (deathBlock jm st i).ar.news.filter
      (fun b => b.1 == (selfGet st i).id) = [] := by
  simp only [deathBlock]
  rw [if_pos h]
  simp only [Arena.newsDelete]
  rw [List.filter_filter]
  rw [List.filter_eq_nil_iff]
  intro b _
  simp

/-- A one-entity arena holding a dead marine at store index 0. -/
def c8St : LoopSt :=
  ⟨⟨[baseEnt "D" EntityType.MARINE Owner.PLAYER ⟨0,0⟩ 0], [("D", 0)],
    [("D", 0)]⟩, [], [], [], ⟨0, 0⟩, constExt 0⟩

theorem c8_claim_witness :
    (deathBlock refJm c8St 0).ar.news.filter
      (fun b => b.1 == (selfGet c8St 0).id) = [] :=
  c8_claim refJm c8St 0 (by norm_num [selfGet, Arena.obj, c8St, baseEnt])

/-- A doomed marine that acts before its killer: the AI marine "A" applies
fatal damage to "T" after "T"'s own death check already ran. -/
def corpseSt : GameState :=
  baseState
    [baseEnt "T" EntityType.MARINE Owner.PLAYER ⟨0,0⟩ 5,
     { baseEnt "A" EntityType.MARINE Owner.AI ⟨0,0⟩ 50 with
       state := EState.ATTACKING, targetId := some "T" }] 1

/-- C8 (counterexample): an entity whose hp drops to ≤ 0 during the tick is
NOT always removed before `updateGame` returns — when the killer iterates
after the victim, the corpse survives into the returned entity list. -/
theorem c8_counter :
    ((updateGameE refJm refConsts (corpseSt, constExt 0)).1.entities.any
      (fun e => decide (e.hp ≤ 0))) = true := by
  with_unfolding_all decide

end StarDraft

namespace StarDraft

theorem netChars_getD_mem (i : ℕ) (h : i < netChars.length) :
    netChars.getD i ' ' ∈ netChars := by
  rw [List.getD_eq_getElem netChars ' ' h]
  exact List.getElem_mem h

theorem floor_idx_lt (r : ℚ) (h0 : 0 ≤ r) (h1 : r < 1) :
    (⌊r * (netChars.length : ℚ)⌋).toNat < netChars.length := by
  have hlen : (netChars.length : ℚ) = 31 := by norm_num [netChars]
  have hf : ⌊r * (netChars.length : ℚ)⌋ < (netChars.length : ℤ) := by
    apply Int.floor_lt.mpr
    rw [hlen]
    push_cast
    norm_num [netChars]
    nlinarith
  have hlenN : netChars.length = 31 := by decide
  omega

theorem generateShortId_len (x : Ext)
    (hx : ∀ n, 0 ≤ x.rnd n ∧ x.rnd n < 1) :
    (generateShortId x).1.length = 4 ∧
    (∀ ch ∈ (generateShortId x).1.data, ch ∈ netChars) ∧
    (generateShortId x).2.rnd = x.rnd := by
  have hmem : ∀ n, netChars.getD ((⌊x.rnd n * (netChars.length : ℚ)⌋).toNat) ' '
      ∈ netChars := fun n =>
    netChars_getD_mem _ (floor_idx_lt (x.rnd n) (hx n).1 (hx n).2)
  refine ⟨?_, ?_, ?_⟩
  · rfl
  · intro ch hch
    simp only [generateShortId, List.range, List.range.loop, List.foldl_cons,
      List.foldl_nil, Ext.draw, String.data] at hch
    simp only [List.nil_append, List.cons_append, List.mem_cons,
      List.mem_singleton, List.not_mem_nil, or_false] at hch
    rcases hch with h | h | h | h <;> (subst h; exact hmem _)
  · rfl

theorem attemptHost_spec (taken : String → Bool) :
    ∀ fuel (x : Ext), (∀ n, 0 ≤ x.rnd n ∧ x.rnd n < 1) →
      ∀ id x', attemptHost taken fuel x = Except.ok (id, x') →
        id.length = 4 ∧ (∀ ch ∈ id.data, ch ∈ netChars) ∧ taken id = false := by
  intro fuel
  induction fuel with
  | zero =>
    intro x _ id x' h
    simp [attemptHost] at h
  | succ fuel ih =>
    intro x hx id x' h
    simp only [attemptHost] at h
    by_cases ht : taken (generateShortId x).1
    · rw [if_pos ht] at h
      have hx2 : ∀ n, 0 ≤ (generateShortId x).2.rnd n ∧
          (generateShortId x).2.rnd n < 1 := by
        have hr := (generateShortId_len x hx).2.2
        rw [hr]
        exact hx
      exact ih (generateShortId x).2 hx2 id x' h
    · rw [if_neg ht] at h
      have hid : id = (generateShortId x).1 := by
        cases h
        rfl
      subst hid
      obtain ⟨h1, h2, _⟩ := generateShortId_len x hx
      exact ⟨h1, h2, by simpa using ht⟩

/-- C9 (amended): every room code the host mints is a 4-character string over
the fixed 31-symbol alphabet (no I, O, 0, 1 or Q), a code already taken
triggers regeneration (a successful host never returns a taken code), and the
alphabet has 31 symbols, not the 32 the spec announces. -/
theorem c9_claim (taken : String → Bool) (x : Ext) (id : String) (x' : Ext)
    (hx : ∀ n, 0 ≤ x.rnd n ∧ x.rnd n < 1)
    (h : hostGame taken x = Except.ok (id, x')) :
    id.length = 4 ∧ (∀ ch ∈ id.data, ch ∈ netChars) ∧ taken id = false ∧
    netChars.length = 31 ∧
    ('I' ∉ netChars ∧ 'O' ∉ netChars ∧ '0' ∉ netChars ∧ '1' ∉ netChars ∧
     'Q' ∉ netChars) := by
  obtain ⟨h1, h2, h3⟩ := attemptHost_spec taken 11 x hx id x' h
  exact ⟨h1, h2, h3, by decide, by decide, by decide, by decide, by decide,
    by decide⟩

theorem c9_claim_witness :
    (generateShortId (constExt 0)).1.length = 4 ∧
    (∀ ch ∈ (generateShortId (constExt 0)).1.data, ch ∈ netChars) ∧
    (fun _ : String => false) (generateShortId (constExt 0)).1 = false ∧
    netChars.length = 31 ∧
    ('I' ∉ netChars ∧ 'O' ∉ netChars ∧ '0' ∉ netChars ∧ '1' ∉ netChars ∧
     'Q' ∉ netChars) :=
  c9_claim (fun _ => false) (constExt 0) (generateShortId (constExt 0)).1
    (generateShortId (constExt 0)).2
    (by intro n; constructor <;> norm_num [constExt])
    rfl

/-- C9 (counterexample): the room-code alphabet has 31 symbols, not 32 — `Z`
is kept but `I`, `O`, `0`, `1`, `Q` are all dropped from the 36 alphanumerics,
leaving 31. -/
theorem c9_counter : netChars.length = 31 ∧ ¬ netChars.length = 32 := by
  decide

end StarDraft

namespace StarDraft

set_option maxRecDepth 10000

/-- The score `acquireTarget` assigns an eligible candidate: +5000 for a
candidate currently targeting the attacker, +1000 for a mobile unit versus
+100 for a structure, minus raw distance. -/
def targetScore (jm : JsMath) (entity e : Entity) : ℚ :=
  (if e.targetId = some entity.id then 5000 else 0) +
  (if ¬ isBuilding e.type then 1000 else 100) -
  getDistance jm entity.position e.position

/-- Eligibility in `acquireTarget`: not garrisoned, hostile, alive, not
terrain, and strictly inside `range + 250` (vision plays no part). -/
def targetEligible (jm : JsMath) (c : Consts) (entity e : Entity) : Prop :=
  e.state ≠ EState.GARRISONED ∧ e.owner ≠ entity.owner ∧
  e.owner ≠ Owner.NEUTRAL ∧ 0 < e.hp ∧ e.type ≠ EntityType.MOUNTAIN ∧
  e.type ≠ EntityType.WATER ∧
  getDistance jm entity.position e.position < (c.stats entity.type).range + 250

/-- The loop body of `acquireTarget`, named for reasoning. -/
def acqStep (jm : JsMath) (c : Consts) (entity : Entity)
    (best : Option (Entity × ℚ)) (e : Entity) : Option (Entity × ℚ) :=
  let stats := c.stats entity.type
  let searchRange := stats.range + 250
  if e.state = EState.GARRISONED then best
  else if e.owner ≠ entity.owner ∧ e.owner ≠ Owner.NEUTRAL ∧ 0 < e.hp ∧
      e.type ≠ EntityType.MOUNTAIN ∧ e.type ≠ EntityType.WATER then
    let d := getDistance jm entity.position e.position
    if d < searchRange then
      let score : ℚ :=
        (if e.targetId = some entity.id then 5000 else 0) +
        (if ¬ isBuilding e.type then 1000 else 100) - d
      match best with
      | none => some (e, score)
      | some (_, bs) => if score > bs then some (e, score) else best
    else best
  else best

theorem acquireTarget_eq_fold (jm : JsMath) (c : Consts) (entity : Entity)
    (es : List Entity) :
    acquireTarget jm c entity es =
      (es.foldl (acqStep jm c entity) none).map Prod.fst := rfl

instance targetEligible.instDecidable (jm : JsMath) (c : Consts)
    (entity e : Entity) : Decidable (targetEligible jm c entity e) := by
  unfold targetEligible
  infer_instance

theorem acqStep_eq (jm : JsMath) (c : Consts) (entity : Entity)
    (acc : Option (Entity × ℚ)) (e : Entity) :
    acqStep jm c entity acc e =
      if targetEligible jm c entity e then
        match acc with
        | none => some (e, targetScore jm entity e)
        | some (b, bs) =>
          if targetScore jm entity e > bs then
            some (e, targetScore jm entity e)
          else some (b, bs)
      else acc := by
  by_cases h1 : e.state = EState.GARRISONED
  · have hne : ¬ targetEligible jm c entity e := fun hel => hel.1 h1
    simp only [acqStep, h1, if_true, if_pos, hne, if_neg, not_false_iff,
      if_false]
  · by_cases h2 : e.owner ≠ entity.owner ∧ e.owner ≠ Owner.NEUTRAL ∧
        0 < e.hp ∧ e.type ≠ EntityType.MOUNTAIN ∧ e.type ≠ EntityType.WATER
    · by_cases h3 : getDistance jm entity.position e.position <
          (c.stats entity.type).range + 250
      · have hel : targetEligible jm c entity e :=
          ⟨h1, h2.1, h2.2.1, h2.2.2.1, h2.2.2.2.1, h2.2.2.2.2, h3⟩
        simp only [acqStep, targetScore, if_neg h1, if_pos h2, if_pos h3,
          if_pos hel]
        cases acc with
        | none => rfl
        | some p => rfl
      · have hne : ¬ targetEligible jm c entity e := fun hel =>
          h3 hel.2.2.2.2.2.2
        simp only [acqStep, if_neg h1, if_pos h2, if_neg h3, if_neg hne]
    · have hne : ¬ targetEligible jm c entity e := fun hel =>
        h2 ⟨hel.2.1, hel.2.2.1, hel.2.2.2.1, hel.2.2.2.2.1, hel.2.2.2.2.2.1⟩
      simp only [acqStep, if_neg h1, if_neg h2, if_neg hne]

/-- Loop invariant of the `acquireTarget` fold over the already-visited
prefix: an empty accumulator means no eligible candidate was seen; a filled
one holds the first eligible candidate of maximal score seen so far, with its
score. -/
def AccInv (jm : JsMath) (c : Consts) (entity : Entity) (seen : List Entity) :
    Option (Entity × ℚ) → Prop
  | none => ∀ e ∈ seen, ¬ targetEligible jm c entity e
  | some (b, s) =>
    s = targetScore jm entity b ∧ targetEligible jm c entity b ∧
    (∃ l r, seen = l ++ b :: r ∧ ∀ e ∈ l, targetEligible jm c entity e →
      targetScore jm entity e < s) ∧
    (∀ e ∈ seen, targetEligible jm c entity e → targetScore jm entity e ≤ s)

theorem acq_fold_inv (jm : JsMath) (c : Consts) (entity : Entity) :
    ∀ (es seen : List Entity) (acc : Option (Entity × ℚ)),
      AccInv jm c entity seen acc →
      AccInv jm c entity (seen ++ es) (es.foldl (acqStep jm c entity) acc) := by
  intro es
  induction es with
  | nil => intro seen acc h; simpa using h
  | cons e es ih =>
    intro seen acc h
    rw [List.foldl_cons]
    have key : AccInv jm c entity (seen ++ [e]) (acqStep jm c entity acc e) := by
      rw [acqStep_eq]
      by_cases hel : targetEligible jm c entity e
      · rw [if_pos hel]
        rcases acc with _ | ⟨b, s⟩
        · refine ⟨rfl, hel, ⟨seen, [], rfl, ?_⟩, ?_⟩
          · intro e2 he2 hel2
            exact absurd hel2 (h e2 he2)
          · intro e2 he2 hel2
            rcases List.mem_append.mp he2 with h2 | h2
            · exact absurd hel2 (h e2 h2)
            · rw [List.mem_singleton.mp h2]
        · obtain ⟨hs, helb, ⟨l, r, hsp, hlt⟩, hub⟩ := h
          change AccInv jm c entity (seen ++ [e])
            (if targetScore jm entity e > s then
              some (e, targetScore jm entity e) else some (b, s))
          by_cases hgt : targetScore jm entity e > s
          · rw [if_pos hgt]
            refine ⟨rfl, hel, ⟨seen, [], rfl, ?_⟩, ?_⟩
            · intro e2 he2 hel2
              exact lt_of_le_of_lt (hub e2 he2 hel2) hgt
            · intro e2 he2 hel2
              rcases List.mem_append.mp he2 with h2 | h2
              · exact le_of_lt (lt_of_le_of_lt (hub e2 h2 hel2) hgt)
              · rw [List.mem_singleton.mp h2]
          · rw [if_neg hgt]
            refine ⟨hs, helb, ⟨l, r ++ [e], by rw [hsp]; simp, hlt⟩, ?_⟩
            intro e2 he2 hel2
            rcases List.mem_append.mp he2 with h2 | h2
            · exact hub e2 h2 hel2
            · rw [List.mem_singleton.mp h2]
              exact le_of_not_lt hgt
      · rw [if_neg hel]
        rcases acc with _ | ⟨b, s⟩
        · intro e2 he2
          rcases List.mem_append.mp he2 with h2 | h2
          · exact h e2 h2
          · rw [List.mem_singleton.mp h2]
            exact hel
        · obtain ⟨hs, helb, ⟨l, r, hsp, hlt⟩, hub⟩ := h
          refine ⟨hs, helb, ⟨l, r ++ [e], by rw [hsp]; simp, hlt⟩, ?_⟩
          intro e2 he2 hel2
          rcases List.mem_append.mp he2 with h2 | h2
          · exact hub e2 h2 hel2
          · rw [List.mem_singleton.mp h2] at hel2
            exact absurd hel2 hel
    have hres := ih (seen ++ [e]) _ key
    simpa [List.append_assoc] using hres

/-- C7 (amended): `acquireTarget` returns `none` exactly when no candidate is
eligible (hostile, alive, non-garrisoned, non-terrain, strictly inside
`range + 250` — vision is never consulted); otherwise it returns the first
candidate, in map iteration order, of maximal score (+5000 retaliation,
+1000 unit / +100 structure, − distance). -/
theorem c7_claim (jm : JsMath) (c : Consts) (entity : Entity)
    (es : List Entity) :
    (acquireTarget jm c entity es = none ↔
      ∀ e ∈ es, ¬ targetEligible jm c entity e) ∧
    (∀ b, acquireTarget jm c entity es = some b →
      targetEligible jm c entity b ∧
      (∀ e ∈ es, targetEligible jm c entity e →
        targetScore jm entity e ≤ targetScore jm entity b) ∧
      (∃ l r, es = l ++ b :: r ∧ ∀ e ∈ l, targetEligible jm c entity e →
        targetScore jm entity e < targetScore jm entity b)) := by
  have hbase : AccInv jm c entity [] none := by
    intro e2 he2
    exact absurd he2 (List.not_mem_nil e2)
  have hinv := acq_fold_inv jm c entity es [] none hbase
  rw [List.nil_append] at hinv
  rw [acquireTarget_eq_fold]
  constructor
  · constructor
    · intro h
      rcases hacc : es.foldl (acqStep jm c entity) none with _ | ⟨b, s⟩
      · rw [hacc] at hinv
        exact hinv
      · rw [hacc] at h
        exact absurd h (by simp)
    · intro h
      rcases hacc : es.foldl (acqStep jm c entity) none with _ | ⟨b, s⟩
      · rfl
      · rw [hacc] at hinv
        obtain ⟨_, helb, ⟨l, r, hsp, _⟩, _⟩ := hinv
        have hmem : b ∈ es := by
          rw [hsp]
          simp
        exact absurd helb (h b hmem)
  · intro b hb
    rcases hacc : es.foldl (acqStep jm c entity) none with _ | ⟨b2, s⟩
    · rw [hacc] at hb
      exact absurd hb (by simp)
    · rw [hacc] at hb hinv
      have hb2 : b2 = b := by
        simpa using hb
      subst hb2
      obtain ⟨hs, helb, ⟨l, r, hsp, hlt⟩, hub⟩ := hinv
      subst hs
      exact ⟨helb, hub, l, r, hsp, hlt⟩

/-- Modelled from the spec: target acquisition as the specification words it,
with the search radius "the larger of vision or range-plus-margin"; the body
is otherwise the code's fold. Compared against `acquireTarget` (which uses
`range + 250` only and never reads vision). -/
def acquireTargetSpec (jm : JsMath) (c : Consts) (entity : Entity)
    (es : List Entity) : Option Entity :=
  let stats := c.stats entity.type
  let searchRange := max stats.vision (stats.range + 250)
  (es.foldl (fun (best : Option (Entity × ℚ)) e =>
    if e.state = EState.GARRISONED then best
    else if e.owner ≠ entity.owner ∧ e.owner ≠ Owner.NEUTRAL ∧ 0 < e.hp ∧
        e.type ≠ EntityType.MOUNTAIN ∧ e.type ≠ EntityType.WATER then
      let d := getDistance jm entity.position e.position
      if d < searchRange then
        let score : ℚ :=
          (if e.targetId = some entity.id then 5000 else 0) +
          (if ¬ isBuilding e.type then 1000 else 100) - d
        match best with
        | none => some (e, score)
        | some (_, bs) => if score > bs then some (e, score) else best
      else best
    else best)
    none).map Prod.fst

/-- A worker (vision 300, range 15) and a hostile marine at distance 280:
inside vision, outside range + 250. -/
def c7At : Entity := baseEnt "AT" EntityType.WORKER Owner.PLAYER ⟨0, 0⟩ 40

def c7E : Entity := baseEnt "E" EntityType.MARINE Owner.AI ⟨280, 0⟩ 50

theorem c7_sqrt : Nat.sqrt 78400 = 280 := by
  have h1 : 280 ≤ Nat.sqrt 78400 := Nat.le_sqrt.mpr (by norm_num)
  have h2 : Nat.sqrt 78400 < 281 := Nat.sqrt_lt.mpr (by norm_num)
  omega

theorem c7_dist : getDistance refJm ⟨0, 0⟩ ⟨280, 0⟩ = 280 := by
  have hq : ((0:ℚ) - 280) ^ 2 + ((0:ℚ) - 0) ^ 2 = 78400 := by norm_num
  simp only [getDistance, refJm]
  rw [hq]
  have hn : ((78400 : ℚ)).num.toNat = 78400 := rfl
  rw [qsqrt, hn, c7_sqrt]
  norm_num

/-- C7 (counterexample): the search radius is `range + 250` alone, not "the
larger of vision or range-plus-margin" — a candidate inside the worker's
vision (280 < 300) but outside `range + 250` (280 ≥ 265) is acquired under
the spec's radius and missed by the code. -/
theorem c7_counter :
    acquireTarget refJm refConsts c7At [c7E] = none ∧
    acquireTargetSpec refJm refConsts c7At [c7E] = some c7E ∧
    (refConsts.stats EntityType.WORKER).vision = 300 ∧
    (refConsts.stats EntityType.WORKER).range + 250 = 265 := by
  refine ⟨?_, ?_, by norm_num [refConsts, refStats],
    by norm_num [refConsts, refStats]⟩
  · norm_num [acquireTarget, List.foldl_cons, List.foldl_nil, c7_dist,
      c7At, c7E, baseEnt, refConsts, refStats,
      show (EState.IDLE = EState.GARRISONED) = False by decide,
      show (Owner.AI = Owner.PLAYER) = False by decide,
      show (Owner.AI = Owner.NEUTRAL) = False by decide,
      show (EntityType.MARINE = EntityType.MOUNTAIN) = False by decide,
      show (EntityType.MARINE = EntityType.WATER) = False by decide,
      show (EntityType.MARINE = EntityType.WORKER) = False by decide]
  · norm_num [acquireTargetSpec, List.foldl_cons, List.foldl_nil, c7_dist,
      c7At, c7E, baseEnt, refConsts, refStats,
      show (EState.IDLE = EState.GARRISONED) = False by decide,
      show (Owner.AI = Owner.PLAYER) = False by decide,
      show (Owner.AI = Owner.NEUTRAL) = False by decide,
      show (EntityType.MARINE = EntityType.MOUNTAIN) = False by decide,
      show (EntityType.MARINE = EntityType.WATER) = False by decide,
      show (EntityType.MARINE = EntityType.WORKER) = False by decide]

end StarDraft
